import Mathlib

/-!
# Storage subsystem of apollo-controller: embedding and verified properties

Shallow embedding of `apollo/storage.go`, `apollo/storage_ceph.go` and
`apollo/container.go`, of two functions of `client/apollo_containers.go`, and of
the helpers that `mercury/utils_test.go` tests.

* Go `error` results are `Option Err` (`none` is `nil`); `(T, error)` results are
  `Res T`.
* Calls that leave the process (the `ceph`/`rbd` tools, the kernel, the metadata
  store, the container object) are answered by an explicit world record and are
  logged, in call order, in an event trace.
* The process-wide operation map `apolloStorageOngoingOperationMap` is explicit
  state: the list of lock ids that currently have a channel.
-/

namespace Apollo

/-! ## Errors and results -/

/-- Error values. `ext` is an error handed back by a collaborator whose code is
outside the storage layer; the other constructors are the errors that the
storage layer builds itself with `fmt.Errorf` (formatted operands dropped). -/
inductive Err where
  | ext (what : String)
  | noSuchObject
  | noStorageDriver
  | invalidStorageType
  | invalidStorageTypeName
  | idmapRetrieve
  | idmapsNotIdenticalMany
  | idmapsNotIdenticalSingle
  | sourceAndOsdPoolNameDiffer
  | osdPoolDoesNotExist
  | reservedForSnapshots
  | notValidHostname
  | crossPoolCopy
  | cephVersion
  | noRootDevice
  | moreThanOneRootDevice
  deriving DecidableEq, Repr

/-- Result of a Go function returning `(T, error)`. -/
inductive Res (α : Type) where
  | ok (a : α)
  | fail (e : Err)
  deriving DecidableEq, Repr

/-! ## Lock ids (`storage.go`, lines 33-61) -/

def getPoolMountLockID (poolName : String) : String :=
  "mount/pool/" ++ poolName

def getPoolUmountLockID (poolName : String) : String :=
  "umount/pool/" ++ poolName

def getImageCreateLockID (poolName : String) (fingerprint : String) : String :=
  "create/image/" ++ poolName ++ "/" ++ fingerprint

def getContainerMountLockID (poolName : String) (containerName : String) : String :=
  "mount/container/" ++ poolName ++ "/" ++ containerName

def getContainerUmountLockID (poolName : String) (containerName : String) : String :=
  "umount/container/" ++ poolName ++ "/" ++ containerName

def getCustomMountLockID (poolName : String) (volumeName : String) : String :=
  "mount/custom/" ++ poolName ++ "/" ++ volumeName

def getCustomUmountLockID (poolName : String) (volumeName : String) : String :=
  "umount/custom/" ++ poolName ++ "/" ++ volumeName

/-- The seven ways a lock id is built: which constructor, and its arguments. -/
inductive LockKey where
  | poolMount (pool : String)
  | poolUmount (pool : String)
  | imageCreate (pool : String) (fingerprint : String)
  | containerMount (pool : String) (name : String)
  | containerUmount (pool : String) (name : String)
  | customMount (pool : String) (volume : String)
  | customUmount (pool : String) (volume : String)
  deriving DecidableEq, Repr

/-- The lock id of a key, through the constructor function of `storage.go`. -/
def LockKey.lockID : LockKey → String
  | .poolMount p => getPoolMountLockID p
  | .poolUmount p => getPoolUmountLockID p
  | .imageCreate p f => getImageCreateLockID p f
  | .containerMount p n => getContainerMountLockID p n
  | .containerUmount p n => getContainerUmountLockID p n
  | .customMount p v => getCustomMountLockID p v
  | .customUmount p v => getCustomUmountLockID p v

/-- The pool name a key was built from. -/
def LockKey.pool : LockKey → String
  | .poolMount p => p
  | .poolUmount p => p
  | .imageCreate p _ => p
  | .containerMount p _ => p
  | .containerUmount p _ => p
  | .customMount p _ => p
  | .customUmount p _ => p

/-- A name without the path separator. -/
def noSlash (s : String) : Prop := '/' ∉ s.data

instance (s : String) : Decidable (noSlash s) := by
  unfold noSlash; infer_instance

/-! ## Configuration maps -/

/-- Go `map[string]string` as an association list (at most the first entry of a
key is live). -/
abbrev Config := List (String × String)

/-- Map read `m[k]`: the empty string when the key is absent. -/
def cfgGet (m : Config) (k : String) : String :=
  match m.lookup k with
  | some v => v
  | none => ""

/-- Map write `m[k] = v`. -/
def cfgSet (m : Config) (k : String) (v : String) : Config :=
  (k, v) :: m.filter (fun e => e.1 != k)

/-- Map read on a map that may be the nil map: reading a nil map yields "". -/
def cfgGetNil (m : Option Config) (k : String) : String :=
  match m with
  | some c => cfgGet c k
  | none => ""

/-! ## Storage types (`storage.go`, lines 115-165) -/

/-- Go `type storageType int`. -/
abbrev storageType := Int

def storageTypeBtrfs : storageType := 0
def storageTypeCeph : storageType := 1
def storageTypeDir : storageType := 2
def storageTypeLvm : storageType := 3
def storageTypeMock : storageType := 4
def storageTypeZfs : storageType := 5

def storageTypeToString (sType : storageType) : Res String :=
  if sType = storageTypeBtrfs then .ok "btrfs"
  else if sType = storageTypeCeph then .ok "ceph"
  else if sType = storageTypeDir then .ok "dir"
  else if sType = storageTypeLvm then .ok "lvm"
  else if sType = storageTypeMock then .ok "mock"
  else if sType = storageTypeZfs then .ok "zfs"
  else .fail .invalidStorageType

def storageStringToType (sName : String) : Res storageType :=
  if sName = "btrfs" then .ok storageTypeBtrfs
  else if sName = "ceph" then .ok storageTypeCeph
  else if sName = "dir" then .ok storageTypeDir
  else if sName = "lvm" then .ok storageTypeLvm
  else if sName = "mock" then .ok storageTypeMock
  else if sName = "zfs" then .ok storageTypeZfs
  else .fail .invalidStorageTypeName

/-! ## Records of the metadata store -/

/-- The fields of `api.StoragePool` the storage layer reads. -/
structure StoragePool where
  name : String
  driver : String
  config : Config
  deriving DecidableEq, Repr

/-- The fields of `api.StorageVolume` the storage layer reads; `config = none`
is the nil map of a zero-valued `api.StorageVolume`. -/
structure StorageVolume where
  name : String
  description : String
  config : Option Config
  deriving DecidableEq, Repr

/-- The storage object built by `storageInit` (the fields of `storageShared`). -/
structure Storage where
  sType : storageType
  poolID : Int
  pool : StoragePool
  volume : StorageVolume
  deriving DecidableEq, Repr

/-- The container capability used by the storage layer: `Name()` and
`IdmapSet()`; `I` stands for `shared.IdmapSet`, with `=` on `Option I` for
`reflect.DeepEqual` on `*shared.IdmapSet`. -/
structure ContainerHandle (I : Type) where
  Name : String
  IdmapSet : Res (Option I)

/-- How a Go call ends: it returns a value, returns an error, or panics. -/
inductive Outcome (α : Type) where
  | ret (a : α)
  | err (e : Err)
  | panics
  deriving DecidableEq, Repr

/-! ## Mount points (`storage.go`, lines 584-607)

`VarPath` stands for `shared.VarPath`, which joins its arguments below the
daemon's state directory. -/

/-- `getStoragePoolMountPoint`. -/
def getStoragePoolMountPoint (VarPath : List String → String) (poolName : String) : String :=
  VarPath ["storage-pools", poolName]

/-- `getContainerMountPoint`. -/
def getContainerMountPoint (VarPath : List String → String) (poolName : String)
    (containerName : String) : String :=
  VarPath ["storage-pools", poolName, "containers", containerName]

/-- `getSnapshotMountPoint`. -/
def getSnapshotMountPoint (VarPath : List String → String) (poolName : String)
    (snapshotName : String) : String :=
  VarPath ["storage-pools", poolName, "snapshots", snapshotName]

/-- `getImageMountPoint`. -/
def getImageMountPoint (VarPath : List String → String) (poolName : String)
    (fingerprint : String) : String :=
  VarPath ["storage-pools", poolName, "images", fingerprint]

/-- `getStoragePoolVolumeMountPoint`. -/
def getStoragePoolVolumeMountPoint (VarPath : List String → String) (poolName : String)
    (volumeName : String) : String :=
  VarPath ["storage-pools", poolName, "custom", volumeName]

/-! ## Attaching a volume to a container (`storage.go`, lines 319-559) -/

/-- The collaborators of `storageInit` and `storagePoolVolumeAttachInit`: the
metadata store (`db.*`), the driver behind the `storage` interface, the idmap
helpers of package `shared` and the container loader. -/
structure AttachWorld (I : Type) where
  /-- Stands for `db.StoragePoolGet(d.db, poolName)`. -/
  StoragePoolGet : String → Res (Int × StoragePool)
  /-- Stands for `db.StoragePoolVolumeGetType(d.db, volumeName, volumeType, poolID)`. -/
  StoragePoolVolumeGetType : String → Int → Int → Res StorageVolume
  /-- Stands for the selected driver's `StoragePoolInit()`. -/
  StoragePoolInit : storageType → Int → StoragePool → StorageVolume → Option Err
  idmapsetFromString : String → Res (Option I)
  idmapsetToJSON : I → Res String
  /-- Stands for `shared.VarPath(path...)`. -/
  VarPath : List String → String
  storagePoolVolumeTypeToName : Int → Res String
  storagePoolVolumeUsedByContainersGet : String → String → Res (List String)
  containerLoadByName : String → Res (ContainerHandle I)
  /-- Stands for `st.StoragePoolVolumeMount()`. -/
  StoragePoolVolumeMount : Res Bool
  /-- Stands for `st.StoragePoolVolumeUmount()`. -/
  StoragePoolVolumeUmount : Res Bool
  /-- Stands for `idmap.UnshiftRootfs(path)`. -/
  UnshiftRootfs : I → String → Option Err
  /-- Stands for `idmap.ShiftRootfs(path)`. -/
  ShiftRootfs : I → String → Option Err
  /-- Stands for `db.StoragePoolGetID(d.db, poolName)`. -/
  StoragePoolGetID : String → Res Int
  /-- Stands for `db.StoragePoolVolumeUpdate(d.db, name, type, poolID, description, config)`. -/
  StoragePoolVolumeUpdate : String → Int → Int → String → Config → Option Err

/-- The calls of `storagePoolVolumeAttachInit` that act on the volume, its
storage object or the metadata store. -/
inductive AttachEvent (I : Type) where
  | StoragePoolVolumeMount
  | StoragePoolVolumeUmount
  | UnshiftRootfs (idmap : I) (path : String)
  | ShiftRootfs (idmap : I) (path : String)
  | SetStoragePoolVolumeWritable (description : String) (config : Config)
  | StoragePoolVolumeUpdate (volumeName : String) (volumeType : Int) (poolID : Int)
      (description : String) (config : Config)
  deriving DecidableEq, Repr

/-- `storageInit` (lines 319-417). -/
def storageInit {I : Type} (w : AttachWorld I) (poolName : String) (volumeName : String)
    (volumeType : Int) : Res Storage :=
  match w.StoragePoolGet poolName with
  | .fail e => .fail e
  | .ok (poolID, pool) =>
    if pool.driver = "" then .fail .noStorageDriver
    else
      let loaded : Res StorageVolume :=
        if volumeName ≠ "" ∧ volumeType ≥ 0 then
          w.StoragePoolVolumeGetType volumeName volumeType poolID
        else .ok { name := "", description := "", config := none }
      match loaded with
      | .fail e => .fail e
      | .ok volume =>
        match storageStringToType pool.driver with
        | .fail e => .fail e
        | .ok sType =>
          if sType = storageTypeBtrfs ∨ sType = storageTypeDir ∨ sType = storageTypeCeph ∨
              sType = storageTypeLvm ∨ sType = storageTypeMock ∨ sType = storageTypeZfs then
            match w.StoragePoolInit sType poolID pool volume with
            | some e => .fail e
            | none => .ok { sType := sType, poolID := poolID, pool := pool, volume := volume }
          else .fail .invalidStorageType

/-- The serialisation used twice in `storagePoolVolumeAttachInit` (lines 447-453
and 534-542): "[]" for the nil idmap, `idmapsetToJSON` otherwise. -/
def idmapJSON {I : Type} (w : AttachWorld I) (idmap : Option I) : Res String :=
  match idmap with
  | none => .ok "[]"
  | some m => w.idmapsetToJSON m

/-- The loop over the users of the volume (lines 474-488): `none` when the loop
runs to its end, the returned error otherwise. -/
def checkUsers {I : Type} [DecidableEq I] (w : AttachWorld I) (nextIdmap : Option I) :
    List String → Option Err
  | [] => none
  | ctName :: rest =>
    match w.containerLoadByName ctName with
    | .fail _ => checkUsers w nextIdmap rest
    | .ok ct =>
      match ct.IdmapSet with
      | .fail _ => some .idmapRetrieve
      | .ok ctNextIdmap =>
        if nextIdmap ≠ ctNextIdmap then some .idmapsNotIdenticalMany
        else checkUsers w nextIdmap rest

/-- The conflict check on the users of the volume (lines 473-496). -/
def checkUsedBy {I : Type} [DecidableEq I] (w : AttachWorld I) (c : ContainerHandle I)
    (nextIdmap : Option I) (volumeUsedBy : List String) : Option Err :=
  if volumeUsedBy.length > 1 then checkUsers w nextIdmap volumeUsedBy
  else
    match volumeUsedBy with
    | [only] => if only ≠ c.Name then some .idmapsNotIdenticalSingle else none
    | _ => none

/-- Unshift with the last idmap (lines 512-520). -/
def unshiftStep {I : Type} (w : AttachWorld I) (lastIdmap : Option I) (remapPath : String) :
    Option Err × List (AttachEvent I) :=
  match lastIdmap with
  | none => (none, [])
  | some l => (w.UnshiftRootfs l remapPath, [.UnshiftRootfs l remapPath])

/-- Shift with the next idmap (lines 522-530). -/
def shiftStep {I : Type} (w : AttachWorld I) (nextIdmap : Option I) (remapPath : String) :
    Option Err × List (AttachEvent I) :=
  match nextIdmap with
  | none => (none, [])
  | some n => (w.ShiftRootfs n remapPath, [.ShiftRootfs n remapPath])

/-- Mount, unshift, shift (lines 498-531). Yields the error of the block, whether
the unmount was deferred (`ourMount`), and the calls made. -/
def mountAndShift {I : Type} (w : AttachWorld I) (lastIdmap nextIdmap : Option I)
    (remapPath : String) : Option Err × Bool × List (AttachEvent I) :=
  match w.StoragePoolVolumeMount with
  | .fail e => (some e, false, [.StoragePoolVolumeMount])
  | .ok ourMount =>
    let unshifted := unshiftStep w lastIdmap remapPath
    match unshifted.1 with
    | some e => (some e, ourMount, .StoragePoolVolumeMount :: unshifted.2)
    | none =>
      let shifted := shiftStep w nextIdmap remapPath
      (shifted.1, ourMount, .StoragePoolVolumeMount :: (unshifted.2 ++ shifted.2))

/-- The block run when the idmaps differ (lines 465-532). -/
def shiftBlock {I : Type} [DecidableEq I] (w : AttachWorld I) (c : ContainerHandle I)
    (volumeName : String) (volumeTypeName : String) (lastIdmap nextIdmap : Option I)
    (remapPath : String) : Option Err × Bool × List (AttachEvent I) :=
  match w.storagePoolVolumeUsedByContainersGet volumeName volumeTypeName with
  | .fail e => (some e, false, [])
  | .ok volumeUsedBy =>
    match checkUsedBy w c nextIdmap volumeUsedBy with
    | some e => (some e, false, [])
    | none => mountAndShift w lastIdmap nextIdmap remapPath

/-- The deferred unmount: it runs when the function returns, if `ourMount`. -/
def deferredUmount {I : Type} (ourMount : Bool) : List (AttachEvent I) :=
  if ourMount then [.StoragePoolVolumeUmount] else []

/-- The end of `storagePoolVolumeAttachInit` (lines 534-558): serialise the next
idmap again, store it under "volatile.idmap.last", hand the configuration to the
storage object and persist it in the metadata store. -/
def persistLast {I : Type} (w : AttachWorld I) (st : Storage) (config1 : Config)
    (poolName : String) (volumeName : String) (volumeType : Int) (nextIdmap : Option I) :
    Outcome Storage × List (AttachEvent I) :=
  match idmapJSON w nextIdmap with
  | .fail e => (.err e, [])
  | .ok jsonIdmap =>
    let config2 := cfgSet config1 "volatile.idmap.last" jsonIdmap
    let description := st.volume.description
    let setW : AttachEvent I := .SetStoragePoolVolumeWritable description config2
    match w.StoragePoolGetID poolName with
    | .fail e => (.err e, [setW])
    | .ok poolID =>
      let upd : AttachEvent I :=
        .StoragePoolVolumeUpdate volumeName volumeType poolID description config2
      match w.StoragePoolVolumeUpdate volumeName volumeType poolID description config2 with
      | some e => (.err e, [setW, upd])
      | none =>
        (.ret { st with volume := { st.volume with config := some config2 } }, [setW, upd])

/-- `storagePoolVolumeAttachInit` (lines 423-559): how the call ends and the
calls it made, in order. The unmount deferred at line 504 runs when the function
returns, hence after every other call. -/
def storagePoolVolumeAttachInit {I : Type} [DecidableEq I] (w : AttachWorld I)
    (poolName : String) (volumeName : String) (volumeType : Int) (c : ContainerHandle I) :
    Outcome Storage × List (AttachEvent I) :=
  match storageInit w poolName volumeName volumeType with
  | .fail e => (.err e, [])
  | .ok st =>
    let lastString := cfgGetNil st.volume.config "volatile.idmap.last"
    let parsed : Res (Option I) :=
      if lastString ≠ "" then w.idmapsetFromString lastString else .ok none
    match parsed with
    | .fail e => (.err e, [])
    | .ok lastIdmap =>
      match c.IdmapSet with
      | .fail e => (.err e, [])
      | .ok nextIdmap =>
        match idmapJSON w nextIdmap with
        | .fail e => (.err e, [])
        | .ok nextJsonMap =>
          match st.volume.config with
          | none => (.panics, [])
          | some config0 =>
            let config1 := cfgSet config0 "volatile.idmap.next" nextJsonMap
            let remapPath := getStoragePoolVolumeMountPoint w.VarPath poolName volumeName
            match w.storagePoolVolumeTypeToName volumeType with
            | .fail e => (.err e, [])
            | .ok volumeTypeName =>
              let block : Option Err × Bool × List (AttachEvent I) :=
                if nextIdmap ≠ lastIdmap then
                  shiftBlock w c volumeName volumeTypeName lastIdmap nextIdmap remapPath
                else (none, false, [])
              let atReturn := deferredUmount block.2.1
              match block.1 with
              | some e => (.err e, block.2.2 ++ atReturn)
              | none =>
                let persisted :=
                  persistLast w st config1 poolName volumeName volumeType nextIdmap
                (persisted.1, block.2.2 ++ persisted.2 ++ atReturn)

/-- The calls that hand the configuration to the storage object or persist it. -/
def AttachEvent.persists {I : Type} : AttachEvent I → Bool
  | .SetStoragePoolVolumeWritable _ _ => true
  | .StoragePoolVolumeUpdate _ _ _ _ _ => true
  | _ => false

/-- The calls that touch the volume itself: mount, unshift, shift. -/
def AttachEvent.touchesVolume {I : Type} : AttachEvent I → Bool
  | .StoragePoolVolumeMount => true
  | .UnshiftRootfs _ _ => true
  | .ShiftRootfs _ _ => true
  | _ => false

/-- The state in which `storagePoolVolumeAttachInit` reaches its conflict check
(line 473): every earlier step succeeded, the idmaps `lastIdmap` and `nextIdmap`
were obtained, and the metadata store reported `volumeUsedBy`. -/
def ReachesConflictCheck {I : Type} (w : AttachWorld I) (poolName volumeName : String)
    (volumeType : Int) (c : ContainerHandle I) (lastIdmap nextIdmap : Option I)
    (volumeUsedBy : List String) : Prop :=
  ∃ (st : Storage) (config0 : Config) (json typeName : String),
    storageInit w poolName volumeName volumeType = .ok st ∧
    st.volume.config = some config0 ∧
    (if cfgGet config0 "volatile.idmap.last" ≠ "" then
        w.idmapsetFromString (cfgGet config0 "volatile.idmap.last")
      else .ok none) = .ok lastIdmap ∧
    c.IdmapSet = .ok nextIdmap ∧
    idmapJSON w nextIdmap = .ok json ∧
    w.storagePoolVolumeTypeToName volumeType = .ok typeName ∧
    w.storagePoolVolumeUsedByContainersGet volumeName typeName = .ok volumeUsedBy

/-! ## The ceph driver (`storage_ceph.go`) -/

/-- Modelled from the spec: the constant `storagePoolVolumeTypeNameContainer` is
declared outside the files at hand; the spec names container volumes
`container_<name>`. -/
def storagePoolVolumeTypeNameContainer : String := "container"

/-- Modelled from the spec: the constant `storagePoolVolumeTypeNameImage` is
declared outside the files at hand; the spec calls these volumes image volumes. -/
def storagePoolVolumeTypeNameImage : String := "image"

/-- Modelled from the spec: the constant `storagePoolVolumeTypeNameCustom` is
declared outside the files at hand; the spec calls these volumes custom volumes. -/
def storagePoolVolumeTypeNameCustom : String := "custom"

/-- The driver object `storageCeph` with the fields of the embedded
`storageShared` that the driver reads. -/
structure storageCeph where
  ClusterName : String
  OSDPoolName : String
  UserName : String
  PGNum : String
  poolID : Int
  pool : StoragePool
  volume : StorageVolume
  /-- Field `sType` of `storageShared`; 0 is the zero value of a new object. -/
  sType : storageType := 0
  /-- Field `sTypeName` of `storageShared`. -/
  sTypeName : String := ""
  /-- Field `sTypeVersion` of `storageShared`. -/
  sTypeVersion : String := ""
  deriving DecidableEq, Repr

/-- The container capability used by the ceph driver. `PoolName` stands for the
pool name given by `Storage().GetContainerPoolInfo()`, `Snapshots` for the names
of the containers that `Snapshots()` returns, in its order. -/
structure Container where
  Name : String
  Path : String
  IsPrivileged : Bool
  TemplateApply : String → Option Err
  StorageStart : Res Bool
  Snapshots : Res (List String)
  PoolName : String

/-- Calls of the ceph driver that act on the cluster, the kernel, the file
system, the metadata store or the operation map, as logged in call order. The
cluster and user arguments, equal in every call of one driver object, are not
repeated in the events. -/
inductive CephEvent where
  | osdPoolCreate (osdPool : String) (pgNum : String)
  | osdPoolDestroy (osdPool : String)
  | MkdirAll (path : String) (mode : Nat)
  | Remove (path : String)
  | RemoveAll (path : String)
  | Chmod (path : String) (mode : Nat)
  | Symlink (target : String) (link : String)
  | rbdVolumeCreate (osdPool : String) (volume : String) (volumeType : String) (size : String)
  | rbdVolumeDelete (osdPool : String) (volume : String) (volumeType : String)
  | rbdVolumeMap (osdPool : String) (volume : String) (volumeType : String)
  | rbdVolumeUnmap (osdPool : String) (volume : String) (volumeType : String)
  | rbdVolumeMarkDeleted (osdPool : String) (volume : String) (volumeType : String)
  | rbdCloneCreate (srcPool : String) (srcVolume : String) (srcType : String)
      (srcSnapshot : String) (dstPool : String) (dstVolume : String) (dstType : String)
  | rbdSnapshotUnprotect (osdPool : String) (volume : String) (volumeType : String)
      (snapshot : String)
  | rbdSnapshotsPurge (osdPool : String) (volume : String) (volumeType : String)
  | ImageCreate (fingerprint : String)
  | deleteImageDbPoolVolume (fingerprint : String)
  | tryMount (device : String) (mountPoint : String) (filesystem : String)
  | tryUnmount (mountPoint : String) (flags : Nat)
  | shiftRootfs (containerName : String)
  | TemplateApply (containerName : String) (trigger : String)
  | waitChannel (lockID : String)
  | mapInsert (lockID : String)
  | mapCloseDelete (lockID : String)
  | rbdVersion
  | rbdVolumeRename (osdPool : String) (volumeType : String) (oldName : String)
      (newName : String)
  | rbdVolumeRestore (osdPool : String) (volume : String) (volumeType : String)
      (snapshot : String)
  | rbdSnapshotDelete (osdPool : String) (volume : String) (volumeType : String)
      (snapshot : String)
  | rbdSnapshotCreate (osdPool : String) (volume : String) (volumeType : String)
      (snapshot : String)
  | Rename (oldPath : String) (newPath : String)
  | copyWithSnapshots (sourceVolume : String) (targetVolume : String) (parent : String)
  | copyWithoutSnapshotsFull (target : String) (source : String)
  | copyWithoutSnapshotsSparse (target : String) (source : String)
  | StorageStart (containerName : String)
  | StorageStop (containerName : String)
  deriving DecidableEq, Repr

/-- The collaborators of the ceph driver: the `ceph` and `rbd` command wrappers
(`ceph*` functions), package `os`, package `shared`, mount helpers and the
methods of `storageShared`. Each field answers one call, and the answer depends
on the arguments of the call only: during one call of the driver a path keeps
the answer that `PathExists` and `Remove` give for it, also when that call
creates or removes the path. Where the driver's outcome turns on what it did to
the file system itself (`ContainerRename`), the file system is a state instead
(`FileSystem`). -/
structure CephWorld where
  /-- Stands for `cephOSDPoolExists(cluster, osdPool, user)`. -/
  cephOSDPoolExists : String → String → String → Bool
  /-- Stands for `shared.TryRunCommand("ceph", ..., "osd", "pool", "create", osdPool, pgNum)`,
  by cluster, user, OSD pool and pg number. -/
  osdPoolCreate : String → String → String → String → Res String
  /-- Stands for `shared.RunCommand("ceph", ..., "osd", "pool", "get", osdPool, "pg_num")`,
  by cluster, user and OSD pool. -/
  osdPoolGetPgNum : String → String → String → Res String
  /-- Stands for `cephOSDPoolDestroy(cluster, osdPool, user)`. -/
  cephOSDPoolDestroy : String → String → String → Option Err
  MkdirAll : String → Nat → Option Err
  Remove : String → Option Err
  RemoveAll : String → Option Err
  Chmod : String → Nat → Option Err
  Symlink : String → String → Option Err
  PathExists : String → Bool
  /-- Stands for `cephRBDVolumeExists(cluster, osdPool, volume, volumeType, user)`. -/
  cephRBDVolumeExists : String → String → String → String → String → Bool
  /-- Stands for `cephRBDVolumeCreate(cluster, osdPool, volume, volumeType, size, user)`. -/
  cephRBDVolumeCreate : String → String → String → String → String → String → Option Err
  /-- Stands for `cephRBDVolumeDelete(cluster, osdPool, volume, volumeType, user)`. -/
  cephRBDVolumeDelete : String → String → String → String → String → Option Err
  /-- Stands for `cephRBDVolumeMap(cluster, osdPool, volume, volumeType, user)`. -/
  cephRBDVolumeMap : String → String → String → String → String → Res String
  /-- Stands for `cephRBDVolumeUnmap(cluster, osdPool, volume, volumeType, user, true)`. -/
  cephRBDVolumeUnmap : String → String → String → String → String → Option Err
  /-- Stands for `cephRBDVolumeMarkDeleted(cluster, osdPool, volume, volumeType, user)`. -/
  cephRBDVolumeMarkDeleted : String → String → String → String → String → Option Err
  /-- Stands for `cephRBDCloneCreate(cluster, srcPool, srcVolume, srcType, srcSnapshot,
  dstPool, dstVolume, dstType, user)`. -/
  cephRBDCloneCreate : String → String → String → String → String → String → String →
    String → String → Option Err
  /-- Stands for `cephRBDSnapshotListClones(cluster, osdPool, volume, volumeType, snapshot,
  user)`. -/
  cephRBDSnapshotListClones : String → String → String → String → String → String →
    Res (List String)
  /-- Stands for `cephRBDSnapshotUnprotect(cluster, osdPool, volume, volumeType, snapshot,
  user)`. -/
  cephRBDSnapshotUnprotect : String → String → String → String → String → String → Option Err
  /-- Stands for `cephRBDSnapshotsPurge(cluster, osdPool, volume, volumeType, user)`. -/
  cephRBDSnapshotsPurge : String → String → String → String → String → Option Err
  /-- Stands for `getRBDMappedDevPath(cluster, osdPool, volumeType, volume, true, user)`. -/
  getRBDMappedDevPath : String → String → String → String → String → String × Int
  /-- Stands for `tryMount(src, dst, fs, flags, options)`. -/
  tryMount : String → String → String → Nat → String → Option Err
  /-- Stands for `tryUnmount(path, flags)`. -/
  tryUnmount : String → Nat → Option Err
  getRBDFilesystem : storageCeph → String
  getRBDMountOptions : storageCeph → String
  apolloResolveMountoptions : String → Nat × String
  /-- Stands for `s.ImageCreate(fingerprint)`, taken as one call. -/
  ImageCreate : storageCeph → String → Option Err
  /-- Stands for `s.deleteImageDbPoolVolume(fingerprint)`. -/
  deleteImageDbPoolVolume : storageCeph → String → Option Err
  /-- Stands for `s.shiftRootfs(container)`, by container name. -/
  shiftRootfs : String → Option Err
  /-- Stands for `shared.IsTrue(value)`. -/
  IsTrue : String → Bool
  /-- Stands for `shared.IsSnapshot(name)`. -/
  IsSnapshot : String → Bool
  /-- Stands for `shared.VarPath(path...)`. -/
  VarPath : List String → String
  /-- Stands for `shared.RunCommand("rbd", "--version")`. -/
  rbdVersion : Res String
  /-- Stands for `shared.ParseByteSizeString(value)`. -/
  ParseByteSizeString : String → Res Int
  /-- Stands for `cephRBDVolumeRename(cluster, osdPool, volumeType, oldName, newName, user)`. -/
  cephRBDVolumeRename : String → String → String → String → String → String → Option Err
  /-- Stands for `cephRBDVolumeRestore(cluster, osdPool, volume, volumeType, snapshot,
  user)`. -/
  cephRBDVolumeRestore : String → String → String → String → String → String → Option Err
  /-- Stands for `cephRBDSnapshotCreate(cluster, osdPool, volume, volumeType, snapshot,
  user)`. -/
  cephRBDSnapshotCreate : String → String → String → String → String → String → Option Err
  /-- Stands for `s.copyWithSnapshots(sourceVolumeName, targetVolumeName, parent)`. -/
  copyWithSnapshots : String → String → String → Option Err
  /-- Stands for `s.copyWithoutSnapshotsFull(target, source)`, by container names. -/
  copyWithoutSnapshotsFull : String → String → Option Err
  /-- Stands for `s.copyWithoutSnapshotsSparse(target, source)`, by container names. -/
  copyWithoutSnapshotsSparse : String → String → Option Err

/-- Process and kernel state the driver reads back: the keys of
`apolloStorageOngoingOperationMap` and the mount table behind
`shared.IsMountPoint` (a successful `tryMount` adds its mount point, a successful
`tryUnmount` removes it). -/
structure CephState where
  ongoing : List String
  mounts : List String
  deriving DecidableEq, Repr

/-- Stands for `shared.IsMountPoint(path)`. -/
def IsMountPoint (σ : CephState) (path : String) : Bool :=
  decide (path ∈ σ.mounts)

/-- `apolloStorageOngoingOperationMap[id] = make(chan bool)`. -/
def mapInsert (σ : CephState) (id : String) : CephState :=
  { σ with ongoing := id :: σ.ongoing }

/-- The release `if waitChannel, ok := map[id]; ok { close(waitChannel); delete(map, id) }`. -/
def mapCloseDelete (σ : CephState) (id : String) : CephState :=
  { σ with ongoing := σ.ongoing.filter (fun k => k != id) }

/-! ### Go string helpers used when parsing `pg_num`

A Go string is a sequence of bytes; here one `Char` stands for one element.
Offsets and lengths are Go's for texts of single-byte characters, which is what
the `ceph` tool prints; in a text with other characters Go counts bytes where
these helpers count characters. The text that follows an occurrence of a marker
is the same either way. -/

/-- Whether `sub` starts the list `s`. -/
def startsWith (sub : List Char) (s : List Char) : Bool :=
  match sub, s with
  | [], _ => true
  | _ :: _, [] => false
  | a :: sub2, b :: s2 => a == b && startsWith sub2 s2

/-- Position of the first occurrence of `sub` in `s`, counted from `i`. -/
def indexFrom (sub : List Char) : List Char → Nat → Option Nat
  | [], i => if startsWith sub [] then some i else none
  | c :: cs, i => if startsWith sub (c :: cs) then some i else indexFrom sub cs (i + 1)

/-- Go `strings.Index(s, sub)`: the first position of `sub`, or -1. -/
def stringsIndex (s : String) (sub : String) : Int :=
  match indexFrom sub.data s.data 0 with
  | some i => (i : Int)
  | none => -1

/-- Go slice expression `s[k:]`: `none` stands for the run-time panic raised when
`k` is out of range. -/
def sliceFrom (s : String) (k : Int) : Option String :=
  if k < 0 ∨ k > (s.length : Int) then none else some ⟨s.data.drop k.toNat⟩

/-- Go `unicode.IsSpace`. -/
def isSpace (c : Char) : Bool :=
  c.val = 0x09 ∨ c.val = 0x0A ∨ c.val = 0x0B ∨ c.val = 0x0C ∨ c.val = 0x0D ∨ c.val = 0x20 ∨
  c.val = 0x85 ∨ c.val = 0xA0 ∨ c.val = 0x1680 ∨ (0x2000 ≤ c.val ∧ c.val ≤ 0x200A) ∨
  c.val = 0x2028 ∨ c.val = 0x2029 ∨ c.val = 0x202F ∨ c.val = 0x205F ∨ c.val = 0x3000

/-- Go `strings.TrimSpace`. -/
def TrimSpace (s : String) : String :=
  ⟨((s.data.dropWhile isSpace).reverse.dropWhile isSpace).reverse⟩

/-! ## Container names (`container.go`, lines 23-54) -/

/-- Modelled from the spec: the constant `shared.SnapshotDelimiter` is declared
outside the files at hand; snapshot names are `<container>/<snapshot>`, as the
`"%s/%s"` formats of `container.go` and `storage_ceph.go` build them. -/
def SnapshotDelimiter : String := "/"

/-- Go `strings.SplitN(s, sep, 2)` for a non-empty `sep`, on element lists: `none`
when `sep` does not occur (one field, `s` itself), otherwise the part before and
the part after the first occurrence (two fields). -/
def splitN2 (sep : List Char) : List Char → Option (List Char × List Char)
  | [] => none
  | c :: cs =>
    if startsWith sep (c :: cs) then some ([], (c :: cs).drop sep.length)
    else
      match splitN2 sep cs with
      | some (before, after) => some (c :: before, after)
      | none => none

/-- `containerGetParentAndSnapshotName` (lines 23-32). -/
def containerGetParentAndSnapshotName (name : String) : String × String × Bool :=
  match splitN2 SnapshotDelimiter.data name.data with
  | none => (name, "", false)
  | some (parent, snapshot) => (⟨parent⟩, ⟨snapshot⟩, true)

/-- Go `strings.Contains(s, substr)`. -/
def stringsContains (s : String) (substr : String) : Bool :=
  stringsIndex s substr ≥ 0

/-- `containerValidName` (lines 42-54); `ValidHostname` stands for
`shared.ValidHostname`. -/
def containerValidName (ValidHostname : String → Bool) (name : String) : Option Err :=
  if stringsContains name SnapshotDelimiter then some .reservedForSnapshots
  else if ValidHostname name = false then some .notValidHostname
  else none

/-! ## Filesystem detection (`storage.go`, lines 78-113) -/

def filesystemSuperMagicTmpfs : Int := 0x01021994

def filesystemSuperMagicExt4 : Int := 0xEF53

def filesystemSuperMagicXfs : Int := 0x58465342

def filesystemSuperMagicNfs : Int := 0x6969

def filesystemSuperMagicZfs : Int := 0x2fc12fc1

/-- Go conversion `string(n)` of an integer: the UTF-8 encoding of the code point
`n`, and of U+FFFD when `n` is no valid code point. -/
def goStringOfInt (n : Int) : String :=
  if 0 ≤ n ∧ n.toNat.isValidChar then String.singleton (Char.ofNat n.toNat)
  else String.singleton (Char.ofNat 0xFFFD)

/-- `filesystemDetect` (lines 87-113). `statfs` is what `syscall.Statfs(path, &fs)`
yields: the error, or `fs.Type`; `filesystemSuperMagicBtrfs` is the constant
declared with the btrfs driver. -/
def filesystemDetect (filesystemSuperMagicBtrfs : Int) (statfs : Res Int) : Res String :=
  match statfs with
  | .fail err => .fail err
  | .ok fsType =>
    if fsType = filesystemSuperMagicBtrfs then .ok "btrfs"
    else if fsType = filesystemSuperMagicZfs then .ok "zfs"
    else if fsType = filesystemSuperMagicTmpfs then .ok "tmpfs"
    else if fsType = filesystemSuperMagicExt4 then .ok "ext4"
    else if fsType = filesystemSuperMagicXfs then .ok "xfs"
    else if fsType = filesystemSuperMagicNfs then .ok "nfs"
    else .ok (goStringOfInt fsType)

/-! ### Deferred calls -/

/-- A deferred closure: given the value of `revert` when the function returns and
the state, the state it leaves and the calls it makes. -/
abbrev Deferred := Bool → CephState → CephState × List CephEvent

/-- Runs the deferred closures when the function returns, last deferred first
(the list holds the most recently deferred closure at its head). -/
def runDeferred (revert : Bool) : List Deferred → CephState → CephState × List CephEvent
  | [], σ => (σ, [])
  | d :: ds, σ =>
    let first := d revert σ
    let rest := runDeferred revert ds first.1
    (rest.1, first.2 ++ rest.2)

/-- A deferred revert step that makes one call when `revert` is still set. -/
def revertCall (ev : CephEvent) : Deferred :=
  fun revert σ => if revert then (σ, [ev]) else (σ, [])

/-- What a ceph driver call leaves behind: its result, the state, the calls made. -/
structure Run (α : Type) where
  result : α
  state : CephState
  trace : List CephEvent

/-! ### Pool create and delete (lines 88-303) -/

/-- What `StoragePoolCreate` leaves behind: how the call ends, the driver object
(its pool configuration is written in place, also on failure), the state and
the calls made. -/
structure PoolCreateRun where
  outcome : Outcome Unit
  driver : storageCeph
  state : CephState
  trace : List CephEvent

/-- Setting one key of the pool configuration of the driver object. -/
def storageCeph.setConfig (s : storageCeph) (k : String) (v : String) : storageCeph :=
  { s with pool := { s.pool with config := cfgSet s.pool.config k v } }

/-- Reading one key of the pool configuration of the driver object. -/
def storageCeph.getConfig (s : storageCeph) (k : String) : String :=
  cfgGet s.pool.config k

/-! ### Driver initialisation (lines 23-80) -/

/-- The zero-valued `storageCeph{}` to which `storageInit` assigns the pool id,
the pool and the volume before it calls `StoragePoolInit` (`storage.go`, lines
370-380). -/
def newStorageCeph (poolID : Int) (pool : StoragePool) (volume : StorageVolume) :
    storageCeph :=
  { ClusterName := "", OSDPoolName := "", UserName := "", PGNum := "", poolID := poolID,
    pool := pool, volume := volume }

/-- `StorageCoreInit` (lines 23-39): the error and the driver object it leaves. -/
def StorageCoreInit (w : CephWorld) (s : storageCeph) : Option Err × storageCeph :=
  let s1 : storageCeph := { s with sType := storageTypeCeph }
  match storageTypeToString s1.sType with
  | .fail err => (some err, s1)
  | .ok typeName =>
    let s2 : storageCeph := { s1 with sTypeName := typeName }
    match w.rbdVersion with
    | .fail _ => (some .cephVersion, s2)
    | .ok msg => (none, { s2 with sTypeVersion := TrimSpace msg })

/-- `StoragePoolInit` (lines 41-80): the error and the driver object it leaves. -/
def StoragePoolInit (w : CephWorld) (s : storageCeph) : Option Err × storageCeph :=
  let core := StorageCoreInit w s
  match core.1 with
  | some err => (some err, core.2)
  | none =>
    let s1 := core.2
    let s2 : storageCeph :=
      if s1.getConfig "ceph.cluster_name" ≠ "" then
        { s1 with ClusterName := s1.getConfig "ceph.cluster_name" }
      else { s1 with ClusterName := "ceph" }
    let s3 : storageCeph :=
      if s2.getConfig "ceph.osd.pool_name" ≠ "" then
        { s2 with OSDPoolName := s2.getConfig "ceph.osd.pool_name" }
      else s2
    let s4 : storageCeph :=
      if s3.getConfig "ceph.user.name" ≠ "" then
        { s3 with UserName := s3.getConfig "ceph.user.name" }
      else { s3 with UserName := "admin" }
    if s4.getConfig "ceph.osd.pg_num" ≠ "" then
      match w.ParseByteSizeString (s4.getConfig "ceph.osd.pg_num") with
      | .fail err => (some err, s4)
      | .ok _ => (none, { s4 with PGNum := s4.getConfig "ceph.osd.pg_num" })
    else (none, { s4 with PGNum := "32" })

/-- The first part of `StoragePoolCreate` (lines 94-116): record the initial
source, reject differing `source` and `ceph.osd.pool_name`, choose the OSD pool
name. The flag is `false` for the early error return of line 103. -/
def poolCreateNames (s : storageCeph) : storageCeph × Bool :=
  let s0 := s.setConfig "volatile.initial_source" (s.getConfig "source")
  if s0.getConfig "source" ≠ "" ∧ s0.getConfig "ceph.osd.pool_name" ≠ "" ∧
      s0.getConfig "source" ≠ s0.getConfig "ceph.osd.pool_name" then
    (s0, false)
  else
    let s1 : storageCeph :=
      if s0.getConfig "source" ≠ "" then
        { s0 with OSDPoolName := s0.getConfig "source" }.setConfig "ceph.osd.pool_name"
          (s0.getConfig "source")
      else s0
    let s2 : storageCeph :=
      if s1.getConfig "ceph.osd.pool_name" = "" then
        { (s1.setConfig "ceph.osd.pool_name" s1.pool.name).setConfig "source" s1.pool.name with
          OSDPoolName := s1.pool.name }
      else s1
    (s2, true)

/-- The defaults written after the OSD pool step (lines 185-201). -/
def poolCreateDefaults (s : storageCeph) : storageCeph :=
  let s1 := if s.getConfig "source" = "" then s.setConfig "source" s.OSDPoolName else s
  let s2 := if s1.getConfig "ceph.cluster_name" = "" then
      s1.setConfig "ceph.cluster_name" "ceph"
    else s1
  let s3 := if s2.getConfig "ceph.osd.pool_name" = "" then
      s2.setConfig "ceph.osd.pool_name" s2.pool.name
    else s2
  if s3.getConfig "ceph.osd.pg_num" = "" then s3.setConfig "ceph.osd.pg_num" "32" else s3

/-- The last part of `StoragePoolCreate` (lines 203-253), entered with the
closures deferred so far and the calls made so far: create the mount point,
stamp "volatile.pool.pristine", create the marker volume. Every error return
runs the deferred closures with `revert` set; the return of line 253 runs them
with `revert` cleared. -/
def poolCreateFinish (w : CephWorld) (s : storageCeph) (deferred : List Deferred)
    (σ : CephState) (before : List CephEvent) : PoolCreateRun :=
  let poolMntPoint := getStoragePoolMountPoint w.VarPath s.pool.name
  let mk : List CephEvent := before ++ [.MkdirAll poolMntPoint 0o711]
  match w.MkdirAll poolMntPoint 0o711 with
  | some err =>
    let d := runDeferred true deferred σ
    { outcome := .err err, driver := s, state := d.1, trace := mk ++ d.2 }
  | none =>
    let deferred2 : List Deferred := revertCall (.Remove poolMntPoint) :: deferred
    let ok := w.cephRBDVolumeExists s.ClusterName s.OSDPoolName s.pool.name "apollo" s.UserName
    let s1 := s.setConfig "volatile.pool.pristine" "false"
    if ok = false then
      let s2 := s1.setConfig "volatile.pool.pristine" "true"
      let ev : CephEvent := .rbdVolumeCreate s.OSDPoolName s.pool.name "apollo" "0"
      match w.cephRBDVolumeCreate s.ClusterName s.OSDPoolName s.pool.name "apollo" "0"
          s.UserName with
      | some err =>
        let d := runDeferred true deferred2 σ
        { outcome := .err err, driver := s2, state := d.1, trace := mk ++ [ev] ++ d.2 }
      | none =>
        let d := runDeferred false deferred2 σ
        { outcome := .ret (), driver := s2, state := d.1, trace := mk ++ [ev] ++ d.2 }
    else
      let d := runDeferred false deferred2 σ
      { outcome := .ret (), driver := s1, state := d.1, trace := mk ++ d.2 }

/-- `StoragePoolCreate` (lines 88-254). -/
def StoragePoolCreate (w : CephWorld) (s : storageCeph) (σ : CephState) : PoolCreateRun :=
  let named := poolCreateNames s
  let s2 := named.1
  if named.2 = false then
    { outcome := .err .sourceAndOsdPoolNameDiffer, driver := s2, state := σ, trace := [] }
  else if w.cephOSDPoolExists s2.ClusterName s2.OSDPoolName s2.UserName = false then
    let ev : CephEvent := .osdPoolCreate s2.OSDPoolName s2.PGNum
    match w.osdPoolCreate s2.ClusterName s2.UserName s2.OSDPoolName s2.PGNum with
    | .fail err => { outcome := .err err, driver := s2, state := σ, trace := [ev] }
    | .ok _ =>
      poolCreateFinish w (poolCreateDefaults s2)
        [revertCall (.osdPoolDestroy s2.OSDPoolName)] σ [ev]
  else
    match w.osdPoolGetPgNum s2.ClusterName s2.UserName s2.OSDPoolName with
    | .fail err => { outcome := .err err, driver := s2, state := σ, trace := [] }
    | .ok msg =>
      let idx := stringsIndex msg "pg_num:"
      match sliceFrom msg (idx + ("pg_num:".length : Int)) with
      | none => { outcome := .panics, driver := s2, state := σ, trace := [] }
      | some rest =>
        let s3 := s2.setConfig "ceph.osd.pg_num" (TrimSpace rest)
        poolCreateFinish w (poolCreateDefaults s3) [] σ []

/-- `StoragePoolDelete` (lines 256-303). -/
def StoragePoolDelete (w : CephWorld) (s : storageCeph) (σ : CephState) : Run (Option Err) :=
  if w.cephOSDPoolExists s.ClusterName s.OSDPoolName s.UserName = false then
    { result := some .osdPoolDoesNotExist, state := σ, trace := [] }
  else
    let owner : Bool := s.getConfig "volatile.pool.pristine" ≠ "" ∧
      w.IsTrue (s.getConfig "volatile.pool.pristine") = true
    let destroyed : Option Err × List CephEvent :=
      if owner then
        (w.cephOSDPoolDestroy s.ClusterName s.OSDPoolName s.UserName,
          [.osdPoolDestroy s.OSDPoolName])
      else (none, [])
    match destroyed.1 with
    | some err => { result := some err, state := σ, trace := destroyed.2 }
    | none =>
      let poolMntPoint := getStoragePoolMountPoint w.VarPath s.pool.name
      { result := w.RemoveAll poolMntPoint, state := σ,
        trace := destroyed.2 ++ [.RemoveAll poolMntPoint] }

/-! ### Mount and unmount (lines 520-635 and 1325-1428) -/

/-- `StoragePoolVolumeMount` (lines 520-581). -/
def StoragePoolVolumeMount (w : CephWorld) (s : storageCeph) (σ : CephState) :
    Run (Bool × Option Err) :=
  let RBDFilesystem := w.getRBDFilesystem s
  let volumeMntPoint := getStoragePoolVolumeMountPoint w.VarPath s.pool.name s.volume.name
  let customMountLockID := getCustomMountLockID s.pool.name s.volume.name
  if customMountLockID ∈ σ.ongoing then
    { result := (false, none), state := σ, trace := [.waitChannel customMountLockID] }
  else
    let σ1 := mapInsert σ customMountLockID
    if IsMountPoint σ1 volumeMntPoint = false then
      let dev := w.getRBDMappedDevPath s.ClusterName s.OSDPoolName
        storagePoolVolumeTypeNameCustom s.volume.name s.UserName
      let opts := w.apolloResolveMountoptions (w.getRBDMountOptions s)
      let customerr := w.tryMount dev.1 volumeMntPoint RBDFilesystem opts.1 opts.2
      let σ2 : CephState :=
        if customerr = none then { σ1 with mounts := volumeMntPoint :: σ1.mounts } else σ1
      let σ3 := mapCloseDelete σ2 customMountLockID
      let trace : List CephEvent :=
        [.mapInsert customMountLockID, .tryMount dev.1 volumeMntPoint RBDFilesystem,
         .mapCloseDelete customMountLockID]
      if customerr ≠ none ∨ dev.2 < 0 then
        { result := (false, customerr), state := σ3, trace := trace }
      else { result := (true, none), state := σ3, trace := trace }
    else
      { result := (false, none), state := mapCloseDelete σ1 customMountLockID,
        trace := [.mapInsert customMountLockID, .mapCloseDelete customMountLockID] }

/-- `StoragePoolVolumeUmount` (lines 583-635); `MNT_DETACH` is 2. -/
def StoragePoolVolumeUmount (w : CephWorld) (s : storageCeph) (σ : CephState) :
    Run (Bool × Option Err) :=
  let volumeMntPoint := getStoragePoolVolumeMountPoint w.VarPath s.pool.name s.volume.name
  let customMountLockID := getCustomUmountLockID s.pool.name s.volume.name
  if customMountLockID ∈ σ.ongoing then
    { result := (false, none), state := σ, trace := [.waitChannel customMountLockID] }
  else
    let σ1 := mapInsert σ customMountLockID
    if IsMountPoint σ1 volumeMntPoint then
      let customerr := w.tryUnmount volumeMntPoint 2
      let σ2 : CephState :=
        if customerr = none then
          { σ1 with mounts := σ1.mounts.filter (fun m => m != volumeMntPoint) }
        else σ1
      let σ3 := mapCloseDelete σ2 customMountLockID
      let trace : List CephEvent :=
        [.mapInsert customMountLockID, .tryUnmount volumeMntPoint 2,
         .mapCloseDelete customMountLockID]
      match customerr with
      | some err => { result := (false, some err), state := σ3, trace := trace }
      | none => { result := (true, none), state := σ3, trace := trace }
    else
      { result := (false, none), state := mapCloseDelete σ1 customMountLockID,
        trace := [.mapInsert customMountLockID, .mapCloseDelete customMountLockID] }

/-- The mount point chosen by `ContainerMount` and `ContainerUmount` (lines
1330-1333 and 1386-1389). -/
def containerMntPointOf (w : CephWorld) (s : storageCeph) (name : String) : String :=
  if w.IsSnapshot name then getSnapshotMountPoint w.VarPath s.pool.name name
  else getContainerMountPoint w.VarPath s.pool.name name

/-- `ContainerMount` (lines 1325-1381), by the container's name. -/
def ContainerMount (w : CephWorld) (s : storageCeph) (name : String) (σ : CephState) :
    Run (Bool × Option Err) :=
  let RBDFilesystem := w.getRBDFilesystem s
  let containerMntPoint := containerMntPointOf w s name
  let containerMountLockID := getContainerMountLockID s.pool.name name
  if containerMountLockID ∈ σ.ongoing then
    { result := (false, none), state := σ, trace := [.waitChannel containerMountLockID] }
  else
    let σ1 := mapInsert σ containerMountLockID
    if IsMountPoint σ1 containerMntPoint = false then
      let dev := w.getRBDMappedDevPath s.ClusterName s.OSDPoolName
        storagePoolVolumeTypeNameContainer name s.UserName
      if dev.2 ≥ 0 then
        let opts := w.apolloResolveMountoptions (w.getRBDMountOptions s)
        let mounterr := w.tryMount dev.1 containerMntPoint RBDFilesystem opts.1 opts.2
        let σ2 : CephState :=
          if mounterr = none then { σ1 with mounts := containerMntPoint :: σ1.mounts } else σ1
        let σ3 := mapCloseDelete σ2 containerMountLockID
        let trace : List CephEvent :=
          [.mapInsert containerMountLockID, .tryMount dev.1 containerMntPoint RBDFilesystem,
           .mapCloseDelete containerMountLockID]
        match mounterr with
        | some err => { result := (false, some err), state := σ3, trace := trace }
        | none => { result := (true, none), state := σ3, trace := trace }
      else
        { result := (false, none), state := mapCloseDelete σ1 containerMountLockID,
          trace := [.mapInsert containerMountLockID, .mapCloseDelete containerMountLockID] }
    else
      { result := (false, none), state := mapCloseDelete σ1 containerMountLockID,
        trace := [.mapInsert containerMountLockID, .mapCloseDelete containerMountLockID] }

/-- `ContainerUmount` (lines 1383-1428); the `path` argument is not used. -/
def ContainerUmount (w : CephWorld) (s : storageCeph) (name : String) (σ : CephState) :
    Run (Bool × Option Err) :=
  let containerMntPoint := containerMntPointOf w s name
  let containerUmountLockID := getContainerUmountLockID s.pool.name name
  if containerUmountLockID ∈ σ.ongoing then
    { result := (false, none), state := σ, trace := [.waitChannel containerUmountLockID] }
  else
    let σ1 := mapInsert σ containerUmountLockID
    if IsMountPoint σ1 containerMntPoint then
      let mounterr := w.tryUnmount containerMntPoint 0
      let σ2 : CephState :=
        if mounterr = none then
          { σ1 with mounts := σ1.mounts.filter (fun m => m != containerMntPoint) }
        else σ1
      let σ3 := mapCloseDelete σ2 containerUmountLockID
      let trace : List CephEvent :=
        [.mapInsert containerUmountLockID, .tryUnmount containerMntPoint 0,
         .mapCloseDelete containerUmountLockID]
      match mounterr with
      | some err => { result := (false, some err), state := σ3, trace := trace }
      | none => { result := (true, none), state := σ3, trace := trace }
    else
      { result := (false, none), state := mapCloseDelete σ1 containerUmountLockID,
        trace := [.mapInsert containerUmountLockID, .mapCloseDelete containerUmountLockID] }

/-! ### Threads calling `ContainerMount` for one container

An interleaving model of lines 1325-1381. The two sections guarded by
`apolloStorageMapLock` (lines 1336-1349 and 1367-1372) are atomic steps; the work
between them is split where it calls out (`getRBDMappedDevPath`, `tryMount`), so
that other threads may run in between. -/

/-- Where a thread stands in `ContainerMount`. -/
inductive MountPC where
  /-- Before line 1336. -/
  | start
  /-- Line 1339: blocked reading the channel found in the map. -/
  | waiting (channel : Nat)
  /-- Line 1351: its own channel is in the map, the work has not begun. -/
  | working
  /-- Line 1361: inside `tryMount` on the resolved device. -/
  | mounting (device : String) (ret : Int)
  /-- Line 1367: the work is over, the channel is not yet closed. -/
  | releasing (ourMount : Bool) (mounterr : Option Err) (ret : Int)
  /-- The call has returned `(ourMount, err)`. -/
  | returned (ourMount : Bool) (err : Option Err)
  deriving DecidableEq, Repr

/-- The threads and what they share: the map entry under the container's mount
lock id (a channel), the channels closed so far, the next fresh channel, and
whether the container's mount point is mounted. -/
structure MountSys where
  pcs : List MountPC
  entry : Option Nat
  closed : List Nat
  fresh : Nat
  mounted : Bool
  deriving DecidableEq, Repr

/-- One step of thread `i`; a thread that is blocked or has returned (or an index
that names no thread) leaves the system as it is. -/
def threadStep (w : CephWorld) (s : storageCeph) (name : String) (σ : MountSys) (i : Nat) :
    MountSys :=
  match σ.pcs[i]? with
  | none => σ
  | some .start =>
    match σ.entry with
    | some ch => { σ with pcs := σ.pcs.set i (.waiting ch) }
    | none =>
      { σ with pcs := σ.pcs.set i .working, entry := some σ.fresh, fresh := σ.fresh + 1 }
  | some (.waiting ch) =>
    if ch ∈ σ.closed then { σ with pcs := σ.pcs.set i (.returned false none) } else σ
  | some .working =>
    if σ.mounted = false then
      let dev := w.getRBDMappedDevPath s.ClusterName s.OSDPoolName
        storagePoolVolumeTypeNameContainer name s.UserName
      if dev.2 ≥ 0 then { σ with pcs := σ.pcs.set i (.mounting dev.1 dev.2) }
      else { σ with pcs := σ.pcs.set i (.releasing false none dev.2) }
    else { σ with pcs := σ.pcs.set i (.releasing false none 0) }
  | some (.mounting device ret) =>
    let opts := w.apolloResolveMountoptions (w.getRBDMountOptions s)
    let mounterr := w.tryMount device (containerMntPointOf w s name) (w.getRBDFilesystem s)
      opts.1 opts.2
    { σ with pcs := σ.pcs.set i (.releasing true mounterr ret),
             mounted := σ.mounted || mounterr.isNone }
  | some (.releasing ourMount mounterr ret) =>
    let result : MountPC :=
      if mounterr ≠ none ∨ ret < 0 then .returned false mounterr else .returned ourMount none
    match σ.entry with
    | some ch =>
      { σ with pcs := σ.pcs.set i result, entry := none, closed := ch :: σ.closed }
    | none => { σ with pcs := σ.pcs.set i result }
  | some (.returned _ _) => σ

/-- The system after the threads named by the schedule took one step each, in
that order. -/
def runThreads (w : CephWorld) (s : storageCeph) (name : String) (σ : MountSys)
    (schedule : List Nat) : MountSys :=
  schedule.foldl (threadStep w s name) σ

/-- The state in which `n` threads are about to call `ContainerMount` and no
operation is in flight. -/
def initialThreads (n : Nat) (mounted : Bool) : MountSys :=
  { pcs := List.replicate n .start, entry := none, closed := [], fresh := 0,
    mounted := mounted }

/-! ### Creating a container from an image (lines 801-973) -/

/-- `createContainerMountpoint` (`storage.go`, lines 609-641). -/
def createContainerMountpoint (w : CephWorld) (mountPoint : String)
    (mountPointSymlink : String) (privileged : Bool) : Option Err × List CephEvent :=
  let mode : Nat := if privileged then 0o700 else 0o755
  let mntPointSymlinkExist := w.PathExists mountPointSymlink
  let mntPointSymlinkTargetExist := w.PathExists mountPoint
  let made : Option Err × List CephEvent :=
    if mntPointSymlinkTargetExist = false then
      (w.MkdirAll mountPoint 0o755, [.MkdirAll mountPoint 0o755])
    else (none, [])
  match made.1 with
  | some err => (some err, made.2)
  | none =>
    match w.Chmod mountPoint mode with
    | some err => (some err, made.2 ++ [.Chmod mountPoint mode])
    | none =>
      if mntPointSymlinkExist = false then
        (w.Symlink mountPoint mountPointSymlink,
          made.2 ++ [.Chmod mountPoint mode, .Symlink mountPoint mountPointSymlink])
      else (none, made.2 ++ [.Chmod mountPoint mode])

/-- The image stage of `ContainerCreateFromImage` (lines 812-840): wait for a
concurrent creator, or take the lock and create the image volume if the pool has
none. Yields `imgerr`, the state and the calls made. -/
def imageStage (w : CephWorld) (s : storageCeph) (fingerprint : String) (σ : CephState) :
    Run (Option Err) :=
  let imageStoragePoolLockID := getImageCreateLockID s.pool.name fingerprint
  if imageStoragePoolLockID ∈ σ.ongoing then
    { result := none, state := σ, trace := [.waitChannel imageStoragePoolLockID] }
  else
    let σ1 := mapInsert σ imageStoragePoolLockID
    let created : Option Err × List CephEvent :=
      if w.cephRBDVolumeExists s.ClusterName s.OSDPoolName fingerprint
          storagePoolVolumeTypeNameImage s.UserName = false then
        (w.ImageCreate s fingerprint, [.ImageCreate fingerprint])
      else (none, [])
    { result := created.1, state := mapCloseDelete σ1 imageStoragePoolLockID,
      trace := [.mapInsert imageStoragePoolLockID] ++ created.2 ++
        [.mapCloseDelete imageStoragePoolLockID] }

/-- What the body of a function with deferred closures hands to its return: the
error, the closures deferred so far (latest first), the state, the calls made. -/
structure Body where
  err : Option Err
  deferred : List Deferred
  state : CephState
  trace : List CephEvent

/-- The return of a function whose `revert` flag is cleared only on the line
before `return nil`: the deferred closures run with `revert` set exactly when an
error is returned. -/
def Body.finish (b : Body) : Run (Option Err) :=
  let d := runDeferred b.err.isSome b.deferred b.state
  { result := b.err, state := d.1, trace := b.trace ++ d.2 }

/-- The permission step of `ContainerCreateFromImage` (lines 924-956). -/
def shiftAndChmod (w : CephWorld) (containerName : String) (mntPoint : String)
    (privileged : Bool) : Option Err × List CephEvent :=
  if privileged = false then
    match w.shiftRootfs containerName with
    | some err => (some err, [.shiftRootfs containerName])
    | none => (w.Chmod mntPoint 0o755, [.shiftRootfs containerName, .Chmod mntPoint 0o755])
  else (w.Chmod mntPoint 0o700, [.Chmod mntPoint 0o700])

/-- The part of `ContainerCreateFromImage` after the image stage (lines 842-972),
up to the return statement reached. -/
def createFromImageBody (w : CephWorld) (s : storageCeph) (container : Container)
    (fingerprint : String) (σ : CephState) : Body :=
  let containerPath := container.Path
  let containerName := container.Name
  let containerPoolVolumeMntPoint := getContainerMountPoint w.VarPath s.pool.name containerName
  let clone : CephEvent := .rbdCloneCreate s.OSDPoolName fingerprint
    storagePoolVolumeTypeNameImage "readonly" s.OSDPoolName containerName
    storagePoolVolumeTypeNameContainer
  match w.cephRBDCloneCreate s.ClusterName s.OSDPoolName fingerprint
      storagePoolVolumeTypeNameImage "readonly" s.OSDPoolName containerName
      storagePoolVolumeTypeNameContainer s.UserName with
  | some err => { err := some err, deferred := [], state := σ, trace := [clone] }
  | none =>
    let d1 : Deferred := revertCall
      (.rbdVolumeDelete s.OSDPoolName containerName storagePoolVolumeTypeNameContainer)
    let map : CephEvent :=
      .rbdVolumeMap s.OSDPoolName containerName storagePoolVolumeTypeNameContainer
    match w.cephRBDVolumeMap s.ClusterName s.OSDPoolName containerName
        storagePoolVolumeTypeNameContainer s.UserName with
    | .fail err => { err := some err, deferred := [d1], state := σ, trace := [clone, map] }
    | .ok _ =>
      let d2 : Deferred := revertCall
        (.rbdVolumeUnmap s.OSDPoolName containerName storagePoolVolumeTypeNameContainer)
      let privileged := container.IsPrivileged
      let mp := createContainerMountpoint w containerPoolVolumeMntPoint containerPath privileged
      match mp.1 with
      | some err =>
        { err := some err, deferred := [d2, d1], state := σ, trace := [clone, map] ++ mp.2 }
      | none =>
        let d3 : Deferred := revertCall (.Remove containerPoolVolumeMntPoint)
        let mounted := ContainerMount w s containerName σ
        let tr := [clone, map] ++ mp.2 ++ mounted.trace
        match mounted.result.2 with
        | some err =>
          { err := some err, deferred := [d3, d2, d1], state := mounted.state, trace := tr }
        | none =>
          let d4 : List Deferred :=
            if mounted.result.1 then
              [fun _ σ2 =>
                let u := ContainerUmount w s containerName σ2
                (u.state, u.trace)]
            else []
          let deferred := d4 ++ [d3, d2, d1]
          let perm := shiftAndChmod w containerName containerPoolVolumeMntPoint privileged
          match perm.1 with
          | some err =>
            { err := some err, deferred := deferred, state := mounted.state,
              trace := tr ++ perm.2 }
          | none =>
            { err := container.TemplateApply "create", deferred := deferred,
              state := mounted.state,
              trace := tr ++ perm.2 ++ [.TemplateApply containerName "create"] }

/-- `ContainerCreateFromImage` (lines 801-973). -/
def ContainerCreateFromImage (w : CephWorld) (s : storageCeph) (container : Container)
    (fingerprint : String) (σ : CephState) : Run (Option Err) :=
  let image := imageStage w s fingerprint σ
  match image.result with
  | some imgerr => { result := some imgerr, state := image.state, trace := image.trace }
  | none =>
    let done := (createFromImageBody w s container fingerprint image.state).finish
    { result := done.result, state := done.state, trace := image.trace ++ done.trace }

/-! ### Deleting an image (lines 2313-2488) -/

/-- `ImageUmount` (lines 2473-2488). -/
def ImageUmount (w : CephWorld) (s : storageCeph) (fingerprint : String) (σ : CephState) :
    Run (Bool × Option Err) :=
  let imageMntPoint := getImageMountPoint w.VarPath s.pool.name fingerprint
  if IsMountPoint σ imageMntPoint = false then
    { result := (false, none), state := σ, trace := [] }
  else
    match w.tryUnmount imageMntPoint 0 with
    | some err =>
      { result := (false, some err), state := σ, trace := [.tryUnmount imageMntPoint 0] }
    | none =>
      { result := (true, none),
        state := { σ with mounts := σ.mounts.filter (fun m => m != imageMntPoint) },
        trace := [.tryUnmount imageMntPoint 0] }

/-- Runs calls one after the other until one fails: the first error, if any, and
the calls made (a call's event is logged before its result is inspected). -/
def callsInOrder : List (Option Err × CephEvent) → Option Err × List CephEvent
  | [] => (none, [])
  | (res, ev) :: rest =>
    match res with
    | some err => (some err, [ev])
    | none =>
      let r := callsInOrder rest
      (r.1, ev :: r.2)

/-- The volume stage of `ImageDelete` (lines 2320-2411): list the clones of the
"readonly" snapshot, then either really remove the volume or mark it as zombie. -/
def imageDeleteVolume (w : CephWorld) (s : storageCeph) (fingerprint : String) :
    Option Err × List CephEvent :=
  let t := storagePoolVolumeTypeNameImage
  match w.cephRBDSnapshotListClones s.ClusterName s.OSDPoolName fingerprint t "readonly"
      s.UserName with
  | .fail err =>
    if err ≠ .noSuchObject then (some err, [])
    else
      callsInOrder
        [(w.cephRBDSnapshotUnprotect s.ClusterName s.OSDPoolName fingerprint t "readonly"
            s.UserName, .rbdSnapshotUnprotect s.OSDPoolName fingerprint t "readonly"),
         (w.cephRBDSnapshotsPurge s.ClusterName s.OSDPoolName fingerprint t s.UserName,
            .rbdSnapshotsPurge s.OSDPoolName fingerprint t),
         (w.cephRBDVolumeUnmap s.ClusterName s.OSDPoolName fingerprint t s.UserName,
            .rbdVolumeUnmap s.OSDPoolName fingerprint t),
         (w.cephRBDVolumeDelete s.ClusterName s.OSDPoolName fingerprint t s.UserName,
            .rbdVolumeDelete s.OSDPoolName fingerprint t)]
  | .ok _ =>
    callsInOrder
      [(w.cephRBDVolumeUnmap s.ClusterName s.OSDPoolName fingerprint t s.UserName,
          .rbdVolumeUnmap s.OSDPoolName fingerprint t),
       (w.cephRBDVolumeMarkDeleted s.ClusterName s.OSDPoolName fingerprint t s.UserName,
          .rbdVolumeMarkDeleted s.OSDPoolName fingerprint t)]

/-- `ImageDelete` (lines 2313-2441). -/
def ImageDelete (w : CephWorld) (s : storageCeph) (fingerprint : String) (σ : CephState) :
    Run (Option Err) :=
  let um := ImageUmount w s fingerprint σ
  let vol := imageDeleteVolume w s fingerprint
  match vol.1 with
  | some err => { result := some err, state := um.state, trace := um.trace ++ vol.2 }
  | none =>
    let db : CephEvent := .deleteImageDbPoolVolume fingerprint
    match w.deleteImageDbPoolVolume s fingerprint with
    | some err =>
      { result := some err, state := um.state, trace := um.trace ++ vol.2 ++ [db] }
    | none =>
      let imageMntPoint := getImageMountPoint w.VarPath s.pool.name fingerprint
      if w.PathExists imageMntPoint then
        { result := w.Remove imageMntPoint, state := um.state,
          trace := um.trace ++ vol.2 ++ [db, .Remove imageMntPoint] }
      else { result := none, state := um.state, trace := um.trace ++ vol.2 ++ [db] }

/-! ### Restoring a container from a snapshot (lines 975-977 and 1597-1643) -/

/-- `ContainerCanRestore` (lines 975-977). -/
def ContainerCanRestore (_s : storageCeph) (_container : Container)
    (_sourceContainer : Container) : Option Err :=
  none

/-- `ContainerRestore` (lines 1597-1643). `StorageStart` of the two containers
is a call on the container capability; the deferred `StorageStop` calls run when
the function returns, the one deferred last first. -/
def ContainerRestore (w : CephWorld) (s : storageCeph) (target : Container)
    (source : Container) (σ : CephState) : Run (Option Err) :=
  let sourceName := source.Name
  let targetName := target.Name
  match source.StorageStart with
  | .fail err => { result := some err, state := σ, trace := [.StorageStart sourceName] }
  | .ok ourSourceStart =>
    let stopSource : List CephEvent := if ourSourceStart then [.StorageStop sourceName] else []
    match target.StorageStart with
    | .fail err =>
      { result := some err, state := σ,
        trace := [.StorageStart sourceName, .StorageStart targetName] ++ stopSource }
    | .ok ourTargetStart =>
      let stopTarget : List CephEvent :=
        if ourTargetStart then [.StorageStop targetName] else []
      let names := containerGetParentAndSnapshotName sourceName
      let sourceContainerOnlyName := names.1
      let sourceSnapshotOnlyName := names.2.1
      let prefixedSourceSnapOnlyName := "snapshot_" ++ sourceSnapshotOnlyName
      { result := w.cephRBDVolumeRestore s.ClusterName s.OSDPoolName sourceContainerOnlyName
          storagePoolVolumeTypeNameContainer prefixedSourceSnapOnlyName s.UserName,
        state := σ,
        trace := [.StorageStart sourceName, .StorageStart targetName,
          .rbdVolumeRestore s.OSDPoolName sourceContainerOnlyName
            storagePoolVolumeTypeNameContainer prefixedSourceSnapOnlyName] ++
          stopTarget ++ stopSource }

/-! ### Renaming a container (lines 1430-1595, and `storage.go`, lines 675-698)

The rename moves directories and symlinks, so the file system is a state here:
the entries at the paths the driver names, each a directory or a symlink. What
lies below a directory is not part of the state: a rename or a removal acts on
the entry of the directory itself. -/

/-- An entry of the file system: a directory, or a symlink with its target. -/
inductive FileNode where
  | dir
  | symlink (target : String)
  deriving DecidableEq, Repr

/-- The entries of the file system, by path. -/
abbrev FileSystem := List (String × FileNode)

/-- What one file-system call leaves behind: its error, the entries, the calls
made. -/
structure FsStep where
  err : Option Err
  files : FileSystem
  trace : List CephEvent

/-- Modelled from the spec: `shared.PathExists(name)`, which this snapshot of the
repository does not hold, reports whether an entry exists at the path. -/
def PathExists (fs : FileSystem) (name : String) : Bool :=
  (fs.lookup name).isSome

/-- `os.Rename(oldpath, newpath)`: fails when nothing is at `oldpath`, otherwise
moves the entry to `newpath`, replacing what was there. The driver renames onto
paths that do not exist; the failure of a rename onto an existing directory is
not modelled. -/
def osRename (fs : FileSystem) (oldpath : String) (newpath : String) : FsStep :=
  match fs.lookup oldpath with
  | none =>
    { err := some (.ext "no such file or directory"), files := fs,
      trace := [.Rename oldpath newpath] }
  | some node =>
    { err := none,
      files := (newpath, node) :: fs.filter (fun e => e.1 != oldpath && e.1 != newpath),
      trace := [.Rename oldpath newpath] }

/-- `os.Remove(name)`: fails when nothing is at `name`, otherwise removes the
entry. -/
def osRemove (fs : FileSystem) (name : String) : FsStep :=
  if PathExists fs name then
    { err := none, files := fs.filter (fun e => e.1 != name), trace := [.Remove name] }
  else
    { err := some (.ext "no such file or directory"), files := fs, trace := [.Remove name] }

/-- `os.Symlink(oldname, newname)`: fails when an entry is at `newname`,
otherwise creates the symlink `newname` pointing to `oldname`. -/
def osSymlink (fs : FileSystem) (oldname : String) (newname : String) : FsStep :=
  if PathExists fs newname then
    { err := some (.ext "file exists"), files := fs, trace := [.Symlink oldname newname] }
  else
    { err := none, files := (newname, .symlink oldname) :: fs,
      trace := [.Symlink oldname newname] }

/-- `renameContainerMountpoint` (`storage.go`, lines 675-698). -/
def renameContainerMountpoint (fs : FileSystem) (oldMountPoint : String)
    (oldMountPointSymlink : String) (newMountPoint : String)
    (newMountPointSymlink : String) : FsStep :=
  let moved : FsStep :=
    if PathExists fs oldMountPoint then osRename fs oldMountPoint newMountPoint
    else { err := none, files := fs, trace := [] }
  match moved.err with
  | some err => { err := some err, files := moved.files, trace := moved.trace }
  | none =>
    let removed : FsStep :=
      if PathExists moved.files oldMountPointSymlink then
        osRemove moved.files oldMountPointSymlink
      else { err := none, files := moved.files, trace := [] }
    match removed.err with
    | some err =>
      { err := some err, files := removed.files, trace := moved.trace ++ removed.trace }
    | none =>
      let linked := osSymlink removed.files newMountPoint newMountPointSymlink
      { err := linked.err, files := linked.files,
        trace := moved.trace ++ removed.trace ++ linked.trace }

/-- A deferred closure of `ContainerRename`: given the value of `revert` when the
function returns and the file system, the file system it leaves and its calls. -/
abbrev FsDeferred := Bool → FileSystem → FileSystem × List CephEvent

/-- Runs the deferred closures, last deferred first (the head of the list). -/
def runFsDeferred (revert : Bool) : List FsDeferred → FileSystem →
    FileSystem × List CephEvent
  | [], fs => (fs, [])
  | d :: ds, fs =>
    let first := d revert fs
    let rest := runFsDeferred revert ds first.1
    (rest.1, first.2 ++ rest.2)

/-- A deferred revert step that makes one cluster call when `revert` is set. -/
def fsRevertCall (ev : CephEvent) : FsDeferred :=
  fun revert fs => if revert then (fs, [ev]) else (fs, [])

/-- A deferred revert step that makes file-system calls when `revert` is set;
their error is dropped. -/
def fsRevertStep (step : FileSystem → FsStep) : FsDeferred :=
  fun revert fs => if revert then ((step fs).files, (step fs).trace) else (fs, [])

/-- What `ContainerRename` leaves behind. -/
structure RenameRun where
  result : Option Err
  state : CephState
  files : FileSystem
  trace : List CephEvent

/-- A return of `ContainerRename` with the closures deferred so far. -/
def renameReturn (result : Option Err) (revert : Bool) (deferred : List FsDeferred)
    (σ : CephState) (fs : FileSystem) (trace : List CephEvent) : RenameRun :=
  let d := runFsDeferred revert deferred fs
  { result := result, state := σ, files := d.1, trace := trace ++ d.2 }

/-- The last part of `ContainerRename` (lines 1540-1594), entered after the
volume is renamed and mapped, with the three closures deferred so far. -/
def renameMountpoints (w : CephWorld) (s : storageCeph) (oldName : String)
    (containerPath : String) (newName : String) (deferred : List FsDeferred)
    (σ : CephState) (fs : FileSystem) (before : List CephEvent) : RenameRun :=
  let oldContainerMntPoint := getContainerMountPoint w.VarPath s.pool.name oldName
  let oldContainerMntPointSymlink := containerPath
  let newContainerMntPoint := getContainerMountPoint w.VarPath s.pool.name newName
  let newContainerMntPointSymlink := w.VarPath ["containers", newName]
  let mv := renameContainerMountpoint fs oldContainerMntPoint oldContainerMntPointSymlink
    newContainerMntPoint newContainerMntPointSymlink
  let t1 := before ++ mv.trace
  match mv.err with
  | some err => renameReturn (some err) true deferred σ mv.files t1
  | none =>
    let ds1 : List FsDeferred :=
      fsRevertStep (fun f => renameContainerMountpoint f newContainerMntPoint
        newContainerMntPointSymlink oldContainerMntPoint oldContainerMntPointSymlink) ::
        deferred
    let oldSnapshotMntPoint := getSnapshotMountPoint w.VarPath s.pool.name oldName
    let newSnapshotMntPoint := getSnapshotMountPoint w.VarPath s.pool.name newName
    let snap : FsStep :=
      if PathExists mv.files oldSnapshotMntPoint then
        osRename mv.files oldSnapshotMntPoint newSnapshotMntPoint
      else { err := none, files := mv.files, trace := [] }
    let t2 := t1 ++ snap.trace
    match snap.err with
    | some err => renameReturn (some err) true ds1 σ snap.files t2
    | none =>
      let ds2 : List FsDeferred :=
        fsRevertStep (fun f => osRename f newSnapshotMntPoint oldSnapshotMntPoint) :: ds1
      let oldSnapshotPath := w.VarPath ["snapshots", oldName]
      let rm : FsStep :=
        if PathExists snap.files oldSnapshotPath then osRemove snap.files oldSnapshotPath
        else { err := none, files := snap.files, trace := [] }
      let t3 := t2 ++ rm.trace
      match rm.err with
      | some err => renameReturn (some err) true ds2 σ rm.files t3
      | none =>
        let ds3 : List FsDeferred :=
          fsRevertStep (fun f => osSymlink f oldSnapshotMntPoint oldSnapshotPath) :: ds2
        let newSnapshotPath := w.VarPath ["snapshots", newName]
        let ln : FsStep :=
          if PathExists rm.files newSnapshotPath then
            osSymlink rm.files newSnapshotMntPoint newSnapshotPath
          else { err := none, files := rm.files, trace := [] }
        let t4 := t3 ++ ln.trace
        match ln.err with
        | some err => renameReturn (some err) true ds3 σ ln.files t4
        | none => renameReturn none false ds3 σ ln.files t4

/-- `ContainerRename` (lines 1430-1595). -/
def ContainerRename (w : CephWorld) (s : storageCeph) (c : Container) (newName : String)
    (σ : CephState) (fs : FileSystem) : RenameRun :=
  let oldName := c.Name
  let containerPath := c.Path
  let um := ContainerUmount w s oldName σ
  match um.result.2 with
  | some err => { result := some err, state := um.state, files := fs, trace := um.trace }
  | none =>
    let t1 := um.trace ++
      [.rbdVolumeUnmap s.OSDPoolName oldName storagePoolVolumeTypeNameContainer]
    match w.cephRBDVolumeUnmap s.ClusterName s.OSDPoolName oldName
        storagePoolVolumeTypeNameContainer s.UserName with
    | some err => { result := some err, state := um.state, files := fs, trace := t1 }
    | none =>
      let ds1 : List FsDeferred :=
        [fsRevertCall (.rbdVolumeMap s.OSDPoolName oldName storagePoolVolumeTypeNameContainer)]
      let t2 := t1 ++
        [.rbdVolumeRename s.OSDPoolName storagePoolVolumeTypeNameContainer oldName newName]
      match w.cephRBDVolumeRename s.ClusterName s.OSDPoolName
          storagePoolVolumeTypeNameContainer oldName newName s.UserName with
      | some err => renameReturn (some err) true ds1 um.state fs t2
      | none =>
        let ds2 : List FsDeferred :=
          fsRevertCall (.rbdVolumeRename s.OSDPoolName storagePoolVolumeTypeNameContainer
            newName oldName) :: ds1
        let t3 := t2 ++
          [.rbdVolumeMap s.OSDPoolName newName storagePoolVolumeTypeNameContainer]
        match w.cephRBDVolumeMap s.ClusterName s.OSDPoolName newName
            storagePoolVolumeTypeNameContainer s.UserName with
        | .fail err => renameReturn (some err) true ds2 um.state fs t3
        | .ok _ =>
          let ds3 : List FsDeferred :=
            fsRevertCall (.rbdVolumeUnmap s.OSDPoolName newName
              storagePoolVolumeTypeNameContainer) :: ds2
          renameMountpoints w s oldName containerPath newName ds3 um.state fs t3

/-! ### Copying a container (lines 1019-1323, and `storage.go`, lines 643-745) -/

/-- `deleteContainerMountpoint` (`storage.go`, lines 643-673). -/
def deleteContainerMountpoint (w : CephWorld) (mountPoint : String)
    (mountPointSymlink : String) (storageTypeName : String) : Option Err × List CephEvent :=
  let first : Option Err × List CephEvent :=
    if w.PathExists mountPointSymlink then
      (w.Remove mountPointSymlink, [.Remove mountPointSymlink])
    else (none, [])
  match first.1 with
  | some err => (some err, first.2)
  | none =>
    let second : Option Err × List CephEvent :=
      if w.PathExists mountPoint then (w.Remove mountPoint, [.Remove mountPoint])
      else (none, [])
    match second.1 with
    | some err => (some err, first.2 ++ second.2)
    | none =>
      if storageTypeName = "" then (none, first.2 ++ second.2)
      else
        let oldStyleMntPointSymlink := mountPointSymlink ++ "." ++ storageTypeName
        if w.PathExists oldStyleMntPointSymlink then
          (w.Remove oldStyleMntPointSymlink,
            first.2 ++ second.2 ++ [.Remove oldStyleMntPointSymlink])
        else (none, first.2 ++ second.2)

/-- `createSnapshotMountpoint` (`storage.go`, lines 700-719). -/
def createSnapshotMountpoint (w : CephWorld) (snapshotMountpoint : String)
    (snapshotsSymlinkTarget : String) (snapshotsSymlink : String) :
    Option Err × List CephEvent :=
  let snapshotMntPointExists := w.PathExists snapshotMountpoint
  let mntPointSymlinkExist := w.PathExists snapshotsSymlink
  let made : Option Err × List CephEvent :=
    if snapshotMntPointExists = false then
      (w.MkdirAll snapshotMountpoint 0o711, [.MkdirAll snapshotMountpoint 0o711])
    else (none, [])
  match made.1 with
  | some err => (some err, made.2)
  | none =>
    if mntPointSymlinkExist = false then
      (w.Symlink snapshotsSymlinkTarget snapshotsSymlink,
        made.2 ++ [.Symlink snapshotsSymlinkTarget snapshotsSymlink])
    else (none, made.2)

/-- `deleteSnapshotMountpoint` (`storage.go`, lines 721-745). -/
def deleteSnapshotMountpoint (w : CephWorld) (snapshotMountpoint : String)
    (snapshotsSymlinkTarget : String) (snapshotsSymlink : String) :
    Option Err × List CephEvent :=
  let first : Option Err × List CephEvent :=
    if w.PathExists snapshotMountpoint then
      (w.Remove snapshotMountpoint, [.Remove snapshotMountpoint])
    else (none, [])
  match first.1 with
  | some err => (some err, first.2)
  | none =>
    let second : Bool × List CephEvent :=
      if w.PathExists snapshotsSymlinkTarget then
        (w.Remove snapshotsSymlinkTarget = none, [.Remove snapshotsSymlinkTarget])
      else (false, [])
    let couldRemove := second.1
    if couldRemove ∧ w.PathExists snapshotsSymlink then
      (w.Remove snapshotsSymlink, first.2 ++ second.2 ++ [.Remove snapshotsSymlink])
    else (none, first.2 ++ second.2)

/-- A deferred revert step that runs one helper when `revert` is still set; the
helper's error is only logged. -/
def revertHelper (calls : Option Err × List CephEvent) : Deferred :=
  fun revert σ => if revert then (σ, calls.2) else (σ, [])

/-- A return of `ContainerCopy` with the closures deferred so far and the value
`revert` has at that return. -/
def copyReturn (err : Option Err) (revert : Bool) (deferred : List Deferred)
    (σ : CephState) (trace : List CephEvent) : Run (Option Err) :=
  let d := runDeferred revert deferred σ
  { result := err, state := d.1, trace := trace ++ d.2 }

/-- How the loop over the snapshots ends: with the error of an early return, or
with `err` unset, the closures deferred, the calls made and `lastSnap`. -/
structure CopyLoop where
  err : Option Err
  deferred : List Deferred
  trace : List CephEvent
  lastSnap : String

/-- The loop of `ContainerCopy` over the source's snapshots (lines 1150-1254).
`previous` is `snapshots[i-1].Name()` once `i > 0`; the list holds the names from
`snapshots[i]` on. -/
def copySnapshots (w : CephWorld) (s : storageCeph) (sourceContainerName : String)
    (targetContainerName : String) (targetVolumeName : String) :
    Option String → List String → List Deferred → List CephEvent → String → CopyLoop
  | _, [], deferred, trace, lastSnap =>
    { err := none, deferred := deferred, trace := trace, lastSnap := lastSnap }
  | previous, snap :: rest, deferred, trace, _ =>
    let prev : String :=
      match previous with
      | some before => "snapshot_" ++ (containerGetParentAndSnapshotName before).2.1
      | none => ""
    let snapOnlyName := (containerGetParentAndSnapshotName snap).2.1
    let lastSnap := "snapshot_" ++ snapOnlyName
    let sourceVolumeName :=
      s.OSDPoolName ++ "/container_" ++ sourceContainerName ++ "@snapshot_" ++ snapOnlyName
    let t1 := trace ++ [.copyWithSnapshots sourceVolumeName targetVolumeName prev]
    match w.copyWithSnapshots sourceVolumeName targetVolumeName prev with
    | some err => { err := some err, deferred := deferred, trace := t1, lastSnap := lastSnap }
    | none =>
      let ds1 : List Deferred :=
        revertCall (.rbdSnapshotDelete s.OSDPoolName targetContainerName
          storagePoolVolumeTypeNameContainer snapOnlyName) :: deferred
      let newTargetName := targetContainerName ++ "/" ++ snapOnlyName
      let containersPath := getSnapshotMountPoint w.VarPath s.pool.name newTargetName
      let snapshotMntPointSymlinkTarget :=
        w.VarPath ["storage-pools", s.pool.name, "snapshots", targetContainerName]
      let snapshotMntPointSymlink := w.VarPath ["snapshots", targetContainerName]
      let mp := createSnapshotMountpoint w containersPath snapshotMntPointSymlinkTarget
        snapshotMntPointSymlink
      let t2 := t1 ++ mp.2
      match mp.1 with
      | some err => { err := some err, deferred := ds1, trace := t2, lastSnap := lastSnap }
      | none =>
        let ds2 : List Deferred :=
          revertHelper (deleteSnapshotMountpoint w containersPath
            snapshotMntPointSymlinkTarget snapshotMntPointSymlink) :: ds1
        copySnapshots w s sourceContainerName targetContainerName targetVolumeName
          (some snap) rest ds2 t2 lastSnap

/-- The end of `ContainerCopy` (lines 1298-1322): mount the target, apply the
"copy" template, clear `revert`. -/
def copyMountAndTemplate (w : CephWorld) (s : storageCeph) (target : Container)
    (deferred : List Deferred) (σ : CephState) (trace : List CephEvent) : Run (Option Err) :=
  let mounted := ContainerMount w s target.Name σ
  let t1 := trace ++ mounted.trace
  match mounted.result.2 with
  | some err => copyReturn (some err) true deferred mounted.state t1
  | none =>
    let ds1 : List Deferred :=
      if mounted.result.1 then
        (fun _ σ2 =>
          let u := ContainerUmount w s target.Name σ2
          (u.state, u.trace)) :: deferred
      else deferred
    let t2 := t1 ++ [.TemplateApply target.Name "copy"]
    match target.TemplateApply "copy" with
    | some err => copyReturn (some err) true ds1 mounted.state t2
    | none => copyReturn none false ds1 mounted.state t2

/-- The branch of `ContainerCopy` that copies the snapshots too (lines
1076-1296), followed by the end of the function. -/
def copyIncludingSnapshots (w : CephWorld) (s : storageCeph) (target : Container)
    (sourceContainerName : String) (snapshots : List String) (deferred : List Deferred)
    (σ : CephState) (trace : List CephEvent) : Run (Option Err) :=
  let targetContainerName := target.Name
  let targetContainerPath := target.Path
  let targetContainerMountPoint :=
    getContainerMountPoint w.VarPath s.pool.name targetContainerName
  let mp := createContainerMountpoint w targetContainerMountPoint targetContainerPath
    target.IsPrivileged
  let t1 := trace ++ mp.2
  match mp.1 with
  | some err => copyReturn (some err) true deferred σ t1
  | none =>
    let ds1 : List Deferred :=
      revertHelper (deleteContainerMountpoint w targetContainerMountPoint
        targetContainerPath "") :: deferred
    let t2 := t1 ++ [.rbdVolumeCreate s.OSDPoolName targetContainerName
      storagePoolVolumeTypeNameContainer "0"]
    match w.cephRBDVolumeCreate s.ClusterName s.OSDPoolName targetContainerName
        storagePoolVolumeTypeNameContainer "0" s.UserName with
    | some err => copyReturn (some err) true ds1 σ t2
    | none =>
      let ds2 : List Deferred :=
        revertCall (.rbdVolumeDelete s.OSDPoolName targetContainerName
          storagePoolVolumeTypeNameContainer) :: ds1
      let targetVolumeName := s.OSDPoolName ++ "/container_" ++ targetContainerName
      let loop := copySnapshots w s sourceContainerName targetContainerName
        targetVolumeName none snapshots ds2 t2 ""
      match loop.err with
      | some err => copyReturn (some err) true loop.deferred σ loop.trace
      | none =>
        let sourceVolumeName := s.OSDPoolName ++ "/container_" ++ sourceContainerName
        let t3 := loop.trace ++
          [.copyWithSnapshots sourceVolumeName targetVolumeName loop.lastSnap]
        match w.copyWithSnapshots sourceVolumeName targetVolumeName loop.lastSnap with
        | some err => copyReturn (some err) true loop.deferred σ t3
        | none =>
          let t4 := t3 ++ [.rbdVolumeMap s.OSDPoolName targetContainerName
            storagePoolVolumeTypeNameContainer]
          match w.cephRBDVolumeMap s.ClusterName s.OSDPoolName targetContainerName
              storagePoolVolumeTypeNameContainer s.UserName with
          | .fail err => copyReturn (some err) true loop.deferred σ t4
          | .ok _ => copyMountAndTemplate w s target loop.deferred σ t4

/-- `ContainerCopy` (lines 1019-1323). -/
def ContainerCopy (w : CephWorld) (s : storageCeph) (target : Container)
    (source : Container) (containerOnly : Bool) (σ : CephState) : Run (Option Err) :=
  let sourceContainerName := source.Name
  let t0 : List CephEvent := [.StorageStart sourceContainerName]
  match source.StorageStart with
  | .fail err => { result := some err, state := σ, trace := t0 }
  | .ok ourStart =>
    let ds0 : List Deferred :=
      if ourStart then [fun _ σ2 => (σ2, [.StorageStop sourceContainerName])] else []
    let sourcePool := source.PoolName
    let targetPool := target.PoolName
    if sourcePool ≠ targetPool then copyReturn (some .crossPoolCopy) true ds0 σ t0
    else
      match source.Snapshots with
      | .fail err => copyReturn (some err) true ds0 σ t0
      | .ok snapshots =>
        if containerOnly ∨ snapshots.length = 0 then
          let full : Bool := s.getConfig "ceph.rbd.clone_copy" ≠ "" ∧
            w.IsTrue (s.getConfig "ceph.rbd.clone_copy") = false
          if full then
            copyReturn (w.copyWithoutSnapshotsFull target.Name source.Name) true ds0 σ
              (t0 ++ [.copyWithoutSnapshotsFull target.Name source.Name])
          else
            copyReturn (w.copyWithoutSnapshotsSparse target.Name source.Name) true ds0 σ
              (t0 ++ [.copyWithoutSnapshotsSparse target.Name source.Name])
        else
          copyIncludingSnapshots w s target sourceContainerName snapshots ds0 σ t0

/-! ### Creating a snapshot (lines 1649-1716) -/

/-- `ContainerSnapshotCreate` (lines 1649-1716). -/
def ContainerSnapshotCreate (w : CephWorld) (s : storageCeph) (snapshotContainer : Container)
    (sourceContainer : Container) (σ : CephState) : Run (Option Err) :=
  let targetContainerName := snapshotContainer.Name
  let sourceContainerName := sourceContainer.Name
  let targetSnapshotOnlyName := (containerGetParentAndSnapshotName targetContainerName).2.1
  let targetSnapshotName := "snapshot_" ++ targetSnapshotOnlyName
  let t1 : List CephEvent :=
    [.rbdSnapshotCreate s.OSDPoolName sourceContainerName storagePoolVolumeTypeNameContainer
      targetSnapshotName]
  match w.cephRBDSnapshotCreate s.ClusterName s.OSDPoolName sourceContainerName
      storagePoolVolumeTypeNameContainer targetSnapshotName s.UserName with
  | some err => { result := some err, state := σ, trace := t1 }
  | none =>
    let deferred : List Deferred :=
      [revertCall (.rbdSnapshotDelete s.OSDPoolName sourceContainerName
        storagePoolVolumeTypeNameContainer targetSnapshotName)]
    let targetContainerMntPoint := getSnapshotMountPoint w.VarPath s.pool.name
      targetContainerName
    let sourceName := (containerGetParentAndSnapshotName sourceContainerName).1
    let snapshotMntPointSymlinkTarget :=
      w.VarPath ["storage-pools", s.pool.name, "snapshots", sourceName]
    let snapshotMntPointSymlink := w.VarPath ["snapshots", sourceName]
    let mp := createSnapshotMountpoint w targetContainerMntPoint
      snapshotMntPointSymlinkTarget snapshotMntPointSymlink
    match mp.1 with
    | some err => copyReturn (some err) true deferred σ (t1 ++ mp.2)
    | none => copyReturn none false deferred σ (t1 ++ mp.2)

/-! ## Root disk device (`container.go`, lines 245-273) -/

/-- `isRootDiskDevice`; a `types.Device` is a map from strings to strings. -/
def isRootDiskDevice (device : Config) : Bool :=
  cfgGet device "type" = "disk" ∧ cfgGet device "path" = "/" ∧ cfgGet device "source" = ""

/-- The loop of `containerGetRootDiskDevice` and the return after it, from the
entries not yet visited and the values of `devName` and `dev`. -/
def rootDiskLoop : List (String × Config) → String → Config → Res (String × Config)
  | [], devName, dev =>
    if devName ≠ "" then .ok (devName, dev) else .fail .noRootDevice
  | (n, d) :: rest, devName, dev =>
    if isRootDiskDevice d then
      if devName ≠ "" then .fail .moreThanOneRootDevice
      else rootDiskLoop rest n d
    else rootDiskLoop rest devName dev

/-- `containerGetRootDiskDevice`; `devices` lists the entries of the map in the
order the `range` loop visits them, which Go leaves unspecified. -/
def containerGetRootDiskDevice (devices : List (String × Config)) : Res (String × Config) :=
  rootDiskLoop devices "" []

/-! ## The client (`client/apollo_containers.go`) -/

/-- Go `strings.Split` on element lists for a non-empty `sep`, with `fuel` bounding
the number of separators looked for. -/
def splitAll (sep : List Char) : Nat → List Char → List (List Char)
  | 0, l => [l]
  | fuel + 1, l =>
    match splitN2 sep l with
    | none => [l]
    | some (before, after) => before :: splitAll sep fuel after

/-- Go `strings.Split(s, sep)` for a non-empty `sep`. -/
def stringsSplit (s : String) (sep : String) : List String :=
  (splitAll sep.data s.length s.data).map String.mk

/-- The element `fields[len(fields)-1]` of a slice that `strings.Split` returned;
such a slice is never empty. -/
def lastField (fields : List String) : String :=
  fields.getLast?.getD ""

/-- `GetContainerLogfiles` (lines 1212-1230). `queryStruct` stands for
`r.queryStruct(method, path, nil, "", &urls)` and yields the decoded `urls`. The
`range` expression is the slice `logfiles` as it is when the loop starts. -/
def GetContainerLogfiles (queryStruct : String → String → Res (List String))
    (name : String) : Res (List String) :=
  match queryStruct "GET" ("/containers/" ++ name ++ "/logs") with
  | .fail err => .fail err
  | .ok _urls =>
    let logfiles : List String := []
    .ok (logfiles.foldl
      (fun acc url =>
        let fields := stringsSplit url ("/containers/" ++ name ++ "/logs/")
        acc ++ [lastField fields])
      logfiles)

/-- The file names that the specification asks `GetContainerLogfiles` to list:
for each url the part after the last "/containers/<name>/logs/". -/
def logfileNames (urls : List String) (name : String) : List String :=
  urls.map (fun url => lastField (stringsSplit url ("/containers/" ++ name ++ "/logs/")))

/-- The fields of `api.ContainerSnapshot` that `CopyContainerSnapshot` reads. -/
structure ContainerSnapshot where
  Name : String
  Architecture : String
  Devices : List (String × Config)
  Config : Config
  Ephemeral : Bool
  Profiles : List String
  Stateful : Bool
  deriving DecidableEq, Repr

/-- `ContainerSnapshotCopyArgs`. -/
structure ContainerSnapshotCopyArgs where
  Live : Bool
  Mode : String
  Name : String
  deriving DecidableEq, Repr

/-- The request `api.ContainersPost` as `CopyContainerSnapshot` fills it. -/
structure ContainersPost where
  Name : String
  Architecture : String
  Devices : List (String × Config)
  Config : Config
  Ephemeral : Bool
  Profiles : List String
  Stateful : Bool := false
  SourceLive : Bool := false
  SourceBaseImage : String := ""
  SourceType : String := ""
  SourceSource : String := ""
  deriving DecidableEq, Repr

/-- The request `api.ContainerSnapshotPost` sent to the source server. -/
structure ContainerSnapshotPost where
  Migration : Bool
  Name : String
  Live : Bool := false
  deriving DecidableEq, Repr

/-- A `RemoteOperation`, by the id of the operation it tracks. -/
structure RemoteOperation where
  targetOp : String
  deriving DecidableEq, Repr

/-- The servers around one call of `CopyContainerSnapshot`: `HasExtension` of the
target `r` and of `source`, whether `r == source`, `r.CreateContainer`, and
`migration` for lines 990-1102 (push, relay and pull mode), which run after
line 986 has read `args.Name`. -/
structure CopyServers where
  HasExtension : String → Bool
  sourceHasExtension : String → Bool
  sameServer : Bool
  CreateContainer : ContainersPost → Res String
  migration : ContainersPost → ContainerSnapshotPost → String → String →
    Option ContainerSnapshotCopyArgs → Outcome RemoteOperation

/-- The copy arguments block of `CopyContainerSnapshot` (lines 939-960). -/
def processCopyArgs (w : CopyServers) (req : ContainersPost)
    (args : Option ContainerSnapshotCopyArgs) : Outcome ContainersPost :=
  match args with
  | none => .ret req
  | some a =>
    if (a.Mode = "push" ∨ a.Mode = "relay") ∧ w.HasExtension "container_push" = false then
      .err (.ext "The target server is missing the required \"container_push\" API extension")
    else if (a.Mode = "push" ∨ a.Mode = "relay") ∧
        w.sourceHasExtension "container_push" = false then
      .err (.ext "The source server is missing the required \"container_push\" API extension")
    else if a.Mode = "push" ∧ w.sourceHasExtension "container_push_target" = false then
      .err (.ext
        "The source server is missing the required \"container_push_target\" API extension")
    else if a.Name ≠ "" then .ret { req with Name := a.Name }
    else .ret req

/-- The part of `CopyContainerSnapshot` after the copy arguments block (lines
962-1102): the local copy, or the source request, whose `Name: args.Name` reads
through `args`. -/
def copyLocalOrRemote (w : CopyServers) (snapshot : ContainerSnapshot) (cName : String)
    (sName : String) (req : ContainersPost) (args : Option ContainerSnapshotCopyArgs) :
    Outcome RemoteOperation :=
  if w.sameServer then
    let req1 := { req with SourceType := "copy", SourceSource := snapshot.Name }
    match w.CreateContainer req1 with
    | .fail err => .err err
    | .ok op => .ret { targetOp := op }
  else
    match args with
    | none => .panics
    | some a =>
      let sourceReq : ContainerSnapshotPost := { Migration := true, Name := a.Name }
      let sourceReq1 :=
        if snapshot.Stateful ∧ a.Live then { sourceReq with Live := a.Live } else sourceReq
      w.migration req sourceReq1 cName sName args

/-- `CopyContainerSnapshot` (lines 913-1102); `none` for `args` is the nil
pointer. A read through the nil pointer and an index out of range panic. -/
def CopyContainerSnapshot (w : CopyServers) (snapshot : ContainerSnapshot)
    (args : Option ContainerSnapshotCopyArgs) : Outcome RemoteOperation :=
  match splitN2 SnapshotDelimiter.data snapshot.Name.data with
  | none => .panics
  | some (cName, sName) =>
    let req : ContainersPost :=
      { Name := ⟨cName⟩, Architecture := snapshot.Architecture, Config := snapshot.Config,
        Devices := snapshot.Devices, Ephemeral := snapshot.Ephemeral,
        Profiles := snapshot.Profiles }
    let live : Outcome Bool :=
      if snapshot.Stateful then
        match args with
        | none => .panics
        | some a => .ret a.Live
      else .ret false
    match live with
    | .panics => .panics
    | .err err => .err err
    | .ret statefulAndLive =>
      let checked : Outcome ContainersPost :=
        if statefulAndLive then
          if w.HasExtension "container_snapshot_stateful_migration" = false then
            .err (.ext ("The server is missing the required " ++
              "\"container_snapshot_stateful_migration\" API extension"))
          else
            .ret { req with Stateful := snapshot.Stateful, SourceLive := statefulAndLive }
        else .ret req
      match checked with
      | .panics => .panics
      | .err err => .err err
      | .ret req1 =>
        let req2 := { req1 with SourceBaseImage := cfgGet snapshot.Config "volatile.base_image" }
        match processCopyArgs w req2 args with
        | .panics => .panics
        | .err err => .err err
        | .ret req3 => copyLocalOrRemote w snapshot ⟨cName⟩ ⟨sName⟩ req3 args

/-! ## Helpers of the command line client (`mercury/utils_test.go`)

The file `mercury/utils.go`, which defines `StringList` and `GetExistingAliases`,
is not among the sources; the tests of `utils_test.go` and their comments fix the
behaviour modelled here. -/

/-- Go `a < b` on the elements of two strings: the first element in which they
differ decides, and a proper prefix is less. -/
def lessChars : List Char → List Char → Bool
  | [], [] => false
  | [], _ :: _ => true
  | _ :: _, [] => false
  | a :: restA, b :: restB =>
    if a.toNat < b.toNat then true
    else if b.toNat < a.toNat then false
    else lessChars restA restB

/-- Go `a < b` on strings. -/
def stringLess (a : String) (b : String) : Bool :=
  lessChars a.data b.data

/-- Modelled from the spec: the comparison of two cells by `StringList.Less`,
which `mercury/utils.go` (not at hand) defines; by the tests of `utils_test.go`
an empty string sorts last and other strings compare as Go strings do. -/
def cellLess (a : String) (b : String) : Bool :=
  if a = "" then false
  else if b = "" then true
  else stringLess a b

/-- Modelled from the spec: `StringList.Less` of `mercury/utils.go` (not at hand)
on two rows; by the tests of `utils_test.go` the first column in which the rows
differ decides, and equal rows are not less than one another. -/
def StringList.Less : List String → List String → Bool
  | a :: restA, b :: restB => if a ≠ b then cellLess a b else StringList.Less restA restB
  | _, _ => false

/-- Modelled from the spec: `sort.Sort(StringList(data))`, which reorders the
rows until no row is `Less` than a row before it. On rows of one length `Less`
is a strict total order, so the outcome does not depend on the sorting
algorithm; insertion sort stands for it. -/
def StringList.sort (data : List (List String)) : List (List String) :=
  data.insertionSort (fun a b => StringList.Less b a = false)

/-- The order that the tests of `StringList` describe: two rows are equal, or in
the first column in which they differ the cell of the first row comes before the
cell of the second, an empty cell coming after every non-empty one. -/
def RowBefore (a : List String) (b : List String) : Prop :=
  a = b ∨
  ∃ (common : List String) (x y : String) (restA restB : List String),
    a = common ++ x :: restA ∧ b = common ++ y :: restB ∧ x ≠ y ∧
      (y = "" ∨ (x ≠ "" ∧ stringLess x y = true))

/-- Modelled from the spec: `api.ImageAliasesEntry`, declared in `shared/api`
outside the files at hand. -/
structure ImageAliasesEntry where
  Name : String
  Description : String := ""
  Target : String := ""
  deriving DecidableEq, Repr

/-- The loop of Go `sort.Search(n, f)` on the bounds `i` and `j`: binary search
for the smallest index at which `f` holds. -/
def searchLoop (f : Nat → Bool) : Nat → Nat → Nat → Nat
  | 0, i, _ => i
  | fuel + 1, i, j =>
    if i < j then
      let h := (i + j) / 2
      if f h = false then searchLoop f fuel (h + 1) j else searchLoop f fuel i h
    else i

/-- Go `sort.SearchStrings(a, x)`: `sort.Search(len(a), func(i) { a[i] >= x })`. -/
def SearchStrings (a : List String) (x : String) : Nat :=
  searchLoop (fun i => !stringLess (a.getD i "") x) a.length 0 a.length

/-- Modelled from the spec: `GetExistingAliases` of `mercury/utils.go` (not at
hand); by the tests of `utils_test.go` it keeps, in their order, the entries of
`allAliases` whose name is among the sorted `aliases`, looking each name up with
`sort.SearchStrings`. -/
def GetExistingAliases (aliases : List String) (allAliases : List ImageAliasesEntry) :
    List ImageAliasesEntry :=
  allAliases.foldl
    (fun existing entry =>
      let pos := SearchStrings aliases entry.Name
      if pos < aliases.length ∧ aliases.getD pos "" = entry.Name then existing ++ [entry]
      else existing)
    []

/-! ## A concrete world for the attach pipeline

Used to run the embedding on explicit inputs. -/

/-- Idmap entries `(hostid, nsid, range)`. -/
abbrev DemoIdmap := List (Int × Int × Int)

def idmapA : DemoIdmap := [(100000, 0, 65536)]

def idmapB : DemoIdmap := [(200000, 0, 65536)]

/-- A world with one ceph pool and one custom volume whose stored
`volatile.idmap.last` is `lastJSON`, used by the containers `users`; containers
`c1` (idmap A) and `c2` (idmap B) can be loaded; unshift and shift end as given. -/
def demoAttachWorld (lastJSON : String) (users : List String)
    (unshiftResult shiftResult : Option Err) : AttachWorld DemoIdmap where
  StoragePoolGet := fun name => .ok (1, { name := name, driver := "ceph", config := [] })
  StoragePoolVolumeGetType := fun name _ _ =>
    .ok { name := name, description := "", config := some [("volatile.idmap.last", lastJSON)] }
  StoragePoolInit := fun _ _ _ _ => none
  idmapsetFromString := fun s =>
    if s = "A" then .ok (some idmapA)
    else if s = "B" then .ok (some idmapB)
    else if s = "[]" then .ok none
    else .fail (.ext "unmarshal")
  idmapsetToJSON := fun m =>
    if m = idmapA then .ok "A" else if m = idmapB then .ok "B" else .fail (.ext "marshal")
  VarPath := fun parts => "/var/lib/apollo/" ++ "/".intercalate parts
  storagePoolVolumeTypeToName := fun t =>
    if t = 2 then .ok "custom" else .fail (.ext "invalid storage volume type")
  storagePoolVolumeUsedByContainersGet := fun _ _ => .ok users
  containerLoadByName := fun n =>
    if n = "c1" then .ok { Name := "c1", IdmapSet := .ok (some idmapA) }
    else if n = "c2" then .ok { Name := "c2", IdmapSet := .ok (some idmapB) }
    else .fail .noSuchObject
  StoragePoolVolumeMount := .ok true
  StoragePoolVolumeUmount := .ok true
  UnshiftRootfs := fun _ _ => unshiftResult
  ShiftRootfs := fun _ _ => shiftResult
  StoragePoolGetID := fun _ => .ok 1
  StoragePoolVolumeUpdate := fun _ _ _ _ _ => none

/-- The attaching container of the examples: `c1`, with idmap A. -/
def demoContainer : ContainerHandle DemoIdmap :=
  { Name := "c1", IdmapSet := .ok (some idmapA) }

/-- The storage object returned when `c1` attaches the fresh volume `v1`. -/
def demoAttachedStorage : Storage :=
  { sType := 1, poolID := 1,
    pool := { name := "p1", driver := "ceph", config := [] },
    volume := { name := "v1", description := "",
                config := some [("volatile.idmap.last", "A"), ("volatile.idmap.next", "A")] } }

/-- The calls made when `c1` attaches the fresh volume `v1`. -/
def demoAttachTrace : List (AttachEvent DemoIdmap) :=
  [.StoragePoolVolumeMount,
   .ShiftRootfs idmapA "/var/lib/apollo/storage-pools/p1/custom/v1",
   .SetStoragePoolVolumeWritable "" [("volatile.idmap.last", "A"), ("volatile.idmap.next", "A")],
   .StoragePoolVolumeUpdate "v1" 2 1 ""
      [("volatile.idmap.last", "A"), ("volatile.idmap.next", "A")],
   .StoragePoolVolumeUmount]

/-- The calls that physically destroy an RBD volume or its snapshots. -/
def CephEvent.destroysVolume : CephEvent → Bool
  | .rbdSnapshotUnprotect _ _ _ _ => true
  | .rbdSnapshotsPurge _ _ _ => true
  | .rbdVolumeDelete _ _ _ => true
  | _ => false

/-- The calls of `s.ImageCreate`. -/
def CephEvent.isImageCreate : CephEvent → Bool
  | .ImageCreate _ => true
  | _ => false

/-! ## A concrete ceph world

Used to run the driver embedding on explicit inputs. -/

/-- A cluster in which every OSD pool exists or not as `osdPoolExists` says, every
RBD volume exists or not as `volumeExists` says, the clone listing answers
`clones`, `ImageCreate` ends as `imageCreate`, and every other call succeeds. -/
def demoCephWorld (osdPoolExists : Bool) (volumeExists : Bool) (clones : Res (List String))
    (imageCreate : Option Err) : CephWorld where
  cephOSDPoolExists := fun _ _ _ => osdPoolExists
  osdPoolCreate := fun _ _ _ _ => .ok ""
  osdPoolGetPgNum := fun _ _ _ => .ok "pg_num: 8\n"
  cephOSDPoolDestroy := fun _ _ _ => none
  MkdirAll := fun _ _ => none
  Remove := fun _ => none
  RemoveAll := fun _ => none
  Chmod := fun _ _ => none
  Symlink := fun _ _ => none
  PathExists := fun _ => false
  cephRBDVolumeExists := fun _ _ _ _ _ => volumeExists
  cephRBDVolumeCreate := fun _ _ _ _ _ _ => none
  cephRBDVolumeDelete := fun _ _ _ _ _ => none
  cephRBDVolumeMap := fun _ _ _ _ _ => .ok "/dev/rbd0"
  cephRBDVolumeUnmap := fun _ _ _ _ _ => none
  cephRBDVolumeMarkDeleted := fun _ _ _ _ _ => none
  cephRBDCloneCreate := fun _ _ _ _ _ _ _ _ _ => none
  cephRBDSnapshotListClones := fun _ _ _ _ _ _ => clones
  cephRBDSnapshotUnprotect := fun _ _ _ _ _ _ => none
  cephRBDSnapshotsPurge := fun _ _ _ _ _ => none
  getRBDMappedDevPath := fun _ _ _ _ _ => ("/dev/rbd0", 0)
  tryMount := fun _ _ _ _ _ => none
  tryUnmount := fun _ _ => none
  getRBDFilesystem := fun _ => "ext4"
  getRBDMountOptions := fun _ => "discard"
  apolloResolveMountoptions := fun o => (0, o)
  ImageCreate := fun _ _ => imageCreate
  deleteImageDbPoolVolume := fun _ _ => none
  shiftRootfs := fun _ => none
  IsTrue := fun v => v = "true" ∨ v = "1" ∨ v = "yes" ∨ v = "on"
  IsSnapshot := fun n => n.contains '/'
  VarPath := fun parts => "/var/lib/apollo/" ++ "/".intercalate parts
  rbdVersion := .ok "ceph version 12.2.0\n"
  ParseByteSizeString := fun _ => .ok 0
  cephRBDVolumeRename := fun _ _ _ _ _ _ => none
  cephRBDVolumeRestore := fun _ _ _ _ _ _ => none
  cephRBDSnapshotCreate := fun _ _ _ _ _ _ => none
  copyWithSnapshots := fun _ _ _ => none
  copyWithoutSnapshotsFull := fun _ _ => none
  copyWithoutSnapshotsSparse := fun _ _ => none

/-- The driver object of pool `p1` after `StoragePoolInit`, with the pool
configuration `config`. -/
def demoCeph (osdPoolName : String) (config : Config) : storageCeph :=
  { ClusterName := "ceph", OSDPoolName := osdPoolName, UserName := "admin", PGNum := "32",
    poolID := 1, pool := { name := "p1", driver := "ceph", config := config },
    volume := { name := "v1", description := "", config := some [] } }

/-- An unprivileged container `c1`. -/
def demoCephContainer : Container :=
  { Name := "c1", Path := "/var/lib/apollo/containers/c1", IsPrivileged := false,
    TemplateApply := fun _ => none, StorageStart := .ok false, Snapshots := .ok [],
    PoolName := "p1" }

/-- The state with no operation in flight and nothing mounted. -/
def idleState : CephState := { ongoing := [], mounts := [] }

/-- The calls of `cephRBDCloneCreate`. -/
def CephEvent.isCloneCreate : CephEvent → Bool
  | .rbdCloneCreate _ _ _ _ _ _ _ => true
  | _ => false

/-- The inverse actions of `StoragePoolCreate`: destroying the OSD pool and
removing the mount point. -/
def CephEvent.isPoolCreateInverse : CephEvent → Bool
  | .osdPoolDestroy _ => true
  | .Remove _ => true
  | _ => false

/-- The calls of `cephOSDPoolDestroy`. -/
def CephEvent.isOsdPoolDestroy : CephEvent → Bool
  | .osdPoolDestroy _ => true
  | _ => false


/-- The driver object operates on the OSD pool `n`, its pool is called `n`, and
its configuration records `n` under "ceph.osd.pool_name". -/
def storageCeph.NamedAs (d : storageCeph) (n : String) : Prop :=
  d.OSDPoolName = n ∧ d.pool.name = n ∧ d.getConfig "ceph.osd.pool_name" = n

/-- The calls of `cephRBDVolumeRestore`. -/
def CephEvent.isVolumeRestore : CephEvent → Bool
  | .rbdVolumeRestore _ _ _ _ => true
  | _ => false

/-- The container `name` of pool `p1`, with its stable symlink as path. -/
def demoContainerNamed (name : String) : Container :=
  { demoCephContainer with Name := name, Path := "/var/lib/apollo/containers/" ++ name }

/-- The mount point, the snapshots directory and the two stable symlinks of a
container "A" of pool `p1` that has snapshots. -/
def demoRenameFiles : FileSystem :=
  [("/var/lib/apollo/storage-pools/p1/containers/A", .dir),
   ("/var/lib/apollo/containers/A", .symlink "/var/lib/apollo/storage-pools/p1/containers/A"),
   ("/var/lib/apollo/storage-pools/p1/snapshots/A", .dir),
   ("/var/lib/apollo/snapshots/A", .symlink "/var/lib/apollo/storage-pools/p1/snapshots/A")]

/-- The calls of `copyWithSnapshots`. -/
def CephEvent.isCopyWithSnapshots : CephEvent → Bool
  | .copyWithSnapshots _ _ _ => true
  | _ => false

/-- The transfers the specification describes for a copy with snapshots: each
snapshot volume of the source onto the target volume with the previous snapshot
as parent ("" for the first), `names` being the snapshot names still to send and
`prev` the parent of the next transfer, and last the live volume of the source
with the latest snapshot as parent. -/
def chainedTransfers (osdPool : String) (source : String) (target : String) :
    String → List String → List CephEvent
  | prev, [] =>
    [.copyWithSnapshots (osdPool ++ "/container_" ++ source)
      (osdPool ++ "/container_" ++ target) prev]
  | prev, n :: rest =>
    .copyWithSnapshots (osdPool ++ "/container_" ++ source ++ "@snapshot_" ++ n)
        (osdPool ++ "/container_" ++ target) prev ::
      chainedTransfers osdPool source target ("snapshot_" ++ n) rest

/-- A root disk device: type "disk", path "/", no source. -/
def demoRootDisk : Config := [("type", "disk"), ("path", "/"), ("pool", "p1")]

/-- Servers on which every call succeeds; `same` tells whether the source is the
target server itself. -/
def demoCopyServers (same : Bool) : CopyServers where
  HasExtension := fun _ => true
  sourceHasExtension := fun _ => true
  sameServer := same
  CreateContainer := fun _ => .ok "op1"
  migration := fun _ _ _ _ _ => .ret { targetOp := "op2" }

/-- The snapshot "c1/snap0". -/
def demoSnapshot (stateful : Bool) : ContainerSnapshot :=
  { Name := "c1/snap0", Architecture := "x86_64", Config := [], Devices := [],
    Ephemeral := false, Profiles := ["default"], Stateful := stateful }
/-! ## Theorems -/

/-- Splitting at the first separator is unambiguous when the heads hold none. -/
theorem split_at_first_sep (c : Char) :
    ∀ (p q n m : List Char), c ∉ p → c ∉ q → p ++ c :: n = q ++ c :: m → p = q ∧ n = m := by
  intro p
  induction p with
  | nil =>
    intro q n m _ hq h
    cases q with
    | nil => simpa using h
    | cons b q =>
      simp only [List.nil_append, List.cons_append, List.cons.injEq] at h
      exact absurd (List.mem_cons_self _ _) (h.1 ▸ hq)
  | cons a p ih =>
    intro q n m hp hq h
    cases q with
    | nil =>
      simp only [List.nil_append, List.cons_append, List.cons.injEq] at h
      exact absurd (List.mem_cons_self _ _) (h.1 ▸ hp)
    | cons b q =>
      simp only [List.cons_append, List.cons.injEq] at h
      have hp2 : c ∉ p := fun hm => hp (List.mem_cons_of_mem _ hm)
      have hq2 : c ∉ q := fun hm => hq (List.mem_cons_of_mem _ hm)
      obtain ⟨e1, e2⟩ := ih q n m hp2 hq2 h.2
      exact ⟨by rw [h.1, e1], e2⟩

/-- Two pool/object pairs joined by "/" agree only if both parts agree. -/
theorem pool_object_inj (p q n m : String) (hp : noSlash p) (hq : noSlash q)
    (h : p.data ++ '/' :: n.data = q.data ++ '/' :: m.data) : p = q ∧ n = m := by
  obtain ⟨e1, e2⟩ := split_at_first_sep '/' p.data q.data n.data m.data hp hq h
  exact ⟨String.ext e1, String.ext e2⟩

/-- Lock ids of keys whose pool names hold no "/" are equal only for equal keys. -/
theorem lockID_injective (k1 k2 : LockKey) (h1 : noSlash k1.pool) (h2 : noSlash k2.pool)
    (h : k1.lockID = k2.lockID) : k1 = k2 := by
  have hd := congrArg String.data h
  cases k1 <;> cases k2 <;>
    simp [LockKey.lockID, LockKey.pool, getPoolMountLockID, getPoolUmountLockID,
      getImageCreateLockID, getContainerMountLockID, getContainerUmountLockID,
      getCustomMountLockID, getCustomUmountLockID, String.data_append] at hd h1 h2 ⊢ <;>
    first
      | exact String.ext hd
      | exact pool_object_inj _ _ _ _ h1 h2 hd

/-- C6: the seven lock-id constructors return the documented strings; for pool
names without "/" two lock ids are equal only if they come from the same
constructor applied to the same arguments; the mount id and the umount id of one
object always differ. -/
theorem C6_lock_ids_identify_operation_pool_object :
    (∀ pool name : String,
      getPoolMountLockID pool = "mount/pool/" ++ pool ∧
      getPoolUmountLockID pool = "umount/pool/" ++ pool ∧
      getContainerMountLockID pool name = "mount/container/" ++ pool ++ "/" ++ name ∧
      getContainerUmountLockID pool name = "umount/container/" ++ pool ++ "/" ++ name ∧
      getCustomMountLockID pool name = "mount/custom/" ++ pool ++ "/" ++ name ∧
      getCustomUmountLockID pool name = "umount/custom/" ++ pool ++ "/" ++ name ∧
      getImageCreateLockID pool name = "create/image/" ++ pool ++ "/" ++ name) ∧
    (∀ k1 k2 : LockKey, noSlash k1.pool → noSlash k2.pool →
      (k1.lockID = k2.lockID ↔ k1 = k2)) ∧
    (∀ pool name : String,
      getPoolMountLockID pool ≠ getPoolUmountLockID pool ∧
      getContainerMountLockID pool name ≠ getContainerUmountLockID pool name ∧
      getCustomMountLockID pool name ≠ getCustomUmountLockID pool name) := by
  refine ⟨fun _ _ => ⟨rfl, rfl, rfl, rfl, rfl, rfl, rfl⟩, ?_, ?_⟩
  · intro k1 k2 h1 h2
    exact ⟨lockID_injective k1 k2 h1 h2, fun e => by rw [e]⟩
  · intro pool name
    refine ⟨?_, ?_, ?_⟩ <;>
      · intro h
        have hd := congrArg String.data h
        simp [getPoolMountLockID, getPoolUmountLockID, getContainerMountLockID,
          getContainerUmountLockID, getCustomMountLockID, getCustomUmountLockID,
          String.data_append] at hd

theorem C6_lock_ids_witness :
    noSlash "p1" ∧
    ((LockKey.containerMount "p1" "a/b").lockID = (LockKey.customMount "p1" "a/b").lockID ↔
      LockKey.containerMount "p1" "a/b" = LockKey.customMount "p1" "a/b") :=
  ⟨by decide,
    C6_lock_ids_identify_operation_pool_object.2.1 (.containerMount "p1" "a/b")
      (.customMount "p1" "a/b") (by decide) (by decide)⟩

theorem cfgGet_cfgSet_same (m : Config) (k v : String) : cfgGet (cfgSet m k v) k = v := by
  simp [cfgGet, cfgSet, List.lookup]

theorem lookup_filter_ne (m : Config) (k k2 : String) (h : k2 ≠ k) :
    List.lookup k2 (m.filter (fun e => e.1 != k)) = List.lookup k2 m := by
  induction m with
  | nil => rfl
  | cons e m ih =>
    obtain ⟨a, b⟩ := e
    by_cases hak : a = k
    · subst hak
      have h1 : (k2 == a) = false := by simpa using h
      simp [List.filter, List.lookup, h1, ih]
    · have h1 : (a != k) = true := by simpa using hak
      simp only [List.filter, h1, List.lookup]
      cases hk : (k2 == a) <;> simp [ih]

theorem cfgGet_cfgSet_other (m : Config) (k k2 v : String) (h : k2 ≠ k) :
    cfgGet (cfgSet m k v) k2 = cfgGet m k2 := by
  have h1 : (k2 == k) = false := by simpa using h
  simp [cfgGet, cfgSet, List.lookup, h1, lookup_filter_ne m k k2 h]

theorem deferredUmount_no_persist {I : Type} (b : Bool) :
    (deferredUmount b : List (AttachEvent I)).filter AttachEvent.persists = [] := by
  cases b <;> rfl

theorem unshiftStep_no_persist {I : Type} (w : AttachWorld I) (l : Option I) (p : String) :
    (unshiftStep w l p).2.filter AttachEvent.persists = [] := by
  cases l <;> rfl

theorem shiftStep_no_persist {I : Type} (w : AttachWorld I) (n : Option I) (p : String) :
    (shiftStep w n p).2.filter AttachEvent.persists = [] := by
  cases n <;> rfl

theorem mountAndShift_no_persist {I : Type} (w : AttachWorld I) (l n : Option I) (p : String) :
    (mountAndShift w l n p).2.2.filter AttachEvent.persists = [] := by
  unfold mountAndShift
  split
  · rfl
  · dsimp only
    split
    · simp [List.filter_cons, AttachEvent.persists, unshiftStep_no_persist]
    · simp only [List.filter_cons, AttachEvent.persists, List.filter_append,
        unshiftStep_no_persist, shiftStep_no_persist]
      rfl

theorem shiftBlock_no_persist {I : Type} [DecidableEq I] (w : AttachWorld I)
    (c : ContainerHandle I) (v t : String) (l n : Option I) (p : String) :
    (shiftBlock w c v t l n p).2.2.filter AttachEvent.persists = [] := by
  unfold shiftBlock
  split
  · rfl
  · split
    · rfl
    · exact mountAndShift_no_persist w l n p

theorem block_no_persist {I : Type} [DecidableEq I] (w : AttachWorld I)
    (c : ContainerHandle I) (v t : String) (l n : Option I) (p : String) :
    (if n ≠ l then shiftBlock w c v t l n p
      else (none, false, [])).2.2.filter AttachEvent.persists = [] := by
  split
  · exact shiftBlock_no_persist w c v t l n p
  · rfl

theorem persistLast_events {I : Type} (w : AttachWorld I) (st : Storage) (config1 : Config)
    (p v : String) (vt : Int) (n : Option I) :
    ∀ x ∈ (persistLast w st config1 p v vt n).2, AttachEvent.persists x = true := by
  unfold persistLast
  split
  · simp
  · dsimp only
    split
    · simp [AttachEvent.persists]
    · split <;> simp [AttachEvent.persists]

theorem persistLast_ret {I : Type} (w : AttachWorld I) (st st2 : Storage) (config1 : Config)
    (p v : String) (vt : Int) (n : Option I)
    (h : (persistLast w st config1 p v vt n).1 = .ret st2) :
    ∃ (json : String) (poolID : Int), idmapJSON w n = .ok json ∧
      st2.volume.config = some (cfgSet config1 "volatile.idmap.last" json) ∧
      (persistLast w st config1 p v vt n).2 =
        [.SetStoragePoolVolumeWritable st.volume.description
            (cfgSet config1 "volatile.idmap.last" json),
         .StoragePoolVolumeUpdate v vt poolID st.volume.description
            (cfgSet config1 "volatile.idmap.last" json)] := by
  unfold persistLast at h ⊢
  cases hj : idmapJSON w n with
  | fail e => simp [hj] at h
  | ok json =>
    simp only [hj] at h ⊢
    cases hp : w.StoragePoolGetID p with
    | fail e => simp [hp] at h
    | ok poolID =>
      simp only [hp] at h ⊢
      cases hu : w.StoragePoolVolumeUpdate v vt poolID st.volume.description
          (cfgSet config1 "volatile.idmap.last" json) with
      | some e => simp [hu] at h
      | none =>
        simp only [hu, Outcome.ret.injEq] at h ⊢
        subst h
        exact ⟨json, poolID, rfl, rfl, rfl⟩

theorem filter_persists_all {I : Type} (l : List (AttachEvent I))
    (h : ∀ x ∈ l, AttachEvent.persists x = true) : l.filter AttachEvent.persists = l :=
  List.filter_eq_self.mpr h

/-- C1: if `storagePoolVolumeAttachInit` returns without error, the volume
configuration it hands to the storage object and persists with
`db.StoragePoolVolumeUpdate` has "volatile.idmap.last" equal to
"volatile.idmap.next", both being the JSON serialisation of the attaching
container's idmap ("[]" when the container has no idmap). -/
theorem C1_attach_last_eq_next {I : Type} [DecidableEq I] (w : AttachWorld I)
    (poolName volumeName : String) (volumeType : Int) (c : ContainerHandle I)
    (st : Storage) (tr : List (AttachEvent I))
    (h : storagePoolVolumeAttachInit w poolName volumeName volumeType c = (.ret st, tr)) :
    ∃ (nextIdmap : Option I) (json : String) (config : Config) (description : String)
      (poolID : Int),
      c.IdmapSet = .ok nextIdmap ∧ idmapJSON w nextIdmap = .ok json ∧
      (nextIdmap = none → json = "[]") ∧
      cfgGet config "volatile.idmap.last" = json ∧
      cfgGet config "volatile.idmap.next" = json ∧
      st.volume.config = some config ∧
      tr.filter AttachEvent.persists =
        [.SetStoragePoolVolumeWritable description config,
         .StoragePoolVolumeUpdate volumeName volumeType poolID description config] := by
  unfold storagePoolVolumeAttachInit at h
  simp only at h
  split at h
  · simp at h
  · split at h
    · simp at h
    · split at h
      · simp at h
      · split at h
        · simp at h
        · split at h
          · simp at h
          · split at h
            · simp at h
            · split at h
              · simp at h
              · rename_i st0 _ _ lastIdmap _ _ nextIdmap hnext _ json1 hjson1 _ config0 hcfg _ tn _ _ _
                simp only [Prod.mk.injEq] at h
                obtain ⟨hst, htr⟩ := h
                obtain ⟨json2, poolID, hj2, hc2, hev⟩ := persistLast_ret w st0 st _ _ _ _ _ hst
                rw [hjson1] at hj2
                cases hj2
                refine ⟨nextIdmap, json1, _, st0.volume.description, poolID, hnext, hjson1,
                  ?_, cfgGet_cfgSet_same _ _ _, ?_, hc2, ?_⟩
                · intro hn
                  subst hn
                  simpa [idmapJSON] using hjson1.symm
                · rw [cfgGet_cfgSet_other _ _ _ _ (by decide), cfgGet_cfgSet_same]
                · subst htr
                  simp only [List.filter_append, block_no_persist, deferredUmount_no_persist,
                    List.nil_append, List.append_nil]
                  rw [filter_persists_all _ (persistLast_events _ _ _ _ _ _ _), hev]

theorem C1_attach_last_eq_next_witness :
    storagePoolVolumeAttachInit (demoAttachWorld "" ["c1"] none none) "p1" "v1" 2
        demoContainer = (.ret demoAttachedStorage, demoAttachTrace) ∧
    ∃ (nextIdmap : Option DemoIdmap) (json : String) (config : Config) (description : String)
      (poolID : Int),
      demoContainer.IdmapSet = .ok nextIdmap ∧
      idmapJSON (demoAttachWorld "" ["c1"] none none) nextIdmap = .ok json ∧
      (nextIdmap = none → json = "[]") ∧
      cfgGet config "volatile.idmap.last" = json ∧
      cfgGet config "volatile.idmap.next" = json ∧
      demoAttachedStorage.volume.config = some config ∧
      demoAttachTrace.filter AttachEvent.persists =
        [.SetStoragePoolVolumeWritable description config,
         .StoragePoolVolumeUpdate "v1" 2 poolID description config] :=
  ⟨by decide,
    C1_attach_last_eq_next (demoAttachWorld "" ["c1"] none none) "p1" "v1" 2 demoContainer
      demoAttachedStorage demoAttachTrace (by decide)⟩

theorem checkUsers_conflict {I : Type} [DecidableEq I] (w : AttachWorld I)
    (nextIdmap : Option I) (users : List String)
    (h : ∃ n ∈ users, ∃ ct i, w.containerLoadByName n = .ok ct ∧ ct.IdmapSet = .ok i ∧
      i ≠ nextIdmap) :
    checkUsers w nextIdmap users = some .idmapsNotIdenticalMany ∨
      checkUsers w nextIdmap users = some .idmapRetrieve := by
  induction users with
  | nil => obtain ⟨n, hn, _⟩ := h; cases hn
  | cons u rest ih =>
    obtain ⟨n, hn, ct, i, hl, hi, hne⟩ := h
    unfold checkUsers
    rcases List.mem_cons.mp hn with rfl | hrest
    · simp only [hl, hi]
      left
      rw [if_pos (fun e => hne e.symm)]
    · have ihr := ih ⟨n, hrest, ct, i, hl, hi, hne⟩
      split
      · exact ihr
      · split
        · right; rfl
        · split
          · left; rfl
          · exact ihr

theorem checkUsers_agree {I : Type} [DecidableEq I] (w : AttachWorld I)
    (nextIdmap : Option I) (users : List String)
    (h : ∀ n ∈ users, (∃ e, w.containerLoadByName n = .fail e) ∨
      ∃ ct, w.containerLoadByName n = .ok ct ∧ ct.IdmapSet = .ok nextIdmap) :
    checkUsers w nextIdmap users = none := by
  induction users with
  | nil => rfl
  | cons u rest ih =>
    have ihr := ih (fun n hn => h n (List.mem_cons_of_mem _ hn))
    unfold checkUsers
    rcases h u (List.mem_cons_self _ _) with ⟨e, he⟩ | ⟨ct, hl, hi⟩
    · simp only [he]
      exact ihr
    · simp only [hl, hi, ne_eq, not_true_eq_false, if_false]
      exact ihr

theorem attachInit_at_check {I : Type} [DecidableEq I] (w : AttachWorld I)
    (poolName volumeName : String) (volumeType : Int) (c : ContainerHandle I)
    (lastIdmap nextIdmap : Option I) (users : List String)
    (hr : ReachesConflictCheck w poolName volumeName volumeType c lastIdmap nextIdmap users)
    (hdiff : nextIdmap ≠ lastIdmap) :
    (∀ e, checkUsedBy w c nextIdmap users = some e →
      storagePoolVolumeAttachInit w poolName volumeName volumeType c = (.err e, [])) ∧
    (checkUsedBy w c nextIdmap users = none →
      ∃ rest, (storagePoolVolumeAttachInit w poolName volumeName volumeType c).2 =
        (mountAndShift w lastIdmap nextIdmap
          (getStoragePoolVolumeMountPoint w.VarPath poolName volumeName)).2.2 ++ rest) := by
  obtain ⟨st, config0, json, tn, h1, h2, h3, h4, h5, h6, h7⟩ := hr
  constructor
  · intro e he
    unfold storagePoolVolumeAttachInit
    simp only [h1, h2, cfgGetNil, h3, h4, h5, h6, hdiff, ne_eq, not_false_eq_true, if_true,
      shiftBlock, h7, he, deferredUmount]
    rfl
  · intro he
    unfold storagePoolVolumeAttachInit
    simp only [h1, h2, cfgGetNil, h3, h4, h5, h6, hdiff, ne_eq, not_false_eq_true, if_true,
      shiftBlock, h7, he]
    split
    · exact ⟨_, rfl⟩
    · exact ⟨_, List.append_assoc _ _ _⟩

theorem mountAndShift_goes_on {I : Type} (w : AttachWorld I) (l n : Option I) (p : String) :
    (∃ rest, (mountAndShift w l n p).2.2 = AttachEvent.StoragePoolVolumeMount :: rest) ∧
    (∀ ourMount, w.StoragePoolVolumeMount = .ok ourMount →
      (∀ li, l = some li → AttachEvent.UnshiftRootfs li p ∈ (mountAndShift w l n p).2.2) ∧
      (∀ ni, n = some ni → (∀ li, l = some li → w.UnshiftRootfs li p = none) →
        AttachEvent.ShiftRootfs ni p ∈ (mountAndShift w l n p).2.2)) := by
  constructor
  · unfold mountAndShift
    split
    · exact ⟨_, rfl⟩
    · dsimp only
      split <;> exact ⟨_, rfl⟩
  · intro b hm
    simp only [mountAndShift, hm]
    constructor
    · intro li hl
      subst hl
      simp only [unshiftStep]
      split <;> simp
    · intro ni hn hli
      subst hn
      cases l with
      | none => simp [unshiftStep, shiftStep]
      | some li => simp [unshiftStep, shiftStep, hli li rfl]

/-- C2: once the conflict check is reached with differing idmaps, a single foreign
user, or a user (among two or more) with a different idmap, makes the call fail
with an error before any mount, unshift, shift or metadata update; with no user,
only the attaching container, or two or more users that all have the attaching
container's idmap, the check raises no error and the call goes on to mount the
volume, unshift with the last idmap and shift with the next one. -/
theorem C2_idmap_conflict_check {I : Type} [DecidableEq I] (w : AttachWorld I)
    (poolName volumeName : String) (volumeType : Int) (c : ContainerHandle I)
    (lastIdmap nextIdmap : Option I) (users : List String)
    (hr : ReachesConflictCheck w poolName volumeName volumeType c lastIdmap nextIdmap users)
    (hdiff : nextIdmap ≠ lastIdmap) :
    (((∃ only, users = [only] ∧ only ≠ c.Name) ∨
        (2 ≤ users.length ∧ ∃ n ∈ users, ∃ ct i, w.containerLoadByName n = .ok ct ∧
          ct.IdmapSet = .ok i ∧ i ≠ nextIdmap)) →
      ∃ e, (e = .idmapsNotIdenticalSingle ∨ e = .idmapsNotIdenticalMany ∨ e = .idmapRetrieve) ∧
        storagePoolVolumeAttachInit w poolName volumeName volumeType c = (.err e, [])) ∧
    ((users = [] ∨ users = [c.Name] ∨
        (2 ≤ users.length ∧ ∀ n ∈ users, ∃ ct, w.containerLoadByName n = .ok ct ∧
          ct.IdmapSet = .ok nextIdmap)) →
      checkUsedBy w c nextIdmap users = none ∧
      (∃ rest, (storagePoolVolumeAttachInit w poolName volumeName volumeType c).2 =
        .StoragePoolVolumeMount :: rest) ∧
      (∀ ourMount, w.StoragePoolVolumeMount = .ok ourMount →
        (∀ li, lastIdmap = some li →
          .UnshiftRootfs li (getStoragePoolVolumeMountPoint w.VarPath poolName volumeName) ∈
            (storagePoolVolumeAttachInit w poolName volumeName volumeType c).2) ∧
        (∀ ni, nextIdmap = some ni →
          (∀ li, lastIdmap = some li →
            w.UnshiftRootfs li (getStoragePoolVolumeMountPoint w.VarPath poolName volumeName) = none) →
          .ShiftRootfs ni (getStoragePoolVolumeMountPoint w.VarPath poolName volumeName) ∈
            (storagePoolVolumeAttachInit w poolName volumeName volumeType c).2))) := by
  obtain ⟨hfail, hgo⟩ := attachInit_at_check w poolName volumeName volumeType c lastIdmap
    nextIdmap users hr hdiff
  constructor
  · rintro (⟨only, rfl, hne⟩ | ⟨hlen, hex⟩)
    · refine ⟨.idmapsNotIdenticalSingle, Or.inl rfl, hfail _ ?_⟩
      simp [checkUsedBy, hne]
    · have hc : checkUsedBy w c nextIdmap users = checkUsers w nextIdmap users := by
        unfold checkUsedBy
        rw [if_pos (by omega)]
      rcases checkUsers_conflict w nextIdmap users hex with h | h
      · exact ⟨_, Or.inr (Or.inl rfl), hfail _ (hc.trans h)⟩
      · exact ⟨_, Or.inr (Or.inr rfl), hfail _ (hc.trans h)⟩
  · intro hok
    have hnone : checkUsedBy w c nextIdmap users = none := by
      rcases hok with rfl | rfl | ⟨hlen, hall⟩
      · rfl
      · simp [checkUsedBy]
      · unfold checkUsedBy
        rw [if_pos (by omega)]
        exact checkUsers_agree w nextIdmap users (fun n hn => Or.inr (hall n hn))
    obtain ⟨rest, hrest⟩ := hgo hnone
    obtain ⟨⟨r2, hr2⟩, hcont⟩ := mountAndShift_goes_on w lastIdmap nextIdmap
      (getStoragePoolVolumeMountPoint w.VarPath poolName volumeName)
    refine ⟨hnone, ⟨r2 ++ rest, by rw [hrest, hr2]; rfl⟩, ?_⟩
    intro b hm
    obtain ⟨hu, hs⟩ := hcont b hm
    rw [hrest]
    exact ⟨fun li hl => List.mem_append_left _ (hu li hl),
      fun ni hn hli => List.mem_append_left _ (hs ni hn hli)⟩

theorem C2_idmap_conflict_check_witness :
    ReachesConflictCheck (demoAttachWorld "" ["c2"] none none) "p1" "v1" 2 demoContainer
      none (some idmapA) ["c2"] ∧
    (some idmapA : Option DemoIdmap) ≠ none ∧
    ∃ e, (e = .idmapsNotIdenticalSingle ∨ e = .idmapsNotIdenticalMany ∨ e = .idmapRetrieve) ∧
      storagePoolVolumeAttachInit (demoAttachWorld "" ["c2"] none none) "p1" "v1" 2
        demoContainer = (.err e, []) :=
  have hr : ReachesConflictCheck (demoAttachWorld "" ["c2"] none none) "p1" "v1" 2
      demoContainer none (some idmapA) ["c2"] :=
    ⟨{ sType := 1, poolID := 1, pool := { name := "p1", driver := "ceph", config := [] },
       volume := { name := "v1", description := "",
                   config := some [("volatile.idmap.last", "")] } },
      [("volatile.idmap.last", "")], "A", "custom", by decide, rfl, by decide, rfl, by decide,
      by decide, rfl⟩
  ⟨hr, by decide,
    (C2_idmap_conflict_check (demoAttachWorld "" ["c2"] none none) "p1" "v1" 2 demoContainer
      none (some idmapA) ["c2"] hr (by decide)).1 (Or.inl ⟨"c2", rfl, by decide⟩)⟩

theorem mountAndShift_failure {I : Type} (w : AttachWorld I) (l n : Option I) (p : String)
    (idmap : I) (path : String) (e : Err)
    (h : (AttachEvent.UnshiftRootfs idmap path ∈ (mountAndShift w l n p).2.2 ∧
          w.UnshiftRootfs idmap path = some e) ∨
        (AttachEvent.ShiftRootfs idmap path ∈ (mountAndShift w l n p).2.2 ∧
          w.ShiftRootfs idmap path = some e)) :
    (mountAndShift w l n p).1 = some e := by
  unfold mountAndShift at h ⊢
  cases hm : w.StoragePoolVolumeMount with
  | fail e0 => simp [hm] at h
  | ok b =>
    simp only [hm] at h ⊢
    cases l with
    | none =>
      cases n with
      | none => simp [unshiftStep, shiftStep] at h
      | some ni =>
        simp only [unshiftStep, shiftStep] at h ⊢
        simp at h
        obtain ⟨⟨h1, h2⟩, h3⟩ := h
        subst h1 h2
        exact h3
    | some li =>
      cases hu : w.UnshiftRootfs li p with
      | some e0 =>
        simp only [unshiftStep, hu] at h ⊢
        simp at h
        obtain ⟨⟨h1, h2⟩, h3⟩ := h
        subst h1 h2
        rw [hu] at h3
        exact h3
      | none =>
        cases n with
        | none =>
          simp only [unshiftStep, shiftStep, hu] at h ⊢
          simp at h
          obtain ⟨⟨h1, h2⟩, h3⟩ := h
          subst h1 h2
          rw [hu] at h3
          cases h3
        | some ni =>
          simp only [unshiftStep, shiftStep, hu] at h ⊢
          simp at h
          rcases h with ⟨⟨h1, h2⟩, h3⟩ | ⟨⟨h1, h2⟩, h3⟩
          · subst h1 h2
            rw [hu] at h3
            cases h3
          · subst h1 h2
            exact h3

theorem block_failure {I : Type} [DecidableEq I] (w : AttachWorld I) (c : ContainerHandle I)
    (v t : String) (l n : Option I) (p : String) (idmap : I) (path : String) (e : Err)
    (h : (AttachEvent.UnshiftRootfs idmap path ∈
            (if n ≠ l then shiftBlock w c v t l n p else (none, false, [])).2.2 ∧
          w.UnshiftRootfs idmap path = some e) ∨
        (AttachEvent.ShiftRootfs idmap path ∈
            (if n ≠ l then shiftBlock w c v t l n p else (none, false, [])).2.2 ∧
          w.ShiftRootfs idmap path = some e)) :
    (if n ≠ l then shiftBlock w c v t l n p else (none, false, [])).1 = some e := by
  by_cases hne : n ≠ l
  · simp only [if_pos hne] at h ⊢
    unfold shiftBlock at h ⊢
    cases hu : w.storagePoolVolumeUsedByContainersGet v t with
    | fail e0 => simp [hu] at h
    | ok users =>
      simp only [hu] at h ⊢
      cases hc : checkUsedBy w c n users with
      | some e0 => simp [hc] at h
      | none =>
        simp only [hc] at h ⊢
        exact mountAndShift_failure w l n p idmap path e h
  · simp [if_neg hne] at h

theorem mem_tail_unshift {I : Type} (idmap : I) (path : String) (evs : List (AttachEvent I))
    (rest : List (AttachEvent I)) (b : Bool)
    (hrest : ∀ x ∈ rest, AttachEvent.persists x = true)
    (h : AttachEvent.UnshiftRootfs idmap path ∈ evs ++ rest ++ deferredUmount b) :
    AttachEvent.UnshiftRootfs idmap path ∈ evs := by
  simp only [List.mem_append] at h
  rcases h with (h | h) | h
  · exact h
  · have := hrest _ h
    simp [AttachEvent.persists] at this
  · cases b <;> simp [deferredUmount] at h

theorem mem_tail_shift {I : Type} (idmap : I) (path : String) (evs : List (AttachEvent I))
    (rest : List (AttachEvent I)) (b : Bool)
    (hrest : ∀ x ∈ rest, AttachEvent.persists x = true)
    (h : AttachEvent.ShiftRootfs idmap path ∈ evs ++ rest ++ deferredUmount b) :
    AttachEvent.ShiftRootfs idmap path ∈ evs := by
  simp only [List.mem_append] at h
  rcases h with (h | h) | h
  · exact h
  · have := hrest _ h
    simp [AttachEvent.persists] at this
  · cases b <;> simp [deferredUmount] at h

theorem failure_to_block {I : Type} (w : AttachWorld I) (idmap : I) (path : String) (e : Err)
    (evs rest : List (AttachEvent I)) (b : Bool)
    (hrest : ∀ x ∈ rest, AttachEvent.persists x = true)
    (h : (AttachEvent.UnshiftRootfs idmap path ∈ evs ++ rest ++ deferredUmount b ∧
          w.UnshiftRootfs idmap path = some e) ∨
        (AttachEvent.ShiftRootfs idmap path ∈ evs ++ rest ++ deferredUmount b ∧
          w.ShiftRootfs idmap path = some e)) :
    (AttachEvent.UnshiftRootfs idmap path ∈ evs ∧ w.UnshiftRootfs idmap path = some e) ∨
      (AttachEvent.ShiftRootfs idmap path ∈ evs ∧ w.ShiftRootfs idmap path = some e) := by
  rcases h with ⟨h1, h2⟩ | ⟨h1, h2⟩
  · exact Or.inl ⟨mem_tail_unshift idmap path evs rest b hrest h1, h2⟩
  · exact Or.inr ⟨mem_tail_shift idmap path evs rest b hrest h1, h2⟩

/-- C3: if `UnshiftRootfs` (with the last idmap) or `ShiftRootfs` (with the next
idmap) was called and failed, `storagePoolVolumeAttachInit` returns that error
and calls neither `SetStoragePoolVolumeWritable` nor `db.StoragePoolVolumeUpdate`,
so the persisted "volatile.idmap.last" is the one from before the call. -/
theorem C3_shift_failure_not_persisted {I : Type} [DecidableEq I] (w : AttachWorld I)
    (poolName volumeName : String) (volumeType : Int) (c : ContainerHandle I)
    (idmap : I) (path : String) (e : Err)
    (h : (AttachEvent.UnshiftRootfs idmap path ∈
            (storagePoolVolumeAttachInit w poolName volumeName volumeType c).2 ∧
          w.UnshiftRootfs idmap path = some e) ∨
        (AttachEvent.ShiftRootfs idmap path ∈
            (storagePoolVolumeAttachInit w poolName volumeName volumeType c).2 ∧
          w.ShiftRootfs idmap path = some e)) :
    (storagePoolVolumeAttachInit w poolName volumeName volumeType c).1 = .err e ∧
    (storagePoolVolumeAttachInit w poolName volumeName volumeType c).2.filter
      AttachEvent.persists = [] := by
  generalize hrun : storagePoolVolumeAttachInit w poolName volumeName volumeType c = run at h ⊢
  unfold storagePoolVolumeAttachInit at hrun
  simp only at hrun
  split at hrun
  · subst hrun; simp at h
  · split at hrun
    · subst hrun; simp at h
    · split at hrun
      · subst hrun; simp at h
      · split at hrun
        · subst hrun; simp at h
        · split at hrun
          · subst hrun; simp at h
          · split at hrun
            · subst hrun; simp at h
            · split at hrun
              · rename_i e0 hb
                subst hrun
                have hblock := block_failure w c _ _ _ _ _ idmap path e
                  (failure_to_block w idmap path e _ [] _ (by simp)
                    (by simpa using h))
                rw [hb] at hblock
                cases hblock
                refine ⟨rfl, ?_⟩
                simp only [List.filter_append, block_no_persist, deferredUmount_no_persist,
                  List.append_nil]
              · rename_i hb
                subst hrun
                exfalso
                have hblock := block_failure w c _ _ _ _ _ idmap path e
                  (failure_to_block w idmap path e _ _ _ (persistLast_events _ _ _ _ _ _ _) h)
                rw [hb] at hblock
                cases hblock

theorem C3_shift_failure_not_persisted_witness :
    (AttachEvent.UnshiftRootfs idmapB "/var/lib/apollo/storage-pools/p1/custom/v1" ∈
        (storagePoolVolumeAttachInit (demoAttachWorld "B" ["c1"] (some (.ext "unshift")) none)
          "p1" "v1" 2 demoContainer).2 ∧
      (demoAttachWorld "B" ["c1"] (some (.ext "unshift")) none).UnshiftRootfs idmapB
        "/var/lib/apollo/storage-pools/p1/custom/v1" = some (.ext "unshift")) ∧
    (storagePoolVolumeAttachInit (demoAttachWorld "B" ["c1"] (some (.ext "unshift")) none)
        "p1" "v1" 2 demoContainer).1 = .err (.ext "unshift") ∧
    (storagePoolVolumeAttachInit (demoAttachWorld "B" ["c1"] (some (.ext "unshift")) none)
        "p1" "v1" 2 demoContainer).2.filter AttachEvent.persists = [] :=
  ⟨⟨by decide, rfl⟩,
    C3_shift_failure_not_persisted (demoAttachWorld "B" ["c1"] (some (.ext "unshift")) none)
      "p1" "v1" 2 demoContainer idmapB "/var/lib/apollo/storage-pools/p1/custom/v1"
      (.ext "unshift") (Or.inl ⟨by decide, rfl⟩)⟩

/-! ### The ceph driver -/

/-- C4: if the operation map already holds the lock id of a call of
`ContainerMount`, `ContainerUmount`, `StoragePoolVolumeMount` or
`StoragePoolVolumeUmount`, the call (once the channel is closed) returns
`(false, nil)` whatever the world answers, makes no call but the wait on the
channel (no mount, no unmount, no insert into or delete from the map) and leaves
the state as it was. -/
theorem C4_waiter_returns_false_nil (w : CephWorld) (s : storageCeph) (name : String)
    (σ : CephState) :
    (getContainerMountLockID s.pool.name name ∈ σ.ongoing →
      (ContainerMount w s name σ).result = (false, none) ∧
      (ContainerMount w s name σ).state = σ ∧
      (ContainerMount w s name σ).trace =
        [.waitChannel (getContainerMountLockID s.pool.name name)]) ∧
    (getContainerUmountLockID s.pool.name name ∈ σ.ongoing →
      (ContainerUmount w s name σ).result = (false, none) ∧
      (ContainerUmount w s name σ).state = σ ∧
      (ContainerUmount w s name σ).trace =
        [.waitChannel (getContainerUmountLockID s.pool.name name)]) ∧
    (getCustomMountLockID s.pool.name s.volume.name ∈ σ.ongoing →
      (StoragePoolVolumeMount w s σ).result = (false, none) ∧
      (StoragePoolVolumeMount w s σ).state = σ ∧
      (StoragePoolVolumeMount w s σ).trace =
        [.waitChannel (getCustomMountLockID s.pool.name s.volume.name)]) ∧
    (getCustomUmountLockID s.pool.name s.volume.name ∈ σ.ongoing →
      (StoragePoolVolumeUmount w s σ).result = (false, none) ∧
      (StoragePoolVolumeUmount w s σ).state = σ ∧
      (StoragePoolVolumeUmount w s σ).trace =
        [.waitChannel (getCustomUmountLockID s.pool.name s.volume.name)]) := by
  refine ⟨?_, ?_, ?_, ?_⟩ <;> intro h
  · simp [ContainerMount, h]
  · simp [ContainerUmount, h]
  · simp [StoragePoolVolumeMount, h]
  · simp [StoragePoolVolumeUmount, h]

theorem C4_waiter_returns_false_nil_witness :
    "mount/container/p1/c1" ∈
      ({ ongoing := ["mount/container/p1/c1"], mounts := [] } : CephState).ongoing ∧
    (ContainerMount (demoCephWorld true true (.ok []) none) (demoCeph "p1" []) "c1"
      { ongoing := ["mount/container/p1/c1"], mounts := [] }).result = (false, none) :=
  ⟨by decide,
    ((C4_waiter_returns_false_nil (demoCephWorld true true (.ok []) none) (demoCeph "p1" [])
      "c1" { ongoing := ["mount/container/p1/c1"], mounts := [] }).1 (by decide)).1⟩

theorem callsInOrder_two_no_destroy (r1 r2 : Option Err) (e1 e2 : CephEvent)
    (h1 : e1.destroysVolume = false) (h2 : e2.destroysVolume = false) :
    (callsInOrder [(r1, e1), (r2, e2)]).2.filter CephEvent.destroysVolume = [] := by
  cases r1 <;> cases r2 <;> simp [callsInOrder, h1, h2]

theorem ImageUmount_no_destroy (w : CephWorld) (s : storageCeph) (f : String) (σ : CephState) :
    (ImageUmount w s f σ).trace.filter CephEvent.destroysVolume = [] := by
  unfold ImageUmount
  dsimp only
  split
  · rfl
  · split <;> rfl

/-- C8: in `ImageDelete`, whenever listing the clones of the image's "readonly"
snapshot succeeds, no snapshot unprotect, no snapshot purge and no volume delete
is issued: the volume is unmapped and, if that worked, marked as zombie; a volume
delete is issued only when the clone listing reports that there is no clone
(`db.NoSuchObjectError`). -/
theorem C8_image_delete_keeps_volume_with_clones (w : CephWorld) (s : storageCeph)
    (fingerprint : String) (σ : CephState) :
    (∀ clones, w.cephRBDSnapshotListClones s.ClusterName s.OSDPoolName fingerprint
        storagePoolVolumeTypeNameImage "readonly" s.UserName = .ok clones →
      (ImageDelete w s fingerprint σ).trace.filter CephEvent.destroysVolume = [] ∧
      .rbdVolumeUnmap s.OSDPoolName fingerprint storagePoolVolumeTypeNameImage ∈
        (ImageDelete w s fingerprint σ).trace ∧
      (w.cephRBDVolumeUnmap s.ClusterName s.OSDPoolName fingerprint
          storagePoolVolumeTypeNameImage s.UserName = none →
        .rbdVolumeMarkDeleted s.OSDPoolName fingerprint storagePoolVolumeTypeNameImage ∈
          (ImageDelete w s fingerprint σ).trace)) ∧
    (∀ ev ∈ (ImageDelete w s fingerprint σ).trace, ev.destroysVolume = true →
      w.cephRBDSnapshotListClones s.ClusterName s.OSDPoolName fingerprint
        storagePoolVolumeTypeNameImage "readonly" s.UserName = .fail .noSuchObject) := by
  have soft : ∀ clones, w.cephRBDSnapshotListClones s.ClusterName s.OSDPoolName fingerprint
      storagePoolVolumeTypeNameImage "readonly" s.UserName = .ok clones →
      (ImageDelete w s fingerprint σ).trace.filter CephEvent.destroysVolume = [] := by
    intro clones hl
    have hv : (imageDeleteVolume w s fingerprint).2.filter CephEvent.destroysVolume = [] := by
      simp only [imageDeleteVolume, hl]
      exact callsInOrder_two_no_destroy _ _ _ _ rfl rfl
    unfold ImageDelete
    dsimp only
    split
    · simp only [List.filter_append, hv, ImageUmount_no_destroy, List.append_nil]
    · split
      · simp only [List.filter_append, hv, ImageUmount_no_destroy, List.append_nil]
        rfl
      · split
        · simp only [List.filter_append, hv, ImageUmount_no_destroy, List.append_nil]
          rfl
        · simp only [List.filter_append, hv, ImageUmount_no_destroy, List.append_nil]
          rfl
  constructor
  · intro clones hl
    refine ⟨soft clones hl, ?_, ?_⟩
    · unfold ImageDelete
      simp only [imageDeleteVolume, hl, callsInOrder]
      cases hu : w.cephRBDVolumeUnmap s.ClusterName s.OSDPoolName fingerprint
          storagePoolVolumeTypeNameImage s.UserName with
      | some e => simp
      | none =>
        cases hm : w.cephRBDVolumeMarkDeleted s.ClusterName s.OSDPoolName fingerprint
            storagePoolVolumeTypeNameImage s.UserName with
        | some e => simp
        | none =>
          simp only []
          split
          · simp
          · split <;> simp
    · intro hu
      unfold ImageDelete
      simp only [imageDeleteVolume, hl, callsInOrder, hu]
      cases hm : w.cephRBDVolumeMarkDeleted s.ClusterName s.OSDPoolName fingerprint
          storagePoolVolumeTypeNameImage s.UserName with
      | some e => simp
      | none =>
        simp only []
        split
        · simp
        · split <;> simp
  · intro ev hev hd
    cases hl : w.cephRBDSnapshotListClones s.ClusterName s.OSDPoolName fingerprint
        storagePoolVolumeTypeNameImage "readonly" s.UserName with
    | ok clones =>
      have hnone := soft clones hl
      have : ev ∈ (ImageDelete w s fingerprint σ).trace.filter CephEvent.destroysVolume :=
        List.mem_filter.mpr ⟨hev, hd⟩
      rw [hnone] at this
      cases this
    | fail err =>
      by_cases hne : err = .noSuchObject
      · rw [hne]
      · exfalso
        have htr : (ImageDelete w s fingerprint σ).trace = (ImageUmount w s fingerprint σ).trace := by
          unfold ImageDelete
          simp [imageDeleteVolume, hl, hne]
        rw [htr] at hev
        have : ev ∈ (ImageUmount w s fingerprint σ).trace.filter CephEvent.destroysVolume :=
          List.mem_filter.mpr ⟨hev, hd⟩
        rw [ImageUmount_no_destroy] at this
        cases this

theorem C8_image_delete_witness :
    (demoCephWorld true true (.ok ["c1"]) none).cephRBDSnapshotListClones "ceph" "p1" "fp"
      storagePoolVolumeTypeNameImage "readonly" "admin" = .ok ["c1"] ∧
    (ImageDelete (demoCephWorld true true (.ok ["c1"]) none) (demoCeph "p1" []) "fp"
      idleState).trace.filter CephEvent.destroysVolume = [] :=
  ⟨rfl,
    ((C8_image_delete_keeps_volume_with_clones (demoCephWorld true true (.ok ["c1"]) none)
      (demoCeph "p1" []) "fp" idleState).1 ["c1"] rfl).1⟩

/-- C10: `StoragePoolDelete`, called on a pool whose OSD pool exists, issues the OSD
pool destroy if and only if "volatile.pool.pristine" is set to a true value; when
the key is unset, empty or not true the only call made is the removal of the
mount-point directory. -/
theorem C10_pool_delete_destroys_iff_pristine (w : CephWorld) (s : storageCeph)
    (σ : CephState)
    (hexists : w.cephOSDPoolExists s.ClusterName s.OSDPoolName s.UserName = true) :
    (.osdPoolDestroy s.OSDPoolName ∈ (StoragePoolDelete w s σ).trace ↔
      (s.getConfig "volatile.pool.pristine" ≠ "" ∧
        w.IsTrue (s.getConfig "volatile.pool.pristine") = true)) ∧
    ((s.getConfig "volatile.pool.pristine" = "" ∨
        w.IsTrue (s.getConfig "volatile.pool.pristine") = false) →
      (StoragePoolDelete w s σ).trace =
        [.RemoveAll (getStoragePoolMountPoint w.VarPath s.pool.name)]) := by
  unfold StoragePoolDelete
  simp only [hexists]
  by_cases hp : s.getConfig "volatile.pool.pristine" ≠ "" ∧
      w.IsTrue (s.getConfig "volatile.pool.pristine") = true
  · have hdec : decide (s.getConfig "volatile.pool.pristine" ≠ "" ∧
        w.IsTrue (s.getConfig "volatile.pool.pristine") = true) = true := by
      simpa using hp
    simp only [hdec]
    refine ⟨⟨fun _ => hp, fun _ => ?_⟩, fun h => ?_⟩
    · cases hd : w.cephOSDPoolDestroy s.ClusterName s.OSDPoolName s.UserName <;> simp
    · exfalso
      rcases h with h | h
      · exact hp.1 h
      · rw [hp.2] at h
        cases h
  · have hdec : decide (s.getConfig "volatile.pool.pristine" ≠ "" ∧
        w.IsTrue (s.getConfig "volatile.pool.pristine") = true) = false := by
      simpa using hp
    simp only [hdec]
    constructor
    · constructor
      · intro h; simp at h
      · intro h; exact absurd h hp
    · intro _; rfl

theorem C10_pool_delete_witness :
    (demoCephWorld true true (.ok []) none).cephOSDPoolExists "ceph" "p1" "admin" = true ∧
    (StoragePoolDelete (demoCephWorld true true (.ok []) none)
      (demoCeph "p1" [("volatile.pool.pristine", "false")]) idleState).trace =
        [.RemoveAll "/var/lib/apollo/storage-pools/p1"] :=
  ⟨rfl,
    (C10_pool_delete_destroys_iff_pristine (demoCephWorld true true (.ok []) none)
      (demoCeph "p1" [("volatile.pool.pristine", "false")]) idleState rfl).2
      (Or.inr (by decide))⟩

theorem getConfig_setConfig_same (s : storageCeph) (k v : String) :
    (s.setConfig k v).getConfig k = v := by
  simp [storageCeph.setConfig, storageCeph.getConfig, cfgGet_cfgSet_same]

theorem poolCreateFinish_pristine (w : CephWorld) (s : storageCeph) (ds : List Deferred)
    (σ : CephState) (before : List CephEvent)
    (h : (poolCreateFinish w s ds σ before).outcome = .ret ()) :
    (w.cephRBDVolumeExists (poolCreateFinish w s ds σ before).driver.ClusterName
        (poolCreateFinish w s ds σ before).driver.OSDPoolName
        (poolCreateFinish w s ds σ before).driver.pool.name "apollo"
        (poolCreateFinish w s ds σ before).driver.UserName = false →
      (poolCreateFinish w s ds σ before).driver.getConfig "volatile.pool.pristine" = "true" ∧
      .rbdVolumeCreate (poolCreateFinish w s ds σ before).driver.OSDPoolName
          (poolCreateFinish w s ds σ before).driver.pool.name "apollo" "0" ∈
        (poolCreateFinish w s ds σ before).trace) ∧
    (w.cephRBDVolumeExists (poolCreateFinish w s ds σ before).driver.ClusterName
        (poolCreateFinish w s ds σ before).driver.OSDPoolName
        (poolCreateFinish w s ds σ before).driver.pool.name "apollo"
        (poolCreateFinish w s ds σ before).driver.UserName = true →
      (poolCreateFinish w s ds σ before).driver.getConfig "volatile.pool.pristine" =
        "false") := by
  unfold poolCreateFinish at h ⊢
  cases hm : w.MkdirAll (getStoragePoolMountPoint w.VarPath s.pool.name) 0o711 with
  | some e => simp [hm] at h
  | none =>
    simp only [hm] at h ⊢
    cases hx : w.cephRBDVolumeExists s.ClusterName s.OSDPoolName s.pool.name "apollo"
        s.UserName with
    | true =>
      simp only [hx] at h ⊢
      simp [storageCeph.setConfig, storageCeph.getConfig, cfgGet_cfgSet_same, hx]
    | false =>
      simp only [hx] at h ⊢
      cases hc : w.cephRBDVolumeCreate s.ClusterName s.OSDPoolName s.pool.name "apollo" "0"
          s.UserName with
      | some e => simp [hc] at h
      | none =>
        simp [storageCeph.setConfig, storageCeph.getConfig, cfgGet_cfgSet_same, hx]

/-- C9 (as amended): after every successful ceph `StoragePoolCreate`,
"volatile.pool.pristine" records whether the pool's marker RBD volume (type
"apollo", named after the pool) was absent from the OSD pool when the call looked
for it: it is "true" if the marker was absent, and the call then creates it, and
"false" if the marker already existed, whether the call created the OSD pool or
attached to an existing one. -/
theorem C9_pristine_records_marker_volume (w : CephWorld) (s : storageCeph) (σ : CephState)
    (h : (StoragePoolCreate w s σ).outcome = .ret ()) :
    (w.cephRBDVolumeExists (StoragePoolCreate w s σ).driver.ClusterName
        (StoragePoolCreate w s σ).driver.OSDPoolName
        (StoragePoolCreate w s σ).driver.pool.name "apollo"
        (StoragePoolCreate w s σ).driver.UserName = false →
      (StoragePoolCreate w s σ).driver.getConfig "volatile.pool.pristine" = "true" ∧
      .rbdVolumeCreate (StoragePoolCreate w s σ).driver.OSDPoolName
          (StoragePoolCreate w s σ).driver.pool.name "apollo" "0" ∈
        (StoragePoolCreate w s σ).trace) ∧
    (w.cephRBDVolumeExists (StoragePoolCreate w s σ).driver.ClusterName
        (StoragePoolCreate w s σ).driver.OSDPoolName
        (StoragePoolCreate w s σ).driver.pool.name "apollo"
        (StoragePoolCreate w s σ).driver.UserName = true →
      (StoragePoolCreate w s σ).driver.getConfig "volatile.pool.pristine" = "false") := by
  unfold StoragePoolCreate at h ⊢
  dsimp only at h ⊢
  split
  · rename_i hn
    simp [hn] at h
  · rename_i hn
    simp only [hn, if_false] at h
    split
    · rename_i hx
      simp only [hx, if_true] at h
      split
      · rename_i hc
        simp [hc] at h
      · rename_i hc
        simp only [hc] at h
        exact poolCreateFinish_pristine w _ _ σ _ h
    · rename_i hx
      simp only [hx, if_false] at h
      split
      · rename_i hg
        simp [hg] at h
      · rename_i hg
        simp only [hg] at h
        split
        · rename_i hs
          simp [hs] at h
        · rename_i hs
          simp only [hs] at h
          exact poolCreateFinish_pristine w _ _ σ _ h

theorem C9_pristine_records_marker_volume_witness :
    (StoragePoolCreate (demoCephWorld true true (.ok []) none)
      (demoCeph "" [("source", "existing")]) idleState).outcome = .ret () ∧
    (StoragePoolCreate (demoCephWorld true true (.ok []) none)
      (demoCeph "" [("source", "existing")]) idleState).driver.getConfig
        "volatile.pool.pristine" = "false" :=
  ⟨by decide,
    (C9_pristine_records_marker_volume (demoCephWorld true true (.ok []) none)
      (demoCeph "" [("source", "existing")]) idleState (by decide)).2 rfl⟩

/-- C9 (as stated) fails: `StoragePoolCreate` attaches to the OSD pool "existing",
which exists before the call and which the call does not create, and still
stamps "volatile.pool.pristine" with "true", not "false", because the pool holds
no marker volume yet. -/
theorem C9_pristine_counterexample :
    (StoragePoolCreate (demoCephWorld true false (.ok []) none)
      (demoCeph "" [("source", "existing")]) idleState).outcome = .ret () ∧
    (demoCephWorld true false (.ok []) none).cephOSDPoolExists "ceph" "existing" "admin" =
      true ∧
    (StoragePoolCreate (demoCephWorld true false (.ok []) none)
      (demoCeph "" [("source", "existing")]) idleState).driver.OSDPoolName = "existing" ∧
    (StoragePoolCreate (demoCephWorld true false (.ok []) none)
      (demoCeph "" [("source", "existing")]) idleState).trace =
        [.MkdirAll "/var/lib/apollo/storage-pools/p1" 0o711,
         .rbdVolumeCreate "existing" "p1" "apollo" "0"] ∧
    (StoragePoolCreate (demoCephWorld true false (.ok []) none)
      (demoCeph "" [("source", "existing")]) idleState).driver.getConfig
        "volatile.pool.pristine" = "true" ∧
    (StoragePoolCreate (demoCephWorld true false (.ok []) none)
      (demoCeph "" [("source", "existing")]) idleState).driver.getConfig
        "volatile.pool.pristine" ≠ "false" := by
  decide

theorem ContainerMount_no_ImageCreate (w : CephWorld) (s : storageCeph) (name : String)
    (σ : CephState) : (ContainerMount w s name σ).trace.filter CephEvent.isImageCreate = [] := by
  unfold ContainerMount
  dsimp only
  split
  · rfl
  · split
    · split
      · split <;> rfl
      · rfl
    · rfl

theorem ContainerUmount_no_ImageCreate (w : CephWorld) (s : storageCeph) (name : String)
    (σ : CephState) :
    (ContainerUmount w s name σ).trace.filter CephEvent.isImageCreate = [] := by
  unfold ContainerUmount
  dsimp only
  split
  · rfl
  · split
    · split <;> rfl
    · rfl

theorem createContainerMountpoint_no_ImageCreate (w : CephWorld) (m l : String) (p : Bool) :
    (createContainerMountpoint w m l p).2.filter CephEvent.isImageCreate = [] := by
  unfold createContainerMountpoint
  dsimp only
  have hmade : ∀ b : Bool,
      (if b = false then (w.MkdirAll m 0o755, [CephEvent.MkdirAll m 0o755])
        else (none, [])).2.filter CephEvent.isImageCreate = [] := by
    intro b
    cases b <;> rfl
  split
  · exact hmade _
  · split
    · simp only [List.filter_append, hmade]
      rfl
    · split
      · simp only [List.filter_append, hmade]
        rfl
      · simp only [List.filter_append, hmade]
        rfl

theorem shiftAndChmod_no_ImageCreate (w : CephWorld) (n m : String) (p : Bool) :
    (shiftAndChmod w n m p).2.filter CephEvent.isImageCreate = [] := by
  unfold shiftAndChmod
  split
  · split <;> rfl
  · rfl

theorem runDeferred_no_ImageCreate (revert : Bool) (ds : List Deferred)
    (hds : ∀ d ∈ ds, ∀ r σ, (d r σ).2.filter CephEvent.isImageCreate = []) (σ : CephState) :
    (runDeferred revert ds σ).2.filter CephEvent.isImageCreate = [] := by
  induction ds generalizing σ with
  | nil => rfl
  | cons d ds ih =>
    simp only [runDeferred, List.filter_append]
    rw [hds d (List.mem_cons_self _ _) revert σ,
      ih (fun d2 hd2 => hds d2 (List.mem_cons_of_mem _ hd2))]
    rfl

theorem revertCall_no_ImageCreate (e : CephEvent) (he : e.isImageCreate = false) :
    ∀ r σ, (revertCall e r σ).2.filter CephEvent.isImageCreate = [] := by
  intro r σ
  cases r <;> simp [revertCall, he]

theorem createFromImageBody_no_ImageCreate (w : CephWorld) (s : storageCeph)
    (c : Container) (f : String) (σ : CephState) :
    (createFromImageBody w s c f σ).trace.filter CephEvent.isImageCreate = [] ∧
    ∀ d ∈ (createFromImageBody w s c f σ).deferred, ∀ r σ2,
      (d r σ2).2.filter CephEvent.isImageCreate = [] := by
  have hr := revertCall_no_ImageCreate
  have hum : ∀ d ∈ (if (ContainerMount w s c.Name σ).result.1 = true then
        [(fun _ σ2 => ((ContainerUmount w s c.Name σ2).state,
          (ContainerUmount w s c.Name σ2).trace) : Deferred)]
      else []), ∀ r σ2, (d r σ2).2.filter CephEvent.isImageCreate = [] := by
    intro d hd r σ2
    split at hd
    · simp only [List.mem_singleton] at hd
      subst hd
      exact ContainerUmount_no_ImageCreate w s c.Name σ2
    · cases hd
  have hdefs : ∀ (pre : List Deferred),
      (∀ d ∈ pre, ∀ r σ2, (d r σ2).2.filter CephEvent.isImageCreate = []) →
      ∀ (e1 e2 e3 : CephEvent), e1.isImageCreate = false → e2.isImageCreate = false →
        e3.isImageCreate = false →
      ∀ d ∈ pre ++ [revertCall e1, revertCall e2, revertCall e3], ∀ r σ2,
        (d r σ2).2.filter CephEvent.isImageCreate = [] := by
    intro pre hpre e1 e2 e3 h1 h2 h3 d hd r σ2
    simp only [List.mem_append, List.mem_cons, List.mem_singleton, List.not_mem_nil,
      or_false] at hd
    rcases hd with hd | rfl | rfl | rfl
    · exact hpre d hd r σ2
    · exact hr e1 h1 r σ2
    · exact hr e2 h2 r σ2
    · exact hr e3 h3 r σ2
  unfold createFromImageBody
  dsimp only
  split
  · exact ⟨rfl, fun d hd => by cases hd⟩
  · split
    · refine ⟨rfl, fun d hd r σ2 => ?_⟩
      simp only [List.mem_singleton] at hd
      subst hd
      refine hr _ ?_ r σ2
      rfl
    · split
      · refine ⟨?_, fun d hd r σ2 => ?_⟩
        · simp only [List.filter_append, createContainerMountpoint_no_ImageCreate]
          rfl
        · simp only [List.mem_cons, List.mem_singleton, List.not_mem_nil, or_false] at hd
          rcases hd with rfl | rfl
          · refine hr _ ?_ r σ2
            rfl
          · refine hr _ ?_ r σ2
            rfl
      · split
        · refine ⟨?_, fun d hd r σ2 => ?_⟩
          · simp only [List.filter_append, createContainerMountpoint_no_ImageCreate,
              ContainerMount_no_ImageCreate]
            rfl
          · refine hdefs [] (fun d hd => by cases hd) _ _ _ ?_ ?_ ?_ d hd r σ2 <;> rfl
        · split
          · refine ⟨?_, hdefs _ hum _ _ _ rfl rfl rfl⟩
            simp only [List.filter_append, createContainerMountpoint_no_ImageCreate,
              ContainerMount_no_ImageCreate, shiftAndChmod_no_ImageCreate]
            rfl
          · refine ⟨?_, hdefs _ hum _ _ _ rfl rfl rfl⟩
            simp only [List.filter_append, createContainerMountpoint_no_ImageCreate,
              ContainerMount_no_ImageCreate, shiftAndChmod_no_ImageCreate]
            rfl

theorem finish_no_ImageCreate (w : CephWorld) (s : storageCeph) (c : Container)
    (f : String) (σ : CephState) :
    (createFromImageBody w s c f σ).finish.trace.filter CephEvent.isImageCreate = [] := by
  obtain ⟨h1, h2⟩ := createFromImageBody_no_ImageCreate w s c f σ
  simp only [Body.finish, List.filter_append, h1, runDeferred_no_ImageCreate _ _ h2]
  rfl

theorem createFromImageBody_clones (w : CephWorld) (s : storageCeph) (c : Container)
    (f : String) (σ : CephState) :
    CephEvent.rbdCloneCreate s.OSDPoolName f storagePoolVolumeTypeNameImage "readonly"
      s.OSDPoolName c.Name storagePoolVolumeTypeNameContainer ∈
        (createFromImageBody w s c f σ).trace := by
  unfold createFromImageBody
  dsimp only
  split
  · simp
  · split
    · simp
    · split
      · simp
      · split
        · simp
        · split <;> simp

/-- C7: in `ContainerCreateFromImage`, `ImageCreate(fingerprint)` is called if and
only if the operation map holds no "create/image/<pool>/<fingerprint>" entry at
the lookup and the image's RBD volume does not exist; when it is called and
fails, its error is returned and no clone is created; in every other case the
call goes on to clone the image's "readonly" snapshot into the container volume. -/
theorem C7_image_created_iff_absent (w : CephWorld) (s : storageCeph) (container : Container)
    (fingerprint : String) (σ : CephState) :
    (CephEvent.ImageCreate fingerprint ∈
        (ContainerCreateFromImage w s container fingerprint σ).trace ↔
      (getImageCreateLockID s.pool.name fingerprint ∉ σ.ongoing ∧
        w.cephRBDVolumeExists s.ClusterName s.OSDPoolName fingerprint
          storagePoolVolumeTypeNameImage s.UserName = false)) ∧
    (∀ e, getImageCreateLockID s.pool.name fingerprint ∉ σ.ongoing →
      w.cephRBDVolumeExists s.ClusterName s.OSDPoolName fingerprint
        storagePoolVolumeTypeNameImage s.UserName = false →
      w.ImageCreate s fingerprint = some e →
      (ContainerCreateFromImage w s container fingerprint σ).result = some e ∧
      (ContainerCreateFromImage w s container fingerprint σ).trace.filter
        CephEvent.isCloneCreate = []) ∧
    ((getImageCreateLockID s.pool.name fingerprint ∈ σ.ongoing ∨
        w.cephRBDVolumeExists s.ClusterName s.OSDPoolName fingerprint
          storagePoolVolumeTypeNameImage s.UserName = true ∨
        w.ImageCreate s fingerprint = none) →
      CephEvent.rbdCloneCreate s.OSDPoolName fingerprint storagePoolVolumeTypeNameImage
        "readonly" s.OSDPoolName container.Name storagePoolVolumeTypeNameContainer ∈
          (ContainerCreateFromImage w s container fingerprint σ).trace) := by
  have notin : ∀ σ2, CephEvent.ImageCreate fingerprint ∉
      (createFromImageBody w s container fingerprint σ2).finish.trace := by
    intro σ2 hin
    have : CephEvent.ImageCreate fingerprint ∈
        (createFromImageBody w s container fingerprint σ2).finish.trace.filter
          CephEvent.isImageCreate := List.mem_filter.mpr ⟨hin, rfl⟩
    rw [finish_no_ImageCreate] at this
    cases this
  have clone : ∀ σ2, CephEvent.rbdCloneCreate s.OSDPoolName fingerprint
      storagePoolVolumeTypeNameImage "readonly" s.OSDPoolName container.Name
      storagePoolVolumeTypeNameContainer ∈
        (createFromImageBody w s container fingerprint σ2).finish.trace := by
    intro σ2
    simp only [Body.finish, List.mem_append]
    exact Or.inl (createFromImageBody_clones w s container fingerprint σ2)
  by_cases hl : getImageCreateLockID s.pool.name fingerprint ∈ σ.ongoing
  · have hrun : (ContainerCreateFromImage w s container fingerprint σ).trace =
        [.waitChannel (getImageCreateLockID s.pool.name fingerprint)] ++
          (createFromImageBody w s container fingerprint σ).finish.trace := by
      simp [ContainerCreateFromImage, imageStage, hl]
    refine ⟨⟨fun h => ?_, fun h => absurd hl h.1⟩, fun e h => absurd hl h, fun _ => ?_⟩
    · rw [hrun] at h
      simp only [List.mem_append, List.mem_singleton] at h
      rcases h with h | h
      · cases h
      · exact absurd h (notin σ)
    · rw [hrun]
      exact List.mem_append_right _ (clone σ)
  · cases hx : w.cephRBDVolumeExists s.ClusterName s.OSDPoolName fingerprint
        storagePoolVolumeTypeNameImage s.UserName with
    | true =>
      have hrun : (ContainerCreateFromImage w s container fingerprint σ).trace =
          [.mapInsert (getImageCreateLockID s.pool.name fingerprint),
           .mapCloseDelete (getImageCreateLockID s.pool.name fingerprint)] ++
            (createFromImageBody w s container fingerprint
              (mapCloseDelete (mapInsert σ (getImageCreateLockID s.pool.name fingerprint))
                (getImageCreateLockID s.pool.name fingerprint))).finish.trace := by
        simp [ContainerCreateFromImage, imageStage, hl, hx]
      refine ⟨⟨fun h => ?_, fun h => ?_⟩, fun e _ h => ?_, fun _ => ?_⟩
      · rw [hrun] at h
        simp only [List.mem_append, List.mem_cons, List.mem_singleton, List.not_mem_nil,
          or_false] at h
        rcases h with (h | h) | h
        · cases h
        · cases h
        · exact absurd h (notin _)
      · cases h.2
      · cases h
      · rw [hrun]
        exact List.mem_append_right _ (clone _)
    | false =>
      cases hi : w.ImageCreate s fingerprint with
      | some e0 =>
        have hrun : ContainerCreateFromImage w s container fingerprint σ =
            { result := some e0,
              state := mapCloseDelete
                (mapInsert σ (getImageCreateLockID s.pool.name fingerprint))
                (getImageCreateLockID s.pool.name fingerprint),
              trace := [.mapInsert (getImageCreateLockID s.pool.name fingerprint),
                .ImageCreate fingerprint,
                .mapCloseDelete (getImageCreateLockID s.pool.name fingerprint)] } := by
          simp [ContainerCreateFromImage, imageStage, hl, hx, hi]
        rw [hrun]
        refine ⟨⟨fun _ => ⟨hl, rfl⟩, fun _ => (by simp)⟩, fun e _ _ he => ?_, fun h => ?_⟩
        · cases he
          exact ⟨rfl, rfl⟩
        · rcases h with h | h | h
          · exact absurd h hl
          · cases h
          · cases h
      | none =>
        have hrun : (ContainerCreateFromImage w s container fingerprint σ).trace =
            [.mapInsert (getImageCreateLockID s.pool.name fingerprint),
             .ImageCreate fingerprint,
             .mapCloseDelete (getImageCreateLockID s.pool.name fingerprint)] ++
              (createFromImageBody w s container fingerprint
                (mapCloseDelete (mapInsert σ (getImageCreateLockID s.pool.name fingerprint))
                  (getImageCreateLockID s.pool.name fingerprint))).finish.trace := by
          simp [ContainerCreateFromImage, imageStage, hl, hx, hi]
        refine ⟨⟨fun _ => ⟨hl, rfl⟩, fun _ => ?_⟩, fun e _ _ he => (by cases he), fun _ => ?_⟩
        · rw [hrun]
          simp
        · rw [hrun]
          exact List.mem_append_right _ (clone _)

theorem C7_image_created_iff_absent_witness :
    getImageCreateLockID "p1" "fp" ∉ idleState.ongoing ∧
    (demoCephWorld true false (.ok []) (some (.ext "unpack"))).cephRBDVolumeExists "ceph"
      "p1" "fp" storagePoolVolumeTypeNameImage "admin" = false ∧
    (ContainerCreateFromImage (demoCephWorld true false (.ok []) (some (.ext "unpack")))
      (demoCeph "p1" []) demoCephContainer "fp" idleState).result = some (.ext "unpack") ∧
    (ContainerCreateFromImage (demoCephWorld true false (.ok []) (some (.ext "unpack")))
      (demoCeph "p1" []) demoCephContainer "fp" idleState).trace.filter
        CephEvent.isCloneCreate = [] :=
  ⟨by decide, rfl,
    (C7_image_created_iff_absent (demoCephWorld true false (.ok []) (some (.ext "unpack")))
      (demoCeph "p1" []) demoCephContainer "fp" idleState).2.1 (.ext "unpack") (by decide)
      rfl rfl⟩

/-! ### Threads calling `ContainerMount` -/

/-- A thread that runs alone ends as the sequential `ContainerMount` does. -/
theorem single_thread_agrees (w : CephWorld) (s : storageCeph) (name : String)
    (mounted : Bool) :
    (runThreads w s name (initialThreads 1 mounted) [0, 0, 0, 0]).pcs =
      [.returned
        (ContainerMount w s name
          { ongoing := [],
            mounts := if mounted then [containerMntPointOf w s name] else [] }).result.1
        (ContainerMount w s name
          { ongoing := [],
            mounts := if mounted then [containerMntPointOf w s name] else [] }).result.2] := by
  cases mounted
  · by_cases hr : (w.getRBDMappedDevPath s.ClusterName s.OSDPoolName
        storagePoolVolumeTypeNameContainer name s.UserName).2 ≥ 0
    · cases hm : w.tryMount (w.getRBDMappedDevPath s.ClusterName s.OSDPoolName
          storagePoolVolumeTypeNameContainer name s.UserName).1 (containerMntPointOf w s name)
          (w.getRBDFilesystem s) (w.apolloResolveMountoptions (w.getRBDMountOptions s)).1
          (w.apolloResolveMountoptions (w.getRBDMountOptions s)).2 with
      | none =>
        have hr2 : ¬ (w.getRBDMappedDevPath s.ClusterName s.OSDPoolName
          storagePoolVolumeTypeNameContainer name s.UserName).2 < 0 := by omega
        simp [runThreads, initialThreads, threadStep, ContainerMount, IsMountPoint, mapInsert,
          hr, hm, hr2]
      | some e =>
        simp [runThreads, initialThreads, threadStep, ContainerMount, IsMountPoint, mapInsert,
          hr, hm]
    · have hr2 : (w.getRBDMappedDevPath s.ClusterName s.OSDPoolName
          storagePoolVolumeTypeNameContainer name s.UserName).2 < 0 := by omega
      simp [runThreads, initialThreads, threadStep, ContainerMount, IsMountPoint, mapInsert,
        hr, hr2]
  · simp [runThreads, initialThreads, threadStep, ContainerMount, IsMountPoint, mapInsert]

theorem startsWith_slash (c : Char) (cs : List Char) :
    startsWith ['/'] (c :: cs) = (c == '/') := by
  cases h : c == '/' <;> simp [startsWith, h, BEq.comm]

theorem splitN2_some (l : List Char) :
    ∀ p s, splitN2 ['/'] l = some (p, s) → l = p ++ '/' :: s ∧ '/' ∉ p := by
  induction l with
  | nil => intro p s h; simp [splitN2] at h
  | cons c cs ih =>
    intro p s h
    unfold splitN2 at h
    rw [startsWith_slash] at h
    by_cases hc : c = '/'
    · subst hc
      simp at h
      obtain ⟨rfl, rfl⟩ := h
      simp
    · have hb : (c == '/') = false := by simpa using hc
      simp only [hb, Bool.false_eq_true, if_false] at h
      cases hr : splitN2 ['/'] cs with
      | none => simp [hr] at h
      | some ps =>
        obtain ⟨p2, s2⟩ := ps
        simp only [hr, Option.some.injEq, Prod.mk.injEq] at h
        obtain ⟨rfl, rfl⟩ := h
        obtain ⟨e1, e2⟩ := ih p2 s2 hr
        refine ⟨by rw [e1]; rfl, ?_⟩
        intro hm
        rcases List.mem_cons.mp hm with h1 | h1
        · exact hc h1.symm
        · exact e2 h1

theorem splitN2_none (l : List Char) (h : '/' ∉ l) : splitN2 ['/'] l = none := by
  induction l with
  | nil => rfl
  | cons c cs ih =>
    have hc : c ≠ '/' := fun e => h (e ▸ List.mem_cons_self _ _)
    have hb : (c == '/') = false := by simpa using hc
    unfold splitN2
    rw [startsWith_slash]
    simp only [hb, Bool.false_eq_true, if_false]
    rw [ih (fun hm => h (List.mem_cons_of_mem _ hm))]

theorem splitN2_append (p s : List Char) (h : '/' ∉ p) :
    splitN2 ['/'] (p ++ '/' :: s) = some (p, s) := by
  induction p with
  | nil => simp [splitN2, startsWith]
  | cons c cs ih =>
    have hc : c ≠ '/' := fun e => h (e ▸ List.mem_cons_self _ _)
    have hb : (c == '/') = false := by simpa using hc
    simp only [List.cons_append]
    unfold splitN2
    rw [startsWith_slash]
    simp only [hb, Bool.false_eq_true, if_false]
    rw [ih (fun hm => h (List.mem_cons_of_mem _ hm))]

theorem indexFrom_slash_none (l : List Char) :
    ∀ i, indexFrom ['/'] l i = none → '/' ∉ l := by
  induction l with
  | nil => intro i _ hm; cases hm
  | cons c cs ih =>
    intro i h hm
    unfold indexFrom at h
    rw [startsWith_slash] at h
    by_cases hc : c = '/'
    · subst hc
      simp at h
    · have hb : (c == '/') = false := by simpa using hc
      simp only [hb, Bool.false_eq_true, if_false] at h
      rcases List.mem_cons.mp hm with h1 | h1
      · exact hc h1.symm
      · exact ih (i + 1) h h1

theorem not_contains_noSlash (name : String)
    (h : stringsContains name SnapshotDelimiter = false) : noSlash name := by
  unfold stringsContains stringsIndex at h
  have hd : SnapshotDelimiter.data = ['/'] := rfl
  rw [hd] at h
  cases hi : indexFrom ['/'] name.data 0 with
  | some i =>
    rw [hi] at h
    simp at h
  | none => exact indexFrom_slash_none name.data 0 hi

theorem parent_and_snapshot_noSlash (name : String) (h : noSlash name) :
    containerGetParentAndSnapshotName name = (name, "", false) := by
  unfold containerGetParentAndSnapshotName
  have hd : SnapshotDelimiter.data = ['/'] := rfl
  rw [hd, splitN2_none name.data h]

/-- C16: `containerGetParentAndSnapshotName` splits a name at the first "/": a
result `(p, s, true)` means `name = p + "/" + s` with no "/" in `p`; a name
without "/" is returned as `(name, "", false)`; so `p + "/" + s` with no "/" in
`p` gives `(p, s, true)`, and every name accepted by `containerValidName` is
returned as `(name, "", false)`. -/
theorem C16_parent_and_snapshot_name_split :
    (∀ name p s : String, containerGetParentAndSnapshotName name = (p, s, true) →
      name = p ++ "/" ++ s ∧ noSlash p) ∧
    (∀ name : String, noSlash name →
      containerGetParentAndSnapshotName name = (name, "", false)) ∧
    (∀ p s : String, noSlash p →
      containerGetParentAndSnapshotName (p ++ "/" ++ s) = (p, s, true)) ∧
    (∀ (ValidHostname : String → Bool) (name : String),
      containerValidName ValidHostname name = none →
      containerGetParentAndSnapshotName name = (name, "", false)) := by
  have hd : SnapshotDelimiter.data = ['/'] := rfl
  refine ⟨?_, parent_and_snapshot_noSlash, ?_, ?_⟩
  · intro name p s h
    unfold containerGetParentAndSnapshotName at h
    rw [hd] at h
    cases hs : splitN2 ['/'] name.data with
    | none => simp [hs] at h
    | some ps =>
      obtain ⟨p2, s2⟩ := ps
      simp only [hs, Prod.mk.injEq, and_true] at h
      obtain ⟨rfl, rfl⟩ := h
      obtain ⟨e1, e2⟩ := splitN2_some name.data p2 s2 hs
      refine ⟨?_, e2⟩
      apply String.ext
      simp [String.data_append, e1]
  · intro p s h
    unfold containerGetParentAndSnapshotName
    have hdata : (p ++ "/" ++ s).data = p.data ++ '/' :: s.data := by
      simp [String.data_append]
    rw [hd, hdata, splitN2_append p.data s.data h]
  · intro ValidHostname name h
    apply parent_and_snapshot_noSlash
    apply not_contains_noSlash
    unfold containerValidName at h
    cases hc : stringsContains name SnapshotDelimiter with
    | true => simp [hc] at h
    | false => rfl

theorem C16_parent_and_snapshot_name_split_witness :
    noSlash "c1" ∧ containerGetParentAndSnapshotName ("c1" ++ "/" ++ "s1/x") =
      ("c1", "s1/x", true) :=
  ⟨by decide, C16_parent_and_snapshot_name_split.2.2.1 "c1" "s1/x" (by decide)⟩

/-- C17 fails on the code: for the unrecognised magic 0x4d44, `filesystemDetect`
returns the conversion `string(fs.Type)`, the one-character string U+4D44, and
not a hexadecimal rendering such as "4d44" or "0x4d44"; for a magic that is no
code point, such as 0x794c7630, it returns U+FFFD. -/
theorem C17_unknown_magic_returned_as_rune :
    filesystemDetect 0x9123683E (.ok 0x4d44) = .ok (String.singleton (Char.ofNat 0x4d44)) ∧
    filesystemDetect 0x9123683E (.ok 0x4d44) ≠ .ok "4d44" ∧
    filesystemDetect 0x9123683E (.ok 0x4d44) ≠ .ok "0x4d44" ∧
    filesystemDetect 0x9123683E (.ok 0x794c7630) =
      .ok (String.singleton (Char.ofNat 0xFFFD)) ∧
    filesystemDetect 0x9123683E (.ok 0x794c7630) ≠ .ok "794c7630" ∧
    filesystemDetect 0x9123683E (.ok 0x794c7630) ≠ .ok "0x794c7630" := by
  decide

/-- C18: `storageStringToType` succeeds exactly on the six driver names and is the
inverse of `storageTypeToString` on them and on the six `storageType` constants;
every other name and every other `storageType` value yields an error. -/
theorem C18_storage_type_names_inverse :
    (∀ n : String, (∃ t, storageStringToType n = .ok t) ↔
      n ∈ ["dir", "btrfs", "zfs", "lvm", "ceph", "mock"]) ∧
    (∀ n : String, n ∈ ["dir", "btrfs", "zfs", "lvm", "ceph", "mock"] →
      ∃ t, storageStringToType n = .ok t ∧ storageTypeToString t = .ok n) ∧
    (∀ t : storageType, t ∈ [storageTypeBtrfs, storageTypeCeph, storageTypeDir,
        storageTypeLvm, storageTypeMock, storageTypeZfs] →
      ∃ n, storageTypeToString t = .ok n ∧ storageStringToType n = .ok t) ∧
    (∀ n : String, n ∉ ["dir", "btrfs", "zfs", "lvm", "ceph", "mock"] →
      storageStringToType n = .fail .invalidStorageTypeName) ∧
    (∀ t : storageType, t ∉ [storageTypeBtrfs, storageTypeCeph, storageTypeDir,
        storageTypeLvm, storageTypeMock, storageTypeZfs] →
      storageTypeToString t = .fail .invalidStorageType) := by
  have names : ∀ n : String, n ∈ ["dir", "btrfs", "zfs", "lvm", "ceph", "mock"] →
      ∃ t, storageStringToType n = .ok t ∧ storageTypeToString t = .ok n := by
    intro n hn
    simp only [List.mem_cons, List.mem_singleton, List.not_mem_nil, or_false] at hn
    rcases hn with rfl | rfl | rfl | rfl | rfl | rfl
    · exact ⟨storageTypeDir, by decide, by decide⟩
    · exact ⟨storageTypeBtrfs, by decide, by decide⟩
    · exact ⟨storageTypeZfs, by decide, by decide⟩
    · exact ⟨storageTypeLvm, by decide, by decide⟩
    · exact ⟨storageTypeCeph, by decide, by decide⟩
    · exact ⟨storageTypeMock, by decide, by decide⟩
  have others : ∀ n : String, n ∉ ["dir", "btrfs", "zfs", "lvm", "ceph", "mock"] →
      storageStringToType n = .fail .invalidStorageTypeName := by
    intro n hn
    simp only [List.mem_cons, List.mem_singleton, List.not_mem_nil, or_false, not_or] at hn
    obtain ⟨h1, h2, h3, h4, h5, h6⟩ := hn
    simp [storageStringToType, h1, h2, h3, h4, h5, h6]
  refine ⟨?_, names, ?_, others, ?_⟩
  · intro n
    constructor
    · rintro ⟨t, ht⟩
      by_contra hn
      rw [others n hn] at ht
      cases ht
    · intro hn
      obtain ⟨t, ht, _⟩ := names n hn
      exact ⟨t, ht⟩
  · intro t ht
    simp only [List.mem_cons, List.mem_singleton, List.not_mem_nil, or_false] at ht
    rcases ht with rfl | rfl | rfl | rfl | rfl | rfl
    · exact ⟨"btrfs", by decide, by decide⟩
    · exact ⟨"ceph", by decide, by decide⟩
    · exact ⟨"dir", by decide, by decide⟩
    · exact ⟨"lvm", by decide, by decide⟩
    · exact ⟨"mock", by decide, by decide⟩
    · exact ⟨"zfs", by decide, by decide⟩
  · intro t ht
    simp only [List.mem_cons, List.mem_singleton, List.not_mem_nil, or_false, not_or] at ht
    obtain ⟨h1, h2, h3, h4, h5, h6⟩ := ht
    simp [storageTypeToString, h1, h2, h3, h4, h5, h6]

theorem C18_storage_type_names_inverse_witness :
    "ceph" ∈ ["dir", "btrfs", "zfs", "lvm", "ceph", "mock"] ∧
    ∃ t, storageStringToType "ceph" = .ok t ∧ storageTypeToString t = .ok "ceph" :=
  ⟨by decide, C18_storage_type_names_inverse.2.1 "ceph" (by decide)⟩

/-! ### Driver initialisation and pool lifecycle -/

theorem StorageCoreInit_keeps (w : CephWorld) (s : storageCeph) :
    (StorageCoreInit w s).2.pool = s.pool ∧
    (StorageCoreInit w s).2.OSDPoolName = s.OSDPoolName := by
  unfold StorageCoreInit
  dsimp only
  split
  · exact ⟨rfl, rfl⟩
  · split <;> exact ⟨rfl, rfl⟩

/-- On success `StoragePoolInit` has set the four driver fields from the pool
configuration, with the defaults of lines 53-77; the pool name field is left as
it was when "ceph.osd.pool_name" is unset. -/
theorem StoragePoolInit_fields (w : CephWorld) (s : storageCeph)
    (h : (StoragePoolInit w s).1 = none) :
    (StoragePoolInit w s).2.ClusterName =
      (if s.getConfig "ceph.cluster_name" ≠ "" then s.getConfig "ceph.cluster_name"
        else "ceph") ∧
    (StoragePoolInit w s).2.OSDPoolName =
      (if s.getConfig "ceph.osd.pool_name" ≠ "" then s.getConfig "ceph.osd.pool_name"
        else s.OSDPoolName) ∧
    (StoragePoolInit w s).2.UserName =
      (if s.getConfig "ceph.user.name" ≠ "" then s.getConfig "ceph.user.name"
        else "admin") ∧
    (StoragePoolInit w s).2.PGNum =
      (if s.getConfig "ceph.osd.pg_num" ≠ "" then s.getConfig "ceph.osd.pg_num"
        else "32") := by
  have hp := (StorageCoreInit_keeps w s).1
  have ho := (StorageCoreInit_keeps w s).2
  unfold StoragePoolInit at h ⊢
  generalize StorageCoreInit w s = core at hp ho h ⊢
  obtain ⟨e, c⟩ := core
  obtain ⟨cn, opn, un, pg, pid, pool, vol, st, stn, stv⟩ := c
  dsimp only at hp ho
  subst hp ho
  cases e with
  | some err => simp at h
  | none =>
    simp only [storageCeph.getConfig] at h ⊢
    by_cases h1 : cfgGet s.pool.config "ceph.cluster_name" = "" <;>
    by_cases h2 : cfgGet s.pool.config "ceph.osd.pool_name" = "" <;>
    by_cases h3 : cfgGet s.pool.config "ceph.user.name" = "" <;>
    by_cases h4 : cfgGet s.pool.config "ceph.osd.pg_num" = "" <;>
    simp only [h1, h2, h3, h4, ne_eq, not_true_eq_false, not_false_eq_true, if_true,
      if_false, and_self] at h ⊢ <;>
    cases hparse : w.ParseByteSizeString (cfgGet s.pool.config "ceph.osd.pg_num") <;>
    simp_all

/-- C19: after a successful `StoragePoolInit`, cluster name, user name and
placement-group number are the configured values when the pool configuration
sets "ceph.cluster_name", "ceph.user.name", "ceph.osd.pg_num" to a non-empty
string, and otherwise the defaults "ceph", "admin" and "32". -/
theorem C19_pool_init_defaults (w : CephWorld) (s : storageCeph)
    (h : (StoragePoolInit w s).1 = none) :
    (StoragePoolInit w s).2.ClusterName =
      (if s.getConfig "ceph.cluster_name" ≠ "" then s.getConfig "ceph.cluster_name"
        else "ceph") ∧
    (StoragePoolInit w s).2.UserName =
      (if s.getConfig "ceph.user.name" ≠ "" then s.getConfig "ceph.user.name"
        else "admin") ∧
    (StoragePoolInit w s).2.PGNum =
      (if s.getConfig "ceph.osd.pg_num" ≠ "" then s.getConfig "ceph.osd.pg_num"
        else "32") := by
  have hf := StoragePoolInit_fields w s h
  exact ⟨hf.1, hf.2.2.1, hf.2.2.2⟩

theorem C19_pool_init_defaults_witness :
    (StoragePoolInit (demoCephWorld true true (.ok []) none)
      (newStorageCeph 1 { name := "p1", driver := "ceph", config := [("ceph.user.name", "bob")] }
        { name := "", description := "", config := none })).1 = none ∧
    (StoragePoolInit (demoCephWorld true true (.ok []) none)
      (newStorageCeph 1 { name := "p1", driver := "ceph", config := [("ceph.user.name", "bob")] }
        { name := "", description := "", config := none })).2.UserName = "bob" ∧
    (StoragePoolInit (demoCephWorld true true (.ok []) none)
      (newStorageCeph 1 { name := "p1", driver := "ceph", config := [("ceph.user.name", "bob")] }
        { name := "", description := "", config := none })).2.ClusterName = "ceph" :=
  ⟨by decide,
    (C19_pool_init_defaults (demoCephWorld true true (.ok []) none)
      (newStorageCeph 1 { name := "p1", driver := "ceph", config := [("ceph.user.name", "bob")] }
        { name := "", description := "", config := none }) (by decide)).2.1,
    by decide⟩

theorem getConfig_setConfig_other (s : storageCeph) (k k2 v : String) (h : k2 ≠ k) :
    (s.setConfig k v).getConfig k2 = s.getConfig k2 := by
  simp [storageCeph.setConfig, storageCeph.getConfig, cfgGet_cfgSet_other _ _ _ _ h]

theorem NamedAs_setConfig (d : storageCeph) (n k v : String)
    (hk : "ceph.osd.pool_name" ≠ k) (h : d.NamedAs n) : (d.setConfig k v).NamedAs n := by
  obtain ⟨h1, h2, h3⟩ := h
  refine ⟨?_, ?_, ?_⟩
  · simpa [storageCeph.setConfig] using h1
  · simpa [storageCeph.setConfig] using h2
  · rw [getConfig_setConfig_other _ _ _ _ hk]
    exact h3

theorem poolCreateNames_default (s : storageCeph) (hs : s.getConfig "source" = "")
    (ho : s.getConfig "ceph.osd.pool_name" = "") :
    (poolCreateNames s).2 = true ∧ (poolCreateNames s).1.NamedAs s.pool.name := by
  have h1 : (s.setConfig "volatile.initial_source" (s.getConfig "source")).getConfig
      "source" = "" := by
    rw [getConfig_setConfig_other _ _ _ _ (by decide)]
    exact hs
  have h2 : (s.setConfig "volatile.initial_source" (s.getConfig "source")).getConfig
      "ceph.osd.pool_name" = "" := by
    rw [getConfig_setConfig_other _ _ _ _ (by decide)]
    exact ho
  unfold poolCreateNames
  simp only [h1, h2, ne_eq, not_true_eq_false, false_and, if_false, if_true]
  refine ⟨trivial, ?_⟩
  refine ⟨rfl, rfl, ?_⟩
  simp [storageCeph.setConfig, storageCeph.getConfig,
    cfgGet_cfgSet_other _ _ _ _ (show "ceph.osd.pool_name" ≠ "source" by decide),
    cfgGet_cfgSet_same]

theorem poolCreateDefaults_NamedAs (d : storageCeph) (n : String) (h : d.NamedAs n) :
    (poolCreateDefaults d).NamedAs n := by
  unfold poolCreateDefaults
  dsimp only
  have a1 : (if d.getConfig "source" = "" then d.setConfig "source" d.OSDPoolName
      else d).NamedAs n := by
    split
    · exact NamedAs_setConfig _ _ _ _ (by decide) h
    · exact h
  generalize (if d.getConfig "source" = "" then d.setConfig "source" d.OSDPoolName
      else d) = d1 at a1 ⊢
  have a2 : (if d1.getConfig "ceph.cluster_name" = "" then
      d1.setConfig "ceph.cluster_name" "ceph" else d1).NamedAs n := by
    split
    · exact NamedAs_setConfig _ _ _ _ (by decide) a1
    · exact a1
  generalize (if d1.getConfig "ceph.cluster_name" = "" then
      d1.setConfig "ceph.cluster_name" "ceph" else d1) = d2 at a2 ⊢
  have a3 : (if d2.getConfig "ceph.osd.pool_name" = "" then
      d2.setConfig "ceph.osd.pool_name" d2.pool.name else d2).NamedAs n := by
    split
    · obtain ⟨h1, h2, _⟩ := a2
      refine ⟨?_, ?_, ?_⟩
      · simpa [storageCeph.setConfig] using h1
      · simpa [storageCeph.setConfig] using h2
      · rw [getConfig_setConfig_same]
        exact h2
    · exact a2
  generalize (if d2.getConfig "ceph.osd.pool_name" = "" then
      d2.setConfig "ceph.osd.pool_name" d2.pool.name else d2) = d3 at a3 ⊢
  split
  · exact NamedAs_setConfig _ _ _ _ (by decide) a3
  · exact a3

theorem poolCreateFinish_NamedAs (w : CephWorld) (d : storageCeph) (ds : List Deferred)
    (σ : CephState) (before : List CephEvent) (n : String) (h : d.NamedAs n) :
    (poolCreateFinish w d ds σ before).driver.NamedAs n := by
  have hp := NamedAs_setConfig d n "volatile.pool.pristine" "false" (by decide) h
  have hq := NamedAs_setConfig _ n "volatile.pool.pristine" "true" (by decide) hp
  unfold poolCreateFinish
  dsimp only
  split
  · exact h
  · split
    · split
      · exact hq
      · exact hq
    · exact hp

theorem StoragePoolCreate_NamedAs (w : CephWorld) (s : storageCeph) (σ : CephState)
    (hs : s.getConfig "source" = "") (ho : s.getConfig "ceph.osd.pool_name" = "") :
    (StoragePoolCreate w s σ).driver.NamedAs s.pool.name := by
  obtain ⟨hn, hq⟩ := poolCreateNames_default s hs ho
  unfold StoragePoolCreate
  dsimp only
  simp only [hn, Bool.true_eq_false, if_false]
  split
  · split
    · exact hq
    · exact poolCreateFinish_NamedAs _ _ _ _ _ _ (poolCreateDefaults_NamedAs _ _ hq)
  · split
    · exact hq
    · split
      · exact hq
      · exact poolCreateFinish_NamedAs _ _ _ _ _ _
          (poolCreateDefaults_NamedAs _ _ (NamedAs_setConfig _ _ _ _ (by decide) hq))

/-- C20 (as amended): for a ceph pool whose configuration does not set
"ceph.osd.pool_name", a successful `StoragePoolInit` leaves the driver's OSD pool
name as it was before the call; the pool's own name becomes the default in
`StoragePoolCreate`: after a successful `StoragePoolCreate` with neither "source"
nor "ceph.osd.pool_name" given, the configuration key "ceph.osd.pool_name" and
the driver's OSD pool name both equal the pool's name. -/
theorem C20_osd_pool_name_default (w : CephWorld) (s : storageCeph) (σ : CephState)
    (ho : s.getConfig "ceph.osd.pool_name" = "") :
    ((StoragePoolInit w s).1 = none →
      (StoragePoolInit w s).2.OSDPoolName = s.OSDPoolName) ∧
    (s.getConfig "source" = "" → (StoragePoolCreate w s σ).outcome = .ret () →
      (StoragePoolCreate w s σ).driver.OSDPoolName = s.pool.name ∧
      (StoragePoolCreate w s σ).driver.getConfig "ceph.osd.pool_name" = s.pool.name) := by
  refine ⟨fun h => ?_, fun hs _ => ?_⟩
  · have hf := (StoragePoolInit_fields w s h).2.1
    rw [hf, ho]
    simp
  · have hq := StoragePoolCreate_NamedAs w s σ hs ho
    exact ⟨hq.1, hq.2.2⟩

theorem C20_osd_pool_name_default_witness :
    (StoragePoolInit (demoCephWorld false false (.ok []) none)
      (newStorageCeph 1 { name := "p1", driver := "ceph", config := [] }
        { name := "", description := "", config := none })).2.OSDPoolName = "" ∧
    (StoragePoolCreate (demoCephWorld false false (.ok []) none)
      (newStorageCeph 1 { name := "p1", driver := "ceph", config := [] }
        { name := "", description := "", config := none }) idleState).outcome = .ret () ∧
    (StoragePoolCreate (demoCephWorld false false (.ok []) none)
      (newStorageCeph 1 { name := "p1", driver := "ceph", config := [] }
        { name := "", description := "", config := none }) idleState).driver.OSDPoolName =
      "p1" :=
  ⟨(C20_osd_pool_name_default (demoCephWorld false false (.ok []) none)
      (newStorageCeph 1 { name := "p1", driver := "ceph", config := [] }
        { name := "", description := "", config := none }) idleState (by decide)).1
      (by decide),
    by decide,
    ((C20_osd_pool_name_default (demoCephWorld false false (.ok []) none)
      (newStorageCeph 1 { name := "p1", driver := "ceph", config := [] }
        { name := "", description := "", config := none }) idleState (by decide)).2
      (by decide) (by decide)).1⟩

/-- C20 (as stated) fails for `StoragePoolInit`: for the pool "p1" whose
configuration sets no "ceph.osd.pool_name", the driver object that `storageInit`
builds comes out of a successful `StoragePoolInit` with the empty OSD pool name,
not with "p1". -/
theorem C20_pool_init_counterexample :
    (newStorageCeph 1 { name := "p1", driver := "ceph", config := [] }
        { name := "", description := "", config := none }).getConfig
      "ceph.osd.pool_name" = "" ∧
    (StoragePoolInit (demoCephWorld true true (.ok []) none)
      (newStorageCeph 1 { name := "p1", driver := "ceph", config := [] }
        { name := "", description := "", config := none })).1 = none ∧
    (StoragePoolInit (demoCephWorld true true (.ok []) none)
      (newStorageCeph 1 { name := "p1", driver := "ceph", config := [] }
        { name := "", description := "", config := none })).2.OSDPoolName = "" ∧
    (StoragePoolInit (demoCephWorld true true (.ok []) none)
      (newStorageCeph 1 { name := "p1", driver := "ceph", config := [] }
        { name := "", description := "", config := none })).2.OSDPoolName ≠
      (newStorageCeph 1 { name := "p1", driver := "ceph", config := [] }
        { name := "", description := "", config := none }).pool.name := by
  decide

/-- C11 (as amended): `StoragePoolDelete` calls `os.RemoveAll` on the pool's
mount-point directory exactly when the OSD pool exists in the cluster and, if
"volatile.pool.pristine" is set to a true value, destroying the OSD pool
succeeded; `os.RemoveAll` is then its last call and it returns what
`os.RemoveAll` returns, so it returns nil exactly when `os.RemoveAll` succeeds
as well. When the OSD pool does not exist it makes no call and returns the error
saying so; when the destruction fails it returns that error and the failed
destroy is its only call; in both cases it makes no call on the directory. -/
theorem C11_pool_delete_removes_mount_point (w : CephWorld) (s : storageCeph)
    (σ : CephState) :
    (.RemoveAll (getStoragePoolMountPoint w.VarPath s.pool.name) ∈
        (StoragePoolDelete w s σ).trace ↔
      (w.cephOSDPoolExists s.ClusterName s.OSDPoolName s.UserName = true ∧
        ((s.getConfig "volatile.pool.pristine" ≠ "" ∧
            w.IsTrue (s.getConfig "volatile.pool.pristine") = true) →
          w.cephOSDPoolDestroy s.ClusterName s.OSDPoolName s.UserName = none))) ∧
    (.RemoveAll (getStoragePoolMountPoint w.VarPath s.pool.name) ∉
        (StoragePoolDelete w s σ).trace →
      (StoragePoolDelete w s σ).result ≠ none) ∧
    (w.cephOSDPoolExists s.ClusterName s.OSDPoolName s.UserName = false →
      (StoragePoolDelete w s σ).result = some .osdPoolDoesNotExist ∧
      (StoragePoolDelete w s σ).trace = []) ∧
    (∀ e, w.cephOSDPoolExists s.ClusterName s.OSDPoolName s.UserName = true →
      (s.getConfig "volatile.pool.pristine" ≠ "" ∧
        w.IsTrue (s.getConfig "volatile.pool.pristine") = true) →
      w.cephOSDPoolDestroy s.ClusterName s.OSDPoolName s.UserName = some e →
      (StoragePoolDelete w s σ).result = some e ∧
      (StoragePoolDelete w s σ).trace = [.osdPoolDestroy s.OSDPoolName]) ∧
    (.RemoveAll (getStoragePoolMountPoint w.VarPath s.pool.name) ∈
        (StoragePoolDelete w s σ).trace →
      (StoragePoolDelete w s σ).result =
        w.RemoveAll (getStoragePoolMountPoint w.VarPath s.pool.name) ∧
      ∃ before, (StoragePoolDelete w s σ).trace =
        before ++ [.RemoveAll (getStoragePoolMountPoint w.VarPath s.pool.name)]) ∧
    ((StoragePoolDelete w s σ).result = none ↔
      (w.cephOSDPoolExists s.ClusterName s.OSDPoolName s.UserName = true ∧
        ((s.getConfig "volatile.pool.pristine" ≠ "" ∧
            w.IsTrue (s.getConfig "volatile.pool.pristine") = true) →
          w.cephOSDPoolDestroy s.ClusterName s.OSDPoolName s.UserName = none) ∧
        w.RemoveAll (getStoragePoolMountPoint w.VarPath s.pool.name) = none)) := by
  unfold StoragePoolDelete
  cases hexists : w.cephOSDPoolExists s.ClusterName s.OSDPoolName s.UserName with
  | false => simp
  | true =>
    simp only [Bool.true_eq_false, if_false, true_and]
    by_cases hp : s.getConfig "volatile.pool.pristine" ≠ "" ∧
        w.IsTrue (s.getConfig "volatile.pool.pristine") = true
    · have hdec : decide (s.getConfig "volatile.pool.pristine" ≠ "" ∧
          w.IsTrue (s.getConfig "volatile.pool.pristine") = true) = true := by
        simpa using hp
      simp only [hdec, if_true]
      cases hd : w.cephOSDPoolDestroy s.ClusterName s.OSDPoolName s.UserName with
      | none =>
        refine ⟨by simp, by simp, by simp, by simp, fun _ => ⟨rfl, _, rfl⟩, by simp⟩
      | some e =>
        refine ⟨by simp [hp], by simp, by simp, by simp, by simp, by simp [hp]⟩
    · have hdec : decide (s.getConfig "volatile.pool.pristine" ≠ "" ∧
          w.IsTrue (s.getConfig "volatile.pool.pristine") = true) = false := by
        simpa using hp
      simp only [hdec]
      refine ⟨by simp [hp], by simp, by simp, ?_, fun _ => ⟨rfl, [], rfl⟩, by simp [hp]⟩
      intro e _ hp2
      exact absurd hp2 hp

theorem C11_pool_delete_removes_mount_point_witness :
    (demoCephWorld true true (.ok []) none).cephOSDPoolExists "ceph" "p1" "admin" = true ∧
    .RemoveAll "/var/lib/apollo/storage-pools/p1" ∈
      (StoragePoolDelete (demoCephWorld true true (.ok []) none)
        (demoCeph "p1" [("volatile.pool.pristine", "true")]) idleState).trace ∧
    (StoragePoolDelete
      { demoCephWorld true true (.ok []) none with
        RemoveAll := fun _ => some (.ext "device or resource busy") }
      (demoCeph "p1" [("volatile.pool.pristine", "true")]) idleState).result =
      some (.ext "device or resource busy") ∧
    (StoragePoolDelete
      { demoCephWorld true true (.ok []) none with
        cephOSDPoolDestroy := fun _ _ _ => some (.ext "pool busy") }
      (demoCeph "p1" [("volatile.pool.pristine", "true")]) idleState).trace =
      [.osdPoolDestroy "p1"] :=
  ⟨rfl,
    (C11_pool_delete_removes_mount_point (demoCephWorld true true (.ok []) none)
      (demoCeph "p1" [("volatile.pool.pristine", "true")]) idleState).1.2
      ⟨rfl, fun _ => rfl⟩,
    ((C11_pool_delete_removes_mount_point
      { demoCephWorld true true (.ok []) none with
        RemoveAll := fun _ => some (.ext "device or resource busy") }
      (demoCeph "p1" [("volatile.pool.pristine", "true")]) idleState).2.2.2.2.1
      (by decide)).1,
    ((C11_pool_delete_removes_mount_point
      { demoCephWorld true true (.ok []) none with
        cephOSDPoolDestroy := fun _ _ _ => some (.ext "pool busy") }
      (demoCeph "p1" [("volatile.pool.pristine", "true")]) idleState).2.2.2.1
      (.ext "pool busy") rfl (by decide) rfl).2⟩

/-- C11 (as stated) fails: when the OSD pool "p1" does not exist in the cluster,
`StoragePoolDelete` returns an error without any call, and when destroying the
pristine OSD pool fails it returns after the failed destroy; in neither run is
the mount-point directory removed. -/
theorem C11_pool_delete_counterexample :
    (StoragePoolDelete (demoCephWorld false true (.ok []) none)
        (demoCeph "p1" [("volatile.pool.pristine", "true")]) idleState).result =
      some .osdPoolDoesNotExist ∧
    (StoragePoolDelete (demoCephWorld false true (.ok []) none)
        (demoCeph "p1" [("volatile.pool.pristine", "true")]) idleState).trace = [] ∧
    (StoragePoolDelete
        { demoCephWorld true true (.ok []) none with
          cephOSDPoolDestroy := fun _ _ _ => some (.ext "pool busy") }
        (demoCeph "p1" [("volatile.pool.pristine", "true")]) idleState).result =
      some (.ext "pool busy") ∧
    (StoragePoolDelete
        { demoCephWorld true true (.ok []) none with
          cephOSDPoolDestroy := fun _ _ _ => some (.ext "pool busy") }
        (demoCeph "p1" [("volatile.pool.pristine", "true")]) idleState).trace =
      [.osdPoolDestroy "p1"] := by
  decide

theorem poolCreateFinish_created (w : CephWorld) (s : storageCeph) (σ : CephState)
    (ev : CephEvent) (n : String) :
    (∀ e, (poolCreateFinish w s [revertCall (.osdPoolDestroy n)] σ [ev]).outcome = .err e →
      ∃ pre, (poolCreateFinish w s [revertCall (.osdPoolDestroy n)] σ [ev]).trace =
        pre ++ [.osdPoolDestroy n]) ∧
    ((poolCreateFinish w s [revertCall (.osdPoolDestroy n)] σ [ev]).outcome = .ret () →
      (poolCreateFinish w s [revertCall (.osdPoolDestroy n)] σ [ev]).trace.filter
        CephEvent.isPoolCreateInverse = [ev].filter CephEvent.isPoolCreateInverse) := by
  unfold poolCreateFinish
  dsimp only
  split
  · refine ⟨fun e _ => ⟨[ev, .MkdirAll (getStoragePoolMountPoint w.VarPath s.pool.name)
      0o711], rfl⟩, fun h => ?_⟩
    simp at h
  · split
    · split
      · refine ⟨fun e _ => ⟨[ev, .MkdirAll (getStoragePoolMountPoint w.VarPath s.pool.name)
          0o711, .rbdVolumeCreate s.OSDPoolName s.pool.name "apollo" "0",
          .Remove (getStoragePoolMountPoint w.VarPath s.pool.name)], rfl⟩, fun h => ?_⟩
        simp at h
      · refine ⟨fun e h => ?_, fun _ => ?_⟩
        · simp at h
        · simp [runDeferred, revertCall, List.filter, CephEvent.isPoolCreateInverse]
    · refine ⟨fun e h => ?_, fun _ => ?_⟩
      · simp at h
      · simp [runDeferred, revertCall, List.filter, CephEvent.isPoolCreateInverse]

theorem poolCreateFinish_attached (w : CephWorld) (s : storageCeph) (σ : CephState) :
    (poolCreateFinish w s [] σ []).trace.filter CephEvent.isOsdPoolDestroy = [] ∧
    ((poolCreateFinish w s [] σ []).outcome = .ret () →
      (poolCreateFinish w s [] σ []).trace.filter CephEvent.isPoolCreateInverse = []) := by
  unfold poolCreateFinish
  dsimp only
  split
  · refine ⟨rfl, fun h => ?_⟩
    simp at h
  · split
    · split
      · refine ⟨rfl, fun h => ?_⟩
        simp at h
      · exact ⟨rfl, fun _ => rfl⟩
    · exact ⟨rfl, fun _ => rfl⟩

/-- When the last part of `StoragePoolCreate` returns an error, its calls end
with the inverse actions of the steps done so far, latest step first: the
removal of the mount point if `os.MkdirAll` had succeeded, then the calls of the
closures deferred before. -/
theorem poolCreateFinish_unwinds (w : CephWorld) (s : storageCeph) (σ : CephState)
    (before : List CephEvent) (earlier : List CephEvent) (e : Err)
    (hbefore : before.filter CephEvent.isPoolCreateInverse = [])
    (herr : (poolCreateFinish w s (earlier.map revertCall) σ before).outcome = .err e) :
    ∃ calls, calls.filter CephEvent.isPoolCreateInverse = [] ∧
      (poolCreateFinish w s (earlier.map revertCall) σ before).trace =
        calls ++ ((if w.MkdirAll (getStoragePoolMountPoint w.VarPath s.pool.name) 0o711 = none
          then [.Remove (getStoragePoolMountPoint w.VarPath s.pool.name)] else []) ++
          earlier) := by
  have hrun : ∀ (l : List CephEvent) (σ2 : CephState),
      (runDeferred true (l.map revertCall) σ2).2 = l := by
    intro l
    induction l with
    | nil => intro σ2; rfl
    | cons a l ih =>
      intro σ2
      simp only [List.map_cons, runDeferred, revertCall, if_true, ih]
      rfl
  unfold poolCreateFinish at herr ⊢
  dsimp only at herr ⊢
  cases hm : w.MkdirAll (getStoragePoolMountPoint w.VarPath s.pool.name) 0o711 with
  | some err =>
    simp only [hm] at herr ⊢
    refine ⟨before ++ [.MkdirAll (getStoragePoolMountPoint w.VarPath s.pool.name) 0o711],
      ?_, ?_⟩
    · simp only [List.filter_append, hbefore]
      rfl
    · rw [hrun]
      simp
  | none =>
    simp only [hm] at herr ⊢
    cases hx : w.cephRBDVolumeExists s.ClusterName s.OSDPoolName s.pool.name "apollo"
        s.UserName with
    | true => simp [hx] at herr
    | false =>
      simp only [hx, if_true] at herr ⊢
      cases hc : w.cephRBDVolumeCreate s.ClusterName s.OSDPoolName s.pool.name "apollo" "0"
          s.UserName with
      | none => simp [hc] at herr
      | some err =>
        simp only [hc] at herr ⊢
        refine ⟨before ++ [.MkdirAll (getStoragePoolMountPoint w.VarPath s.pool.name) 0o711,
          .rbdVolumeCreate s.OSDPoolName s.pool.name "apollo" "0"], ?_, ?_⟩
        · simp only [List.filter_append, hbefore]
          rfl
        · have h2 := hrun (.Remove (getStoragePoolMountPoint w.VarPath s.pool.name) :: earlier) σ
          simp only [List.map_cons] at h2
          rw [h2]
          simp

theorem setConfig_pool_name (d : storageCeph) (k v : String) :
    (d.setConfig k v).pool.name = d.pool.name := rfl

theorem pool_name_ite_setConfig (d : storageCeph) (k v : String) (c : Prop) [Decidable c] :
    (if c then d.setConfig k v else d).pool.name = d.pool.name := by
  split <;> rfl

theorem poolCreateDefaults_pool_name (d : storageCeph) :
    (poolCreateDefaults d).pool.name = d.pool.name := by
  unfold poolCreateDefaults
  dsimp only
  rw [pool_name_ite_setConfig, pool_name_ite_setConfig, pool_name_ite_setConfig,
    pool_name_ite_setConfig]

theorem poolCreateNames_pool_name (s : storageCeph) :
    (poolCreateNames s).1.pool.name = s.pool.name := by
  unfold poolCreateNames
  dsimp only
  split
  · rfl
  · split <;> split <;> rfl

/-- The failure of `StoragePoolCreate` after it attached to an existing OSD pool:
the only inverse action is the removal of the mount point, issued last, and only
if the mount point had been created. -/
theorem StoragePoolCreate_attached_unwinds (w : CephWorld) (s : storageCeph)
    (σ : CephState) (hnames : (poolCreateNames s).2 = true)
    (hx : w.cephOSDPoolExists (poolCreateNames s).1.ClusterName
      (poolCreateNames s).1.OSDPoolName (poolCreateNames s).1.UserName = true)
    (e : Err) (h : (StoragePoolCreate w s σ).outcome = .err e) :
    ∃ calls, calls.filter CephEvent.isPoolCreateInverse = [] ∧
      (StoragePoolCreate w s σ).trace =
        calls ++ (if .MkdirAll (getStoragePoolMountPoint w.VarPath s.pool.name) 0o711 ∈
              (StoragePoolCreate w s σ).trace ∧
            w.MkdirAll (getStoragePoolMountPoint w.VarPath s.pool.name) 0o711 = none
          then [.Remove (getStoragePoolMountPoint w.VarPath s.pool.name)] else []) := by
  generalize hrun : StoragePoolCreate w s σ = run at h ⊢
  unfold StoragePoolCreate at hrun
  dsimp only at hrun
  simp only [hnames, hx, Bool.true_eq_false, if_false] at hrun
  split at hrun
  · subst hrun
    exact ⟨[], rfl, by simp⟩
  · split at hrun
    · subst hrun
      simp at h
    · rename_i msg _ rest _
      subst hrun
      have hname : (poolCreateDefaults ((poolCreateNames s).1.setConfig "ceph.osd.pg_num"
          (TrimSpace rest))).pool.name = s.pool.name := by
        rw [poolCreateDefaults_pool_name, setConfig_pool_name, poolCreateNames_pool_name]
      have hu := poolCreateFinish_unwinds w _ σ [] [] e rfl h
      rw [hname] at hu
      obtain ⟨calls, hcalls, htrace⟩ := hu
      refine ⟨calls, hcalls, ?_⟩
      have hmem : CephEvent.MkdirAll (getStoragePoolMountPoint w.VarPath s.pool.name)
          0o711 ∈ (poolCreateFinish w (poolCreateDefaults
            ((poolCreateNames s).1.setConfig "ceph.osd.pg_num" (TrimSpace rest))) []
              σ []).trace := by
        unfold poolCreateFinish
        dsimp only
        rw [hname]
        split
        · simp
        · split
          · split <;> simp
          · simp
      simp only [hmem, true_and]
      simpa using htrace

/-- C12: in the ceph `StoragePoolCreate` the inverse actions run exactly on
failure. If the call created the OSD pool and then returns an error, its last
call destroys that OSD pool, and its calls end with the inverse actions of the
steps done, latest first: the removal of the mount point if it had been
created, then the OSD pool destroy. If it attached to an OSD pool that already
existed it never issues an OSD pool destroy, whatever it returns, and on an
error its only inverse action is the removal of the mount point it had created.
When it returns nil no inverse action (OSD pool destroy, mount-point removal)
is issued. -/
theorem C12_pool_create_inverse_on_failure (w : CephWorld) (s : storageCeph)
    (σ : CephState) (hnames : (poolCreateNames s).2 = true) :
    (w.cephOSDPoolExists (poolCreateNames s).1.ClusterName (poolCreateNames s).1.OSDPoolName
        (poolCreateNames s).1.UserName = false →
      ∀ out e, w.osdPoolCreate (poolCreateNames s).1.ClusterName
          (poolCreateNames s).1.UserName (poolCreateNames s).1.OSDPoolName
          (poolCreateNames s).1.PGNum = .ok out →
        (StoragePoolCreate w s σ).outcome = .err e →
        ∃ pre, (StoragePoolCreate w s σ).trace =
          pre ++ [.osdPoolDestroy (poolCreateNames s).1.OSDPoolName]) ∧
    (w.cephOSDPoolExists (poolCreateNames s).1.ClusterName (poolCreateNames s).1.OSDPoolName
        (poolCreateNames s).1.UserName = true →
      (StoragePoolCreate w s σ).trace.filter CephEvent.isOsdPoolDestroy = []) ∧
    ((StoragePoolCreate w s σ).outcome = .ret () →
      (StoragePoolCreate w s σ).trace.filter CephEvent.isPoolCreateInverse = []) ∧
    (w.cephOSDPoolExists (poolCreateNames s).1.ClusterName (poolCreateNames s).1.OSDPoolName
        (poolCreateNames s).1.UserName = false →
      ∀ out e, w.osdPoolCreate (poolCreateNames s).1.ClusterName
          (poolCreateNames s).1.UserName (poolCreateNames s).1.OSDPoolName
          (poolCreateNames s).1.PGNum = .ok out →
        (StoragePoolCreate w s σ).outcome = .err e →
        ∃ calls, calls.filter CephEvent.isPoolCreateInverse = [] ∧
          (StoragePoolCreate w s σ).trace =
            calls ++ ((if w.MkdirAll (getStoragePoolMountPoint w.VarPath s.pool.name) 0o711 =
                none
              then [.Remove (getStoragePoolMountPoint w.VarPath s.pool.name)] else []) ++
              [.osdPoolDestroy (poolCreateNames s).1.OSDPoolName])) ∧
    (w.cephOSDPoolExists (poolCreateNames s).1.ClusterName (poolCreateNames s).1.OSDPoolName
        (poolCreateNames s).1.UserName = true →
      ∀ e, (StoragePoolCreate w s σ).outcome = .err e →
        ∃ calls, calls.filter CephEvent.isPoolCreateInverse = [] ∧
          (StoragePoolCreate w s σ).trace =
            calls ++ (if .MkdirAll (getStoragePoolMountPoint w.VarPath s.pool.name) 0o711 ∈
                  (StoragePoolCreate w s σ).trace ∧
                w.MkdirAll (getStoragePoolMountPoint w.VarPath s.pool.name) 0o711 = none
              then [.Remove (getStoragePoolMountPoint w.VarPath s.pool.name)] else [])) := by
  have hname : ∀ d : storageCeph, d.pool.name = (poolCreateNames s).1.pool.name →
      (poolCreateDefaults d).pool.name = s.pool.name := by
    intro d hd
    rw [poolCreateDefaults_pool_name, hd, poolCreateNames_pool_name]
  have hatt := StoragePoolCreate_attached_unwinds w s σ hnames
  unfold StoragePoolCreate at hatt ⊢
  dsimp only at hatt
  simp only [hnames, Bool.true_eq_false, if_false] at hatt
  dsimp only
  simp only [hnames, Bool.true_eq_false, if_false]
  cases hx : w.cephOSDPoolExists (poolCreateNames s).1.ClusterName
      (poolCreateNames s).1.OSDPoolName (poolCreateNames s).1.UserName with
  | false =>
    simp only [if_true]
    cases hc : w.osdPoolCreate (poolCreateNames s).1.ClusterName
        (poolCreateNames s).1.UserName (poolCreateNames s).1.OSDPoolName
        (poolCreateNames s).1.PGNum with
    | fail err =>
      refine ⟨fun _ out e h => ?_, fun h => ?_, fun h => ?_, fun _ out e h => ?_,
        fun h => ?_⟩
      · cases h
      · cases h
      · simp at h
      · cases h
      · cases h
    | ok out =>
      have hf := poolCreateFinish_created w (poolCreateDefaults (poolCreateNames s).1) σ
        (.osdPoolCreate (poolCreateNames s).1.OSDPoolName (poolCreateNames s).1.PGNum)
        (poolCreateNames s).1.OSDPoolName
      refine ⟨fun _ out e _ h => hf.1 e h, fun h => ?_, fun h => ?_,
        fun _ out2 e _ h => ?_, fun h => ?_⟩
      · cases h
      · exact hf.2 h
      · have hu := poolCreateFinish_unwinds w (poolCreateDefaults (poolCreateNames s).1) σ
          [.osdPoolCreate (poolCreateNames s).1.OSDPoolName (poolCreateNames s).1.PGNum]
          [.osdPoolDestroy (poolCreateNames s).1.OSDPoolName] e rfl h
        rw [hname _ rfl] at hu
        exact hu
      · cases h
  | true =>
    simp only [Bool.true_eq_false, if_false]
    refine ⟨fun h => ?_, fun _ => ?_, fun h => ?_, fun h => ?_, fun _ e h => ?_⟩
    · cases h
    · split
      · rfl
      · split
        · rfl
        · exact (poolCreateFinish_attached w _ σ).1
    · revert h
      split
      · intro h; simp at h
      · split
        · intro h; simp at h
        · intro h
          exact (poolCreateFinish_attached w _ σ).2 h
    · cases h
    · simp only [hx, Bool.true_eq_false, if_false] at hatt
      exact hatt trivial e h

theorem C12_pool_create_inverse_on_failure_witness :
    (StoragePoolCreate
      { demoCephWorld false false (.ok []) none with
        cephRBDVolumeCreate := fun _ _ _ _ _ _ => some (.ext "no space") }
      (demoCeph "p1" []) idleState).outcome = .err (.ext "no space") ∧
    (∃ pre, (StoragePoolCreate
      { demoCephWorld false false (.ok []) none with
        cephRBDVolumeCreate := fun _ _ _ _ _ _ => some (.ext "no space") }
      (demoCeph "p1" []) idleState).trace = pre ++ [.osdPoolDestroy "p1"]) ∧
    (StoragePoolCreate
      { demoCephWorld false false (.ok []) none with
        cephRBDVolumeCreate := fun _ _ _ _ _ _ => some (.ext "no space") }
      (demoCeph "p1" []) idleState).trace =
      [.osdPoolCreate "p1" "32", .MkdirAll "/var/lib/apollo/storage-pools/p1" 0o711,
       .rbdVolumeCreate "p1" "p1" "apollo" "0", .Remove "/var/lib/apollo/storage-pools/p1",
       .osdPoolDestroy "p1"] ∧
    (StoragePoolCreate
      { demoCephWorld true false (.ok []) none with
        cephRBDVolumeCreate := fun _ _ _ _ _ _ => some (.ext "no space") }
      (demoCeph "p1" []) idleState).trace =
      [.MkdirAll "/var/lib/apollo/storage-pools/p1" 0o711,
       .rbdVolumeCreate "p1" "p1" "apollo" "0",
       .Remove "/var/lib/apollo/storage-pools/p1"] :=
  ⟨by decide,
    (C12_pool_create_inverse_on_failure
      { demoCephWorld false false (.ok []) none with
        cephRBDVolumeCreate := fun _ _ _ _ _ _ => some (.ext "no space") }
      (demoCeph "p1" []) idleState (by decide)).1 (by decide) "" (.ext "no space")
      (by decide) (by decide),
    by decide, by decide⟩

/-- C13 (as amended): the ceph driver does not compare the source snapshot's
parent with the target. `ContainerCanRestore` returns nil for every pair of
containers, and `ContainerRestore`, once the storage of source and target has
started, issues one RBD rollback of the volume of the source's parent name to
"snapshot_<snapshot>", whatever the target's name, and returns the result of
that call. -/
theorem C13_restore_ignores_target (w : CephWorld) (s : storageCeph) (target : Container)
    (source : Container) (σ : CephState) (a b : Bool)
    (hs : source.StorageStart = .ok a) (ht : target.StorageStart = .ok b) :
    ContainerCanRestore s target source = none ∧
    (ContainerRestore w s target source σ).result =
      w.cephRBDVolumeRestore s.ClusterName s.OSDPoolName
        (containerGetParentAndSnapshotName source.Name).1 storagePoolVolumeTypeNameContainer
        ("snapshot_" ++ (containerGetParentAndSnapshotName source.Name).2.1) s.UserName ∧
    (ContainerRestore w s target source σ).trace.filter CephEvent.isVolumeRestore =
      [.rbdVolumeRestore s.OSDPoolName (containerGetParentAndSnapshotName source.Name).1
        storagePoolVolumeTypeNameContainer
        ("snapshot_" ++ (containerGetParentAndSnapshotName source.Name).2.1)] := by
  refine ⟨rfl, ?_, ?_⟩
  · unfold ContainerRestore
    simp only [hs, ht]
  · unfold ContainerRestore
    simp only [hs, ht]
    cases a <;> cases b <;> rfl

theorem C13_restore_ignores_target_witness :
    (ContainerRestore (demoCephWorld true true (.ok []) none) (demoCeph "p1" [])
      demoCephContainer { demoCephContainer with Name := "c2/snap0" } idleState).result =
      none :=
  (C13_restore_ignores_target (demoCephWorld true true (.ok []) none) (demoCeph "p1" [])
    demoCephContainer { demoCephContainer with Name := "c2/snap0" } idleState false false
    rfl rfl).2.1

/-- C13 (as stated) fails: for the target "c1" and the source snapshot
"c2/snap0", whose parent "c2" differs from the target's name,
`ContainerCanRestore` and `ContainerRestore` both return nil, and
`ContainerRestore` issues the RBD rollback of "container_c2" to
"snapshot_snap0". -/
theorem C13_restore_counterexample :
    (containerGetParentAndSnapshotName "c2/snap0").1 = "c2" ∧
    (containerGetParentAndSnapshotName "c2/snap0").1 ≠ demoCephContainer.Name ∧
    ContainerCanRestore (demoCeph "p1" []) demoCephContainer
      { demoCephContainer with Name := "c2/snap0" } = none ∧
    (ContainerRestore (demoCephWorld true true (.ok []) none) (demoCeph "p1" [])
      demoCephContainer { demoCephContainer with Name := "c2/snap0" } idleState).result =
      none ∧
    (ContainerRestore (demoCephWorld true true (.ok []) none) (demoCeph "p1" [])
      demoCephContainer { demoCephContainer with Name := "c2/snap0" } idleState).trace =
      [.StorageStart "c2/snap0", .StorageStart "c1",
       .rbdVolumeRestore "p1" "c2" "container" "snapshot_snap0"] := by
  decide

/-- C15 fails: the container "A" of pool "p1" has snapshots, with the stable
symlinks "containers/A" and "snapshots/A" in place. `ContainerRename` to "B"
succeeds, creates "containers/B" and moves the pool's snapshots directory, but
removes "snapshots/A" and creates no "snapshots/B"; renaming "B" back to "A"
succeeds as well and "snapshots/A", which existed before, does not exist
afterwards. -/
theorem C15_rename_loses_snapshots_symlink :
    demoRenameFiles.lookup "/var/lib/apollo/snapshots/A" =
      some (.symlink "/var/lib/apollo/storage-pools/p1/snapshots/A") ∧
    (ContainerRename (demoCephWorld true true (.ok []) none) (demoCeph "p1" [])
      (demoContainerNamed "A") "B" idleState demoRenameFiles).result = none ∧
    (ContainerRename (demoCephWorld true true (.ok []) none) (demoCeph "p1" [])
      (demoContainerNamed "A") "B" idleState demoRenameFiles).files =
      [("/var/lib/apollo/storage-pools/p1/snapshots/B", .dir),
       ("/var/lib/apollo/containers/B",
         .symlink "/var/lib/apollo/storage-pools/p1/containers/B"),
       ("/var/lib/apollo/storage-pools/p1/containers/B", .dir)] ∧
    PathExists (ContainerRename (demoCephWorld true true (.ok []) none) (demoCeph "p1" [])
      (demoContainerNamed "A") "B" idleState demoRenameFiles).files
      "/var/lib/apollo/snapshots/B" = false ∧
    (ContainerRename (demoCephWorld true true (.ok []) none) (demoCeph "p1" [])
      (demoContainerNamed "B") "A" idleState
      (ContainerRename (demoCephWorld true true (.ok []) none) (demoCeph "p1" [])
        (demoContainerNamed "A") "B" idleState demoRenameFiles).files).result = none ∧
    (ContainerRename (demoCephWorld true true (.ok []) none) (demoCeph "p1" [])
      (demoContainerNamed "B") "A" idleState
      (ContainerRename (demoCephWorld true true (.ok []) none) (demoCeph "p1" [])
        (demoContainerNamed "A") "B" idleState demoRenameFiles).files).files =
      [("/var/lib/apollo/storage-pools/p1/snapshots/A", .dir),
       ("/var/lib/apollo/containers/A",
         .symlink "/var/lib/apollo/storage-pools/p1/containers/A"),
       ("/var/lib/apollo/storage-pools/p1/containers/A", .dir)] ∧
    PathExists (ContainerRename (demoCephWorld true true (.ok []) none) (demoCeph "p1" [])
      (demoContainerNamed "B") "A" idleState
      (ContainerRename (demoCephWorld true true (.ok []) none) (demoCeph "p1" [])
        (demoContainerNamed "A") "B" idleState demoRenameFiles).files).files
      "/var/lib/apollo/snapshots/A" = false := by
  decide

theorem ContainerMount_no_copy (w : CephWorld) (s : storageCeph) (name : String)
    (σ : CephState) :
    (ContainerMount w s name σ).trace.filter CephEvent.isCopyWithSnapshots = [] := by
  unfold ContainerMount
  dsimp only
  split
  · rfl
  · split
    · split
      · split <;> rfl
      · rfl
    · rfl

theorem ContainerUmount_no_copy (w : CephWorld) (s : storageCeph) (name : String)
    (σ : CephState) :
    (ContainerUmount w s name σ).trace.filter CephEvent.isCopyWithSnapshots = [] := by
  unfold ContainerUmount
  dsimp only
  split
  · rfl
  · split
    · split <;> rfl
    · rfl

theorem createContainerMountpoint_no_copy (w : CephWorld) (m l : String) (p : Bool) :
    (createContainerMountpoint w m l p).2.filter CephEvent.isCopyWithSnapshots = [] := by
  unfold createContainerMountpoint
  dsimp only
  have hmade : ∀ b : Bool,
      (if b = false then (w.MkdirAll m 0o755, [CephEvent.MkdirAll m 0o755])
        else (none, [])).2.filter CephEvent.isCopyWithSnapshots = [] := by
    intro b
    cases b <;> rfl
  split
  · exact hmade _
  · split
    · simp only [List.filter_append, hmade]
      rfl
    · split
      · simp only [List.filter_append, hmade]
        rfl
      · simp only [List.filter_append, hmade]
        rfl

theorem createSnapshotMountpoint_no_copy (w : CephWorld) (a b c : String) :
    (createSnapshotMountpoint w a b c).2.filter CephEvent.isCopyWithSnapshots = [] := by
  unfold createSnapshotMountpoint
  dsimp only
  have hmade : ∀ x : Bool,
      (if x = false then (w.MkdirAll a 0o711, [CephEvent.MkdirAll a 0o711])
        else (none, [])).2.filter CephEvent.isCopyWithSnapshots = [] := by
    intro x
    cases x <;> rfl
  split
  · exact hmade _
  · split
    · simp only [List.filter_append, hmade]
      rfl
    · exact hmade _

theorem runDeferred_false_no_copy (ds : List Deferred)
    (hds : ∀ d ∈ ds, ∀ σ, (d false σ).2.filter CephEvent.isCopyWithSnapshots = [])
    (σ : CephState) :
    (runDeferred false ds σ).2.filter CephEvent.isCopyWithSnapshots = [] := by
  induction ds generalizing σ with
  | nil => rfl
  | cons d ds ih =>
    simp only [runDeferred, List.filter_append]
    rw [hds d (List.mem_cons_self _ _) σ,
      ih (fun d2 hd2 => hds d2 (List.mem_cons_of_mem _ hd2))]
    rfl

theorem quiet_cons (d : Deferred) (ds : List Deferred)
    (hd : ∀ σ, (d false σ).2.filter CephEvent.isCopyWithSnapshots = [])
    (hds : ∀ d ∈ ds, ∀ σ, (d false σ).2.filter CephEvent.isCopyWithSnapshots = []) :
    ∀ d2 ∈ d :: ds, ∀ σ, (d2 false σ).2.filter CephEvent.isCopyWithSnapshots = [] := by
  intro d2 hd2 σ
  rcases List.mem_cons.1 hd2 with h | h
  · subst h
    exact hd σ
  · exact hds d2 h σ

theorem chainedTransfers_length (osdPool source target : String) (names : List String) :
    ∀ prev, (chainedTransfers osdPool source target prev names).length = names.length + 1 := by
  induction names with
  | nil => intro prev; rfl
  | cons n rest ih =>
    intro prev
    simp [chainedTransfers, ih]

theorem copySnapshots_chain (w : CephWorld) (s : storageCeph) (src tgt : String)
    (snaps : List String) :
    ∀ (previous : Option String) (ds : List Deferred) (tr : List CephEvent) (last : String),
      last = (match previous with
        | some before => "snapshot_" ++ (containerGetParentAndSnapshotName before).2.1
        | none => "") →
      (∀ d ∈ ds, ∀ σ, (d false σ).2.filter CephEvent.isCopyWithSnapshots = []) →
      (copySnapshots w s src tgt (s.OSDPoolName ++ "/container_" ++ tgt) previous snaps ds tr
        last).err = none →
      (copySnapshots w s src tgt (s.OSDPoolName ++ "/container_" ++ tgt) previous snaps ds tr
          last).trace.filter CephEvent.isCopyWithSnapshots ++
        [.copyWithSnapshots (s.OSDPoolName ++ "/container_" ++ src)
          (s.OSDPoolName ++ "/container_" ++ tgt)
          (copySnapshots w s src tgt (s.OSDPoolName ++ "/container_" ++ tgt) previous snaps
            ds tr last).lastSnap] =
        tr.filter CephEvent.isCopyWithSnapshots ++
          chainedTransfers s.OSDPoolName src tgt last
            (snaps.map (fun n => (containerGetParentAndSnapshotName n).2.1)) ∧
      (∀ d ∈ (copySnapshots w s src tgt (s.OSDPoolName ++ "/container_" ++ tgt) previous
          snaps ds tr last).deferred,
        ∀ σ, (d false σ).2.filter CephEvent.isCopyWithSnapshots = []) := by
  induction snaps with
  | nil =>
    intro previous ds tr last _ hds _
    exact ⟨rfl, hds⟩
  | cons snap rest ih =>
    intro previous ds tr last hlast hds herr
    simp only [copySnapshots] at herr ⊢
    rw [← hlast] at herr ⊢
    cases hc : w.copyWithSnapshots
        (s.OSDPoolName ++ "/container_" ++ src ++ "@snapshot_" ++
          (containerGetParentAndSnapshotName snap).2.1)
        (s.OSDPoolName ++ "/container_" ++ tgt) last with
    | some e => simp [hc] at herr
    | none =>
      simp only [hc] at herr ⊢
      cases hm : (createSnapshotMountpoint w
          (getSnapshotMountPoint w.VarPath s.pool.name
            (tgt ++ "/" ++ (containerGetParentAndSnapshotName snap).2.1))
          (w.VarPath ["storage-pools", s.pool.name, "snapshots", tgt])
          (w.VarPath ["snapshots", tgt])).1 with
      | some e => simp [hm] at herr
      | none =>
        simp only [hm] at herr ⊢
        have hq := quiet_cons
          (revertHelper (deleteSnapshotMountpoint w
            (getSnapshotMountPoint w.VarPath s.pool.name
              (tgt ++ "/" ++ (containerGetParentAndSnapshotName snap).2.1))
            (w.VarPath ["storage-pools", s.pool.name, "snapshots", tgt])
            (w.VarPath ["snapshots", tgt]))) _
          (fun _ => rfl)
          (quiet_cons
            (revertCall (.rbdSnapshotDelete s.OSDPoolName tgt
              storagePoolVolumeTypeNameContainer
              (containerGetParentAndSnapshotName snap).2.1)) ds (fun _ => rfl) hds)
        have h := ih (some snap) _ _ _ rfl hq herr
        refine ⟨?_, h.2⟩
        rw [h.1]
        simp only [List.filter_append, createSnapshotMountpoint_no_copy, List.map_cons,
          chainedTransfers, List.append_nil, List.append_assoc]
        rfl

theorem copyReturn_result (err : Option Err) (revert : Bool) (ds : List Deferred)
    (σ : CephState) (tr : List CephEvent) : (copyReturn err revert ds σ tr).result = err :=
  rfl

theorem copyReturn_false_trace (ds : List Deferred)
    (hds : ∀ d ∈ ds, ∀ σ, (d false σ).2.filter CephEvent.isCopyWithSnapshots = [])
    (σ : CephState) (tr : List CephEvent) :
    (copyReturn none false ds σ tr).trace.filter CephEvent.isCopyWithSnapshots =
      tr.filter CephEvent.isCopyWithSnapshots := by
  simp only [copyReturn, List.filter_append, runDeferred_false_no_copy ds hds,
    List.append_nil]

theorem copyMountAndTemplate_trace (w : CephWorld) (s : storageCeph) (target : Container)
    (ds : List Deferred)
    (hds : ∀ d ∈ ds, ∀ σ, (d false σ).2.filter CephEvent.isCopyWithSnapshots = [])
    (σ : CephState) (tr : List CephEvent)
    (hok : (copyMountAndTemplate w s target ds σ tr).result = none) :
    (copyMountAndTemplate w s target ds σ tr).trace.filter CephEvent.isCopyWithSnapshots =
      tr.filter CephEvent.isCopyWithSnapshots := by
  unfold copyMountAndTemplate at hok ⊢
  dsimp only at hok ⊢
  cases hm : (ContainerMount w s target.Name σ).result.2 with
  | some e => simp [hm, copyReturn_result] at hok
  | none =>
    simp only [hm] at hok ⊢
    cases ht : target.TemplateApply "copy" with
    | some e => simp [ht, copyReturn_result] at hok
    | none =>
      simp only []
      rw [copyReturn_false_trace]
      · simp [List.filter_append, ContainerMount_no_copy, CephEvent.isCopyWithSnapshots]
      · split
        · exact quiet_cons _ ds (fun σ2 => ContainerUmount_no_copy w s target.Name σ2) hds
        · exact hds

theorem copyIncludingSnapshots_trace (w : CephWorld) (s : storageCeph) (target : Container)
    (src : String) (snapshots : List String) (ds : List Deferred)
    (hds : ∀ d ∈ ds, ∀ σ, (d false σ).2.filter CephEvent.isCopyWithSnapshots = [])
    (σ : CephState) (tr : List CephEvent)
    (htr : tr.filter CephEvent.isCopyWithSnapshots = [])
    (hok : (copyIncludingSnapshots w s target src snapshots ds σ tr).result = none) :
    (copyIncludingSnapshots w s target src snapshots ds σ tr).trace.filter
        CephEvent.isCopyWithSnapshots =
      chainedTransfers s.OSDPoolName src target.Name ""
        (snapshots.map (fun n => (containerGetParentAndSnapshotName n).2.1)) := by
  unfold copyIncludingSnapshots at hok ⊢
  dsimp only at hok ⊢
  cases hmp : (createContainerMountpoint w
      (getContainerMountPoint w.VarPath s.pool.name target.Name) target.Path
      target.IsPrivileged).1 with
  | some e => simp [hmp, copyReturn_result] at hok
  | none =>
    simp only [hmp] at hok ⊢
    cases hvc : w.cephRBDVolumeCreate s.ClusterName s.OSDPoolName target.Name
        storagePoolVolumeTypeNameContainer "0" s.UserName with
    | some e => simp [hvc, copyReturn_result] at hok
    | none =>
      simp only [hvc] at hok ⊢
      have hq := quiet_cons
        (revertCall (.rbdVolumeDelete s.OSDPoolName target.Name
          storagePoolVolumeTypeNameContainer)) _ (fun _ => rfl)
        (quiet_cons
          (revertHelper (deleteContainerMountpoint w
            (getContainerMountPoint w.VarPath s.pool.name target.Name) target.Path ""))
          ds (fun _ => rfl) hds)
      generalize hloop : copySnapshots w s src target.Name
        (s.OSDPoolName ++ "/container_" ++ target.Name) none snapshots
        (revertCall (.rbdVolumeDelete s.OSDPoolName target.Name
            storagePoolVolumeTypeNameContainer) ::
          revertHelper (deleteContainerMountpoint w
            (getContainerMountPoint w.VarPath s.pool.name target.Name) target.Path "") :: ds)
        (tr ++ (createContainerMountpoint w
            (getContainerMountPoint w.VarPath s.pool.name target.Name) target.Path
            target.IsPrivileged).2 ++
          [.rbdVolumeCreate s.OSDPoolName target.Name storagePoolVolumeTypeNameContainer "0"])
        "" = loop at hok ⊢
      cases herr : loop.err with
      | some e => simp [herr, copyReturn_result] at hok
      | none =>
        simp only [herr] at hok ⊢
        have hchain := copySnapshots_chain w s src target.Name snapshots none _ _ "" rfl hq
          (by rw [hloop]; exact herr)
        rw [hloop] at hchain
        have hpre : (tr ++ (createContainerMountpoint w
            (getContainerMountPoint w.VarPath s.pool.name target.Name) target.Path
            target.IsPrivileged).2 ++
          [CephEvent.rbdVolumeCreate s.OSDPoolName target.Name
            storagePoolVolumeTypeNameContainer "0"]).filter
            CephEvent.isCopyWithSnapshots = [] := by
          simp only [List.filter_append, htr, createContainerMountpoint_no_copy]
          rfl
        rw [hpre, List.nil_append] at hchain
        cases hfin : w.copyWithSnapshots (s.OSDPoolName ++ "/container_" ++ src)
            (s.OSDPoolName ++ "/container_" ++ target.Name) loop.lastSnap with
        | some e => simp [hfin, copyReturn_result] at hok
        | none =>
          simp only [hfin] at hok ⊢
          cases hmap : w.cephRBDVolumeMap s.ClusterName s.OSDPoolName target.Name
              storagePoolVolumeTypeNameContainer s.UserName with
          | fail e => simp [hmap, copyReturn_result] at hok
          | ok dev =>
            simp only [hmap] at hok ⊢
            rw [copyMountAndTemplate_trace w s target loop.deferred hchain.2 σ _ hok]
            rw [← hchain.1]
            simp [List.filter_append, CephEvent.isCopyWithSnapshots]

/-- C14: a successful `ContainerCopy` with `containerOnly` false, on a source
whose `Snapshots()` returns s1..sn with n at least 1, issues exactly n+1
`copyWithSnapshots` transfers onto "<osdpool>/container_<target>", in this
order: for each snapshot the volume "<osdpool>/container_<source>@snapshot_<si>"
with parent "" for the first and "snapshot_<s(i-1)>" afterwards, and last the
live volume "<osdpool>/container_<source>" with parent "snapshot_<sn>". -/
theorem C14_copy_chains_snapshots (w : CephWorld) (s : storageCeph) (target : Container)
    (source : Container) (σ : CephState) (snapshots : List String)
    (hpool : source.PoolName = target.PoolName)
    (hsnaps : source.Snapshots = .ok snapshots) (hne : snapshots ≠ [])
    (hok : (ContainerCopy w s target source false σ).result = none) :
    (ContainerCopy w s target source false σ).trace.filter CephEvent.isCopyWithSnapshots =
      chainedTransfers s.OSDPoolName source.Name target.Name ""
        (snapshots.map (fun n => (containerGetParentAndSnapshotName n).2.1)) ∧
    ((ContainerCopy w s target source false σ).trace.filter
      CephEvent.isCopyWithSnapshots).length = snapshots.length + 1 := by
  have hlen : ¬ (false = true ∨ snapshots.length = 0) := by
    intro h
    rcases h with h | h
    · cases h
    · exact hne (List.length_eq_zero.1 h)
  have main : (ContainerCopy w s target source false σ).trace.filter
      CephEvent.isCopyWithSnapshots =
      chainedTransfers s.OSDPoolName source.Name target.Name ""
        (snapshots.map (fun n => (containerGetParentAndSnapshotName n).2.1)) := by
    unfold ContainerCopy at hok ⊢
    dsimp only at hok ⊢
    cases hstart : source.StorageStart with
    | fail e => simp [hstart] at hok
    | ok ourStart =>
      simp only [hstart, hpool, ne_eq, not_true_eq_false, if_false, hsnaps, hlen] at hok ⊢
      refine copyIncludingSnapshots_trace w s target source.Name snapshots _ ?_ σ _ rfl hok
      cases ourStart
      · intro d hd
        cases hd
      · intro d hd σ2
        rcases List.mem_singleton.1 hd with h
        subst h
        rfl
  refine ⟨main, ?_⟩
  rw [main, chainedTransfers_length, List.length_map]

theorem C14_copy_chains_snapshots_witness :
    (ContainerCopy (demoCephWorld true true (.ok []) none) (demoCeph "p1" [])
      (demoContainerNamed "t")
      { demoContainerNamed "s" with Snapshots := .ok ["s/a", "s/b"] } false
      idleState).trace.filter CephEvent.isCopyWithSnapshots =
      [.copyWithSnapshots "p1/container_s@snapshot_a" "p1/container_t" "",
       .copyWithSnapshots "p1/container_s@snapshot_b" "p1/container_t" "snapshot_a",
       .copyWithSnapshots "p1/container_s" "p1/container_t" "snapshot_b"] :=
  (C14_copy_chains_snapshots (demoCephWorld true true (.ok []) none) (demoCeph "p1" [])
    (demoContainerNamed "t")
    { demoContainerNamed "s" with Snapshots := .ok ["s/a", "s/b"] } idleState
    ["s/a", "s/b"] rfl rfl (by decide) (by decide)).1.trans (by decide)

theorem startsWith_length (sub : List Char) :
    ∀ s, startsWith sub s = true → sub.length ≤ s.length := by
  induction sub with
  | nil => intro s _; simp
  | cons a sub ih =>
    intro s h
    cases s with
    | nil => simp [startsWith] at h
    | cons b s =>
      simp only [startsWith, Bool.and_eq_true] at h
      have := ih s h.2
      simp only [List.length_cons]
      omega

theorem startsWith_append (sub rest : List Char) : startsWith sub (sub ++ rest) = true := by
  induction sub with
  | nil => simp [startsWith]
  | cons a sub ih => simp [startsWith, ih]

theorem indexFrom_spec (sub : List Char) :
    ∀ (l : List Char) (i j : Nat), indexFrom sub l i = some j →
      i ≤ j ∧ startsWith sub (l.drop (j - i)) = true ∧ (j - i) + sub.length ≤ l.length ∧
      ∀ k, k < j - i → startsWith sub (l.drop k) = false := by
  intro l
  induction l with
  | nil =>
    intro i j h
    unfold indexFrom at h
    by_cases hs : startsWith sub [] = true
    · simp only [hs, if_true, Option.some.injEq] at h
      subst h
      have hl := startsWith_length sub [] hs
      refine ⟨le_refl _, by simpa using hs, by simpa using hl, fun k hk => ?_⟩
      omega
    · simp [hs] at h
  | cons c cs ih =>
    intro i j h
    unfold indexFrom at h
    by_cases hs : startsWith sub (c :: cs) = true
    · simp only [hs, if_true, Option.some.injEq] at h
      subst h
      have hl := startsWith_length sub (c :: cs) hs
      refine ⟨le_refl _, by simpa using hs, by simpa using hl, fun k hk => ?_⟩
      omega
    · simp only [hs, Bool.false_eq_true, if_false] at h
      obtain ⟨h1, h2, h3, h4⟩ := ih (i + 1) j h
      have hji : j - i = (j - (i + 1)) + 1 := by omega
      refine ⟨by omega, ?_, ?_, fun k hk => ?_⟩
      · rw [hji, List.drop_succ_cons]
        exact h2
      · simp only [List.length_cons]
        omega
      · cases k with
        | zero => simpa using hs
        | succ k =>
          rw [List.drop_succ_cons]
          exact h4 k (by omega)

theorem stringsIndex_spec (msg sub : String) (h : 0 ≤ stringsIndex msg sub) :
    startsWith sub.data (msg.data.drop (stringsIndex msg sub).toNat) = true ∧
    (stringsIndex msg sub).toNat + sub.data.length ≤ msg.data.length ∧
    ∀ k, k < (stringsIndex msg sub).toNat → startsWith sub.data (msg.data.drop k) = false := by
  unfold stringsIndex at h ⊢
  cases hi : indexFrom sub.data msg.data 0 with
  | none => simp [hi] at h
  | some j =>
    obtain ⟨_, h2, h3, h4⟩ := indexFrom_spec sub.data msg.data 0 j hi
    simp only [Nat.sub_zero] at h2 h3 h4
    simp only [Int.toNat_ofNat]
    exact ⟨h2, h3, h4⟩

theorem sliceFrom_after_marker (msg : String) (h : 0 ≤ stringsIndex msg "pg_num:") :
    sliceFrom msg (stringsIndex msg "pg_num:" + ("pg_num:".length : Int)) =
      some ⟨msg.data.drop ((stringsIndex msg "pg_num:").toNat + 7)⟩ := by
  have hlen := (stringsIndex_spec msg "pg_num:" h).2.1
  have h7 : "pg_num:".data.length = 7 := rfl
  have h7b : ("pg_num:".length : Int) = 7 := rfl
  have hml : msg.length = msg.data.length := rfl
  rw [h7] at hlen
  unfold sliceFrom
  rw [h7b, hml]
  have hnot : ¬ (stringsIndex msg "pg_num:" + 7 < 0 ∨
      stringsIndex msg "pg_num:" + 7 > (msg.data.length : Int)) := by
    omega
  rw [if_neg hnot]
  have ht : (stringsIndex msg "pg_num:" + 7).toNat = (stringsIndex msg "pg_num:").toNat + 7 := by
    omega
  rw [ht]

theorem getConfig_ite_setConfig (d : storageCeph) (k k2 v : String) (c : Prop) [Decidable c]
    (h : k2 ≠ k) : (if c then d.setConfig k v else d).getConfig k2 = d.getConfig k2 := by
  split
  · exact getConfig_setConfig_other d k k2 v h
  · rfl

theorem poolCreateDefaults_pg_num (d : storageCeph) :
    (poolCreateDefaults d).getConfig "ceph.osd.pg_num" =
      (if d.getConfig "ceph.osd.pg_num" = "" then "32" else d.getConfig "ceph.osd.pg_num") := by
  unfold poolCreateDefaults
  dsimp only
  have a1 := getConfig_ite_setConfig d "source" "ceph.osd.pg_num" d.OSDPoolName
    (d.getConfig "source" = "") (by decide)
  generalize (if d.getConfig "source" = "" then d.setConfig "source" d.OSDPoolName
      else d) = d1 at a1 ⊢
  have a2 := getConfig_ite_setConfig d1 "ceph.cluster_name" "ceph.osd.pg_num" "ceph"
    (d1.getConfig "ceph.cluster_name" = "") (by decide)
  generalize (if d1.getConfig "ceph.cluster_name" = "" then
      d1.setConfig "ceph.cluster_name" "ceph" else d1) = d2 at a2 ⊢
  have a3 := getConfig_ite_setConfig d2 "ceph.osd.pool_name" "ceph.osd.pg_num" d2.pool.name
    (d2.getConfig "ceph.osd.pool_name" = "") (by decide)
  generalize (if d2.getConfig "ceph.osd.pool_name" = "" then
      d2.setConfig "ceph.osd.pool_name" d2.pool.name else d2) = d3 at a3 ⊢
  have e : d3.getConfig "ceph.osd.pg_num" = d.getConfig "ceph.osd.pg_num" := by
    rw [a3, a2, a1]
  rw [← e]
  split
  · exact getConfig_setConfig_same d3 _ _
  · rfl

theorem poolCreateFinish_getConfig (w : CephWorld) (d : storageCeph) (ds : List Deferred)
    (σ : CephState) (before : List CephEvent) (k : String)
    (hk : k ≠ "volatile.pool.pristine") :
    (poolCreateFinish w d ds σ before).driver.getConfig k = d.getConfig k := by
  have hp := getConfig_setConfig_other d "volatile.pool.pristine" k "false" hk
  have hq := getConfig_setConfig_other (d.setConfig "volatile.pool.pristine" "false")
    "volatile.pool.pristine" k "true" hk
  unfold poolCreateFinish
  dsimp only
  split
  · rfl
  · split
    · split
      · rw [hq, hp]
      · rw [hq, hp]
    · exact hp

theorem StoragePoolCreate_attached_pg_num (w : CephWorld) (s : storageCeph) (σ : CephState)
    (msg : String) (hnames : (poolCreateNames s).2 = true)
    (hexists : w.cephOSDPoolExists (poolCreateNames s).1.ClusterName
      (poolCreateNames s).1.OSDPoolName (poolCreateNames s).1.UserName = true)
    (hget : w.osdPoolGetPgNum (poolCreateNames s).1.ClusterName (poolCreateNames s).1.UserName
      (poolCreateNames s).1.OSDPoolName = .ok msg)
    (hcontains : 0 ≤ stringsIndex msg "pg_num:") :
    (StoragePoolCreate w s σ).driver.getConfig "ceph.osd.pg_num" =
      (if TrimSpace ⟨msg.data.drop ((stringsIndex msg "pg_num:").toNat + 7)⟩ = "" then "32"
        else TrimSpace ⟨msg.data.drop ((stringsIndex msg "pg_num:").toNat + 7)⟩) := by
  unfold StoragePoolCreate
  dsimp only
  simp only [hnames, hexists, Bool.true_eq_false, if_false, hget,
    sliceFrom_after_marker msg hcontains]
  rw [poolCreateFinish_getConfig _ _ _ _ _ _ (by decide), poolCreateDefaults_pg_num,
    getConfig_setConfig_same]

theorem dropWhile_isSpace_of_head (c : Char) (t : List Char) (h : isSpace c = false) :
    (c :: t).dropWhile isSpace = c :: t := by
  simp [List.dropWhile, h]

theorem TrimSpace_number_line (N : String) (hne : N ≠ "")
    (hN : ∀ c ∈ N.data, isSpace c = false) :
    TrimSpace ⟨' ' :: (N.data ++ ['\n'])⟩ = N := by
  obtain ⟨l⟩ := N
  have hl : l ≠ [] := fun e => hne (by rw [e])
  simp only at hN
  unfold TrimSpace
  congr 1
  show (((' ' :: (l ++ ['\n'])).dropWhile isSpace).reverse.dropWhile isSpace).reverse = l
  have hsp : isSpace ' ' = true := by decide
  have hnl : isSpace '\n' = true := by decide
  have h1 : (' ' :: (l ++ ['\n'])).dropWhile isSpace = l ++ ['\n'] := by
    cases l with
    | nil => exact absurd rfl hl
    | cons c t =>
      rw [List.dropWhile_cons_of_pos hsp]
      exact dropWhile_isSpace_of_head c _ (hN c (List.mem_cons_self _ _))
  rw [h1, List.reverse_append, List.reverse_singleton, List.singleton_append,
    List.dropWhile_cons_of_pos hnl]
  have h2 : l.reverse.dropWhile isSpace = l.reverse := by
    cases hr : l.reverse with
    | nil => rfl
    | cons c t =>
      apply dropWhile_isSpace_of_head
      apply hN
      have : c ∈ l.reverse := by rw [hr]; exact List.mem_cons_self _ _
      exact List.mem_reverse.1 this
  rw [h2, List.reverse_reverse]

theorem stringsIndex_at_start (N : String) :
    stringsIndex ("pg_num: " ++ N ++ "\n") "pg_num:" = 0 := by
  unfold stringsIndex
  have hd : ("pg_num: " ++ N ++ "\n").data = "pg_num:".data ++ (' ' :: (N.data ++ ['\n'])) := by
    simp only [String.data_append]
    rfl
  rw [hd]
  have hs := startsWith_append "pg_num:".data (' ' :: (N.data ++ ['\n']))
  have : indexFrom "pg_num:".data ("pg_num:".data ++ (' ' :: (N.data ++ ['\n']))) 0 = some 0 := by
    show indexFrom "pg_num:".data ('p' :: (['g', '_', 'n', 'u', 'm', ':'] ++
      (' ' :: (N.data ++ ['\n'])))) 0 = some 0
    unfold indexFrom
    exact if_pos hs
  rw [this]
  rfl

/-- C21 (as amended): when the ceph `StoragePoolCreate` attaches to an existing
OSD pool and the output of `ceph osd pool get <pool> pg_num` contains "pg_num:",
the text is cut after the first occurrence of "pg_num:" and trimmed of leading
and trailing whitespace; the key "ceph.osd.pg_num" holds that trimmed text after
the call when it is not empty, and the default "32" when nothing but whitespace
follows the marker. For the output "pg_num: N\n" with a non-empty `N` free of
whitespace the key is exactly `N`. -/
theorem C21_pg_num_parsed (w : CephWorld) (s : storageCeph) (σ : CephState) (msg : String)
    (hnames : (poolCreateNames s).2 = true)
    (hexists : w.cephOSDPoolExists (poolCreateNames s).1.ClusterName
      (poolCreateNames s).1.OSDPoolName (poolCreateNames s).1.UserName = true)
    (hget : w.osdPoolGetPgNum (poolCreateNames s).1.ClusterName (poolCreateNames s).1.UserName
      (poolCreateNames s).1.OSDPoolName = .ok msg)
    (hcontains : 0 ≤ stringsIndex msg "pg_num:") :
    startsWith "pg_num:".data (msg.data.drop (stringsIndex msg "pg_num:").toNat) = true ∧
    (∀ k, k < (stringsIndex msg "pg_num:").toNat →
      startsWith "pg_num:".data (msg.data.drop k) = false) ∧
    (StoragePoolCreate w s σ).driver.getConfig "ceph.osd.pg_num" =
      (if TrimSpace ⟨msg.data.drop ((stringsIndex msg "pg_num:").toNat + 7)⟩ = "" then "32"
        else TrimSpace ⟨msg.data.drop ((stringsIndex msg "pg_num:").toNat + 7)⟩) ∧
    (∀ N : String, msg = "pg_num: " ++ N ++ "\n" → N ≠ "" →
      (∀ c ∈ N.data, isSpace c = false) →
      (StoragePoolCreate w s σ).driver.getConfig "ceph.osd.pg_num" = N) := by
  have hspec := stringsIndex_spec msg "pg_num:" hcontains
  have hcfg := StoragePoolCreate_attached_pg_num w s σ msg hnames hexists hget hcontains
  refine ⟨hspec.1, hspec.2.2, hcfg, fun N hmsg hne hN => ?_⟩
  rw [hcfg]
  subst hmsg
  rw [stringsIndex_at_start N]
  have hd : (("pg_num: " ++ N ++ "\n").data.drop ((0 : Int).toNat + 7)) =
      ' ' :: (N.data ++ ['\n']) := by
    simp only [String.data_append]
    rfl
  rw [hd, TrimSpace_number_line N hne hN, if_neg hne]

theorem C21_pg_num_parsed_witness :
    (StoragePoolCreate (demoCephWorld true true (.ok []) none) (demoCeph "p1" [])
      idleState).driver.getConfig "ceph.osd.pg_num" = "8" :=
  (C21_pg_num_parsed (demoCephWorld true true (.ok []) none) (demoCeph "p1" []) idleState
    "pg_num: 8\n" (by decide) (by decide) (by decide) (by decide)).2.2.2 "8" (by decide)
    (by decide) (by decide)

/-- C21 (as stated) fails: for the output "pg_num: \n", which contains
"pg_num:", the part after the marker trimmed of whitespace is the empty string,
and "ceph.osd.pg_num" after the call is "32". -/
theorem C21_pg_num_counterexample :
    0 ≤ stringsIndex "pg_num: \n" "pg_num:" ∧
    TrimSpace ⟨"pg_num: \n".data.drop ((stringsIndex "pg_num: \n" "pg_num:").toNat + 7)⟩ = "" ∧
    (StoragePoolCreate
      { demoCephWorld true true (.ok []) none with
        osdPoolGetPgNum := fun _ _ _ => .ok "pg_num: \n" }
      (demoCeph "p1" []) idleState).outcome = .ret () ∧
    (StoragePoolCreate
      { demoCephWorld true true (.ok []) none with
        osdPoolGetPgNum := fun _ _ _ => .ok "pg_num: \n" }
      (demoCeph "p1" []) idleState).driver.getConfig "ceph.osd.pg_num" = "32" := by
  decide

/-- C30 fails: the output of `ceph osd pool get <pool> pg_num` is the empty
string, or "error", neither of which contains "pg_num:"; `strings.Index` yields
-1 and the slice expression `msg[6:]` is out of range, so `StoragePoolCreate`
panics. -/
theorem C30_pg_num_slice_panics :
    stringsIndex "" "pg_num:" = -1 ∧
    sliceFrom "" (stringsIndex "" "pg_num:" + ("pg_num:".length : Int)) = none ∧
    (StoragePoolCreate
      { demoCephWorld true true (.ok []) none with osdPoolGetPgNum := fun _ _ _ => .ok "" }
      (demoCeph "p1" []) idleState).outcome = .panics ∧
    (StoragePoolCreate
      { demoCephWorld true true (.ok []) none with
        osdPoolGetPgNum := fun _ _ _ => .ok "error" }
      (demoCeph "p1" []) idleState).outcome = .panics := by
  decide

theorem release_restores (σ σ2 : CephState) (id : String) (hid : id ∉ σ.ongoing)
    (h2 : σ2.ongoing = id :: σ.ongoing) : (mapCloseDelete σ2 id).ongoing = σ.ongoing := by
  unfold mapCloseDelete
  simp only [h2]
  rw [List.filter_cons_of_neg (by simp)]
  apply List.filter_eq_self.2
  intro a ha
  have : a ≠ id := fun e => hid (e ▸ ha)
  simpa using this

theorem ContainerMount_ongoing (w : CephWorld) (s : storageCeph) (name : String)
    (σ : CephState) : (ContainerMount w s name σ).state.ongoing = σ.ongoing := by
  unfold ContainerMount
  dsimp only
  split
  · rfl
  · rename_i hid
    split
    · split
      · split
        · apply release_restores σ _ _ hid
          split <;> rfl
        · apply release_restores σ _ _ hid
          split <;> rfl
      · exact release_restores σ _ _ hid rfl
    · exact release_restores σ _ _ hid rfl

theorem ContainerUmount_ongoing (w : CephWorld) (s : storageCeph) (name : String)
    (σ : CephState) : (ContainerUmount w s name σ).state.ongoing = σ.ongoing := by
  unfold ContainerUmount
  dsimp only
  split
  · rfl
  · rename_i hid
    split
    · split
      · apply release_restores σ _ _ hid
        split <;> rfl
      · apply release_restores σ _ _ hid
        split <;> rfl
    · exact release_restores σ _ _ hid rfl

theorem StoragePoolVolumeMount_ongoing (w : CephWorld) (s : storageCeph) (σ : CephState) :
    (StoragePoolVolumeMount w s σ).state.ongoing = σ.ongoing := by
  unfold StoragePoolVolumeMount
  dsimp only
  split
  · rfl
  · rename_i hid
    split
    · split
      · apply release_restores σ _ _ hid
        split <;> rfl
      · apply release_restores σ _ _ hid
        split <;> rfl
    · exact release_restores σ _ _ hid rfl

theorem StoragePoolVolumeUmount_ongoing (w : CephWorld) (s : storageCeph) (σ : CephState) :
    (StoragePoolVolumeUmount w s σ).state.ongoing = σ.ongoing := by
  unfold StoragePoolVolumeUmount
  dsimp only
  split
  · rfl
  · rename_i hid
    split
    · split
      · apply release_restores σ _ _ hid
        split <;> rfl
      · apply release_restores σ _ _ hid
        split <;> rfl
    · exact release_restores σ _ _ hid rfl

theorem imageStage_ongoing (w : CephWorld) (s : storageCeph) (f : String) (σ : CephState) :
    (imageStage w s f σ).state.ongoing = σ.ongoing := by
  unfold imageStage
  dsimp only
  split
  · rfl
  · rename_i hid
    exact release_restores σ _ _ hid rfl

theorem runDeferred_ongoing (revert : Bool) (ds : List Deferred)
    (hds : ∀ d ∈ ds, ∀ r σ, (d r σ).1.ongoing = σ.ongoing) (σ : CephState) :
    (runDeferred revert ds σ).1.ongoing = σ.ongoing := by
  induction ds generalizing σ with
  | nil => rfl
  | cons d ds ih =>
    simp only [runDeferred]
    rw [ih (fun d2 hd2 => hds d2 (List.mem_cons_of_mem _ hd2)),
      hds d (List.mem_cons_self _ _) revert σ]

theorem revertCall_ongoing (e : CephEvent) :
    ∀ r σ, (revertCall e r σ).1.ongoing = σ.ongoing := by
  intro r σ
  cases r <;> rfl

theorem createFromImageBody_ongoing (w : CephWorld) (s : storageCeph)
    (c : Container) (f : String) (σ : CephState) :
    (createFromImageBody w s c f σ).state.ongoing = σ.ongoing ∧
    ∀ d ∈ (createFromImageBody w s c f σ).deferred, ∀ r σ2,
      (d r σ2).1.ongoing = σ2.ongoing := by
  have hr := revertCall_ongoing
  have hm := ContainerMount_ongoing w s c.Name σ
  have hum : ∀ d ∈ (if (ContainerMount w s c.Name σ).result.1 = true then
        [(fun _ σ2 => ((ContainerUmount w s c.Name σ2).state,
          (ContainerUmount w s c.Name σ2).trace) : Deferred)]
      else []), ∀ r σ2, (d r σ2).1.ongoing = σ2.ongoing := by
    intro d hd r σ2
    split at hd
    · simp only [List.mem_singleton] at hd
      subst hd
      exact ContainerUmount_ongoing w s c.Name σ2
    · cases hd
  have hdefs : ∀ (pre : List Deferred),
      (∀ d ∈ pre, ∀ r σ2, (d r σ2).1.ongoing = σ2.ongoing) →
      ∀ (e1 e2 e3 : CephEvent),
      ∀ d ∈ pre ++ [revertCall e1, revertCall e2, revertCall e3], ∀ r σ2,
        (d r σ2).1.ongoing = σ2.ongoing := by
    intro pre hpre e1 e2 e3 d hd r σ2
    simp only [List.mem_append, List.mem_cons, List.mem_singleton, List.not_mem_nil,
      or_false] at hd
    rcases hd with hd | rfl | rfl | rfl
    · exact hpre d hd r σ2
    · exact hr e1 r σ2
    · exact hr e2 r σ2
    · exact hr e3 r σ2
  unfold createFromImageBody
  dsimp only
  split
  · exact ⟨rfl, fun d hd => by cases hd⟩
  · split
    · refine ⟨rfl, fun d hd r σ2 => ?_⟩
      simp only [List.mem_singleton] at hd
      subst hd
      exact hr _ r σ2
    · split
      · refine ⟨rfl, fun d hd r σ2 => ?_⟩
        simp only [List.mem_cons, List.mem_singleton, List.not_mem_nil, or_false] at hd
        rcases hd with rfl | rfl
        · exact hr _ r σ2
        · exact hr _ r σ2
      · split
        · exact ⟨hm, hdefs [] (fun d hd => by cases hd) _ _ _⟩
        · split
          · exact ⟨hm, hdefs _ hum _ _ _⟩
          · exact ⟨hm, hdefs _ hum _ _ _⟩

theorem ContainerCreateFromImage_ongoing (w : CephWorld) (s : storageCeph)
    (c : Container) (f : String) (σ : CephState) :
    (ContainerCreateFromImage w s c f σ).state.ongoing = σ.ongoing := by
  have hi := imageStage_ongoing w s f σ
  unfold ContainerCreateFromImage
  dsimp only
  split
  · exact hi
  · obtain ⟨h1, h2⟩ := createFromImageBody_ongoing w s c f (imageStage w s f σ).state
    simp only [Body.finish]
    rw [runDeferred_ongoing _ _ h2, h1, hi]

/-- C27: every call of `ContainerMount`, `ContainerUmount`,
`StoragePoolVolumeMount`, `StoragePoolVolumeUmount` and
`ContainerCreateFromImage` leaves the operation map with exactly the keys it had
before the call, whatever the call returns: the entry inserted for the lock id
is closed and deleted before the call returns. -/
theorem C27_operation_map_restored (w : CephWorld) (s : storageCeph) (name : String)
    (container : Container) (fingerprint : String) (σ : CephState) :
    (ContainerMount w s name σ).state.ongoing = σ.ongoing ∧
    (ContainerUmount w s name σ).state.ongoing = σ.ongoing ∧
    (StoragePoolVolumeMount w s σ).state.ongoing = σ.ongoing ∧
    (StoragePoolVolumeUmount w s σ).state.ongoing = σ.ongoing ∧
    (ContainerCreateFromImage w s container fingerprint σ).state.ongoing = σ.ongoing :=
  ⟨ContainerMount_ongoing w s name σ, ContainerUmount_ongoing w s name σ,
    StoragePoolVolumeMount_ongoing w s σ, StoragePoolVolumeUmount_ongoing w s σ,
    ContainerCreateFromImage_ongoing w s container fingerprint σ⟩

/-- C26 fails for `ContainerMount`: the mount point of container "c1" is not
mounted, no caller holds the lock id, and `getRBDMappedDevPath` cannot resolve
the device (code -1). `ContainerMount` skips `tryMount`, returns `(false, nil)`
and leaves the mount point unmounted; `StoragePoolVolumeMount` in the same world
calls `tryMount` on the unresolved device and returns its error. -/
theorem C26_mount_unresolved_device_nil_error :
    getContainerMountLockID "p1" "c1" ∉ idleState.ongoing ∧
    IsMountPoint idleState "/var/lib/apollo/storage-pools/p1/containers/c1" = false ∧
    (ContainerMount
      { demoCephWorld true true (.ok []) none with
        getRBDMappedDevPath := fun _ _ _ _ _ => ("", -1),
        tryMount := fun dev _ _ _ _ => if dev = "" then some (.ext "no such device") else none }
      (demoCeph "p1" []) "c1" idleState).result = (false, none) ∧
    IsMountPoint (ContainerMount
      { demoCephWorld true true (.ok []) none with
        getRBDMappedDevPath := fun _ _ _ _ _ => ("", -1),
        tryMount := fun dev _ _ _ _ => if dev = "" then some (.ext "no such device") else none }
      (demoCeph "p1" []) "c1" idleState).state
      "/var/lib/apollo/storage-pools/p1/containers/c1" = false ∧
    (StoragePoolVolumeMount
      { demoCephWorld true true (.ok []) none with
        getRBDMappedDevPath := fun _ _ _ _ _ => ("", -1),
        tryMount := fun dev _ _ _ _ => if dev = "" then some (.ext "no such device") else none }
      (demoCeph "p1" []) idleState).result = (false, some (.ext "no such device")) := by
  decide

/-- C25 fails: the source "s" has the snapshots "a" and "b"; the transfer of "a"
creates the RBD snapshot "snapshot_a" on the target volume, then the transfer of
"b" fails. The revert of `ContainerCopy` asks to delete the snapshot "a" of the
target volume, not "snapshot_a"; `ContainerSnapshotCreate`, when its mount point
cannot be created, deletes the prefixed name "snapshot_a" it created. The last
run is the same copy onto a target whose directories and symlinks are there
already: the revert then removes them as well, and again deletes "a". -/
theorem C25_copy_revert_unprefixed_snapshot :
    (ContainerCopy
      { demoCephWorld true true (.ok []) none with
        copyWithSnapshots := fun _ _ parent =>
          if parent = "snapshot_a" then some (.ext "import failed") else none }
      (demoCeph "p1" []) (demoContainerNamed "t")
      { demoContainerNamed "s" with Snapshots := .ok ["s/a", "s/b"] } false
      idleState).result = some (.ext "import failed") ∧
    (ContainerCopy
      { demoCephWorld true true (.ok []) none with
        copyWithSnapshots := fun _ _ parent =>
          if parent = "snapshot_a" then some (.ext "import failed") else none }
      (demoCeph "p1" []) (demoContainerNamed "t")
      { demoContainerNamed "s" with Snapshots := .ok ["s/a", "s/b"] } false
      idleState).trace =
      [.StorageStart "s",
       .MkdirAll "/var/lib/apollo/storage-pools/p1/containers/t" 0o755,
       .Chmod "/var/lib/apollo/storage-pools/p1/containers/t" 0o755,
       .Symlink "/var/lib/apollo/storage-pools/p1/containers/t" "/var/lib/apollo/containers/t",
       .rbdVolumeCreate "p1" "t" "container" "0",
       .copyWithSnapshots "p1/container_s@snapshot_a" "p1/container_t" "",
       .MkdirAll "/var/lib/apollo/storage-pools/p1/snapshots/t/a" 0o711,
       .Symlink "/var/lib/apollo/storage-pools/p1/snapshots/t" "/var/lib/apollo/snapshots/t",
       .copyWithSnapshots "p1/container_s@snapshot_b" "p1/container_t" "snapshot_a",
       .rbdSnapshotDelete "p1" "t" "container" "a",
       .rbdVolumeDelete "p1" "t" "container"] ∧
    (ContainerSnapshotCreate
      { demoCephWorld true true (.ok []) none with
        MkdirAll := fun _ _ => some (.ext "read-only file system") }
      (demoCeph "p1" []) (demoContainerNamed "s/a") (demoContainerNamed "s")
      idleState).trace =
      [.rbdSnapshotCreate "p1" "s" "container" "snapshot_a",
       .MkdirAll "/var/lib/apollo/storage-pools/p1/snapshots/s/a" 0o711,
       .rbdSnapshotDelete "p1" "s" "container" "snapshot_a"] ∧
    (ContainerCopy
      { demoCephWorld true true (.ok []) none with
        PathExists := fun _ => true,
        copyWithSnapshots := fun _ _ parent =>
          if parent = "snapshot_a" then some (.ext "import failed") else none }
      (demoCeph "p1" []) (demoContainerNamed "t")
      { demoContainerNamed "s" with Snapshots := .ok ["s/a", "s/b"] } false
      idleState).trace =
      [.StorageStart "s",
       .Chmod "/var/lib/apollo/storage-pools/p1/containers/t" 0o755,
       .rbdVolumeCreate "p1" "t" "container" "0",
       .copyWithSnapshots "p1/container_s@snapshot_a" "p1/container_t" "",
       .copyWithSnapshots "p1/container_s@snapshot_b" "p1/container_t" "snapshot_a",
       .Remove "/var/lib/apollo/storage-pools/p1/snapshots/t/a",
       .Remove "/var/lib/apollo/storage-pools/p1/snapshots/t",
       .Remove "/var/lib/apollo/snapshots/t",
       .rbdSnapshotDelete "p1" "t" "container" "a",
       .rbdVolumeDelete "p1" "t" "container",
       .Remove "/var/lib/apollo/containers/t",
       .Remove "/var/lib/apollo/storage-pools/p1/containers/t"] := by
  decide

/-- C22 fails: whatever url list the query returns, `GetContainerLogfiles`
returns the empty list, because its loop ranges over the empty `logfiles` and
not over `urls`. For the two urls of container "c1" the specification asks for
the names "lxc.log" and "lxc.conf"; the code returns none of them. -/
theorem C22_logfiles_listing_empty :
    (∀ (urls : List String) (name : String),
      GetContainerLogfiles (fun _ _ => .ok urls) name = .ok []) ∧
    logfileNames ["/1.0/containers/c1/logs/lxc.log", "/1.0/containers/c1/logs/lxc.conf"]
      "c1" = ["lxc.log", "lxc.conf"] ∧
    GetContainerLogfiles
      (fun _ _ => .ok ["/1.0/containers/c1/logs/lxc.log", "/1.0/containers/c1/logs/lxc.conf"])
      "c1" ≠
      .ok (logfileNames
        ["/1.0/containers/c1/logs/lxc.log", "/1.0/containers/c1/logs/lxc.conf"] "c1") := by
  refine ⟨fun urls name => rfl, by decide, by decide⟩

/-- C28 fails for a device named "": the map with the single root disk device
"" yields "No root device could be found."; with the two root disk devices ""
and "b" the call returns "b" when "" is visited first and "More than one root
device found." when "b" is visited first. -/
theorem C28_root_disk_device_empty_name :
    isRootDiskDevice demoRootDisk = true ∧
    containerGetRootDiskDevice [("", demoRootDisk)] = .fail .noRootDevice ∧
    containerGetRootDiskDevice [("", demoRootDisk), ("b", demoRootDisk)] =
      .ok ("b", demoRootDisk) ∧
    containerGetRootDiskDevice [("b", demoRootDisk), ("", demoRootDisk)] =
      .fail .moreThanOneRootDevice := by
  decide

/-- C29 fails: with `args = nil`, `CopyContainerSnapshot` of the stateful
snapshot "c1/snap0" panics on reading `args.Live`, whatever the servers answer,
and for the snapshot that is not stateful it panics on reading `args.Name` as
soon as the source is another server; only the local copy of a snapshot that is
not stateful returns. -/
theorem C29_copy_snapshot_nil_args_panics :
    (∀ w : CopyServers, CopyContainerSnapshot w (demoSnapshot true) none = .panics) ∧
    (∀ (h1 h2 : String → Bool) (c : ContainersPost → Res String)
        (m : ContainersPost → ContainerSnapshotPost → String → String →
          Option ContainerSnapshotCopyArgs → Outcome RemoteOperation),
      CopyContainerSnapshot
        { HasExtension := h1, sourceHasExtension := h2, sameServer := false,
          CreateContainer := c, migration := m }
        (demoSnapshot false) none = .panics) ∧
    CopyContainerSnapshot (demoCopyServers true) (demoSnapshot false) none =
      .ret { targetOp := "op1" } := by
  refine ⟨fun w => ?_, fun h1 h2 c m => ?_, by decide⟩
  · rfl
  · rfl

theorem rootDiskLoop_found (l : List (String × Config)) :
    ∀ (n : String) (d : Config), n ≠ "" →
      rootDiskLoop l n d =
        (if l.filter (fun e => isRootDiskDevice e.2) = [] then .ok (n, d)
          else .fail .moreThanOneRootDevice) := by
  induction l with
  | nil => intro n d hn; simp [rootDiskLoop, hn]
  | cons e rest ih =>
    intro n d hn
    obtain ⟨m, c⟩ := e
    unfold rootDiskLoop
    cases hr : isRootDiskDevice c with
    | true => simp [hr, hn]
    | false =>
      simp only [Bool.false_eq_true, if_false]
      rw [ih n d hn, List.filter_cons_of_neg (by simp [hr])]

/-- When no root disk device is named "", `containerGetRootDiskDevice` returns
the root disk device if the map has exactly one, and fails with the error for
none or for several otherwise. -/
theorem containerGetRootDiskDevice_named (devices : List (String × Config))
    (hnames : ∀ e ∈ devices, isRootDiskDevice e.2 = true → e.1 ≠ "") :
    containerGetRootDiskDevice devices =
      (match devices.filter (fun e => isRootDiskDevice e.2) with
        | [] => .fail .noRootDevice
        | [e] => .ok e
        | _ :: _ :: _ => .fail .moreThanOneRootDevice) := by
  unfold containerGetRootDiskDevice
  generalize ([] : Config) = d0
  induction devices with
  | nil => rfl
  | cons e rest ih =>
    obtain ⟨m, c⟩ := e
    unfold rootDiskLoop
    cases hr : isRootDiskDevice c with
    | true =>
      have hm : m ≠ "" := hnames (m, c) (List.mem_cons_self _ _) hr
      simp only [if_true, ne_eq, not_true_eq_false, if_false]
      rw [rootDiskLoop_found rest m c hm, List.filter_cons_of_pos (by simp [hr])]
      cases hf : rest.filter (fun e => isRootDiskDevice e.2) with
      | nil => simp
      | cons a t => simp
    | false =>
      simp only [Bool.false_eq_true, if_false]
      rw [ih (fun e he => hnames e (List.mem_cons_of_mem _ he)),
        List.filter_cons_of_neg (by simp [hr])]

/-- With no root disk device named "", the result of `containerGetRootDiskDevice`
does not depend on the order in which the map is visited. -/
theorem containerGetRootDiskDevice_order (devices visited : List (String × Config))
    (hnames : ∀ e ∈ devices, isRootDiskDevice e.2 = true → e.1 ≠ "")
    (hperm : visited.Perm devices) :
    containerGetRootDiskDevice visited = containerGetRootDiskDevice devices := by
  have hnames2 : ∀ e ∈ visited, isRootDiskDevice e.2 = true → e.1 ≠ "" :=
    fun e he => hnames e (hperm.subset he)
  rw [containerGetRootDiskDevice_named devices hnames,
    containerGetRootDiskDevice_named visited hnames2]
  have hf := hperm.filter (fun e => isRootDiskDevice e.2)
  generalize visited.filter (fun e => isRootDiskDevice e.2) = a at hf
  generalize devices.filter (fun e => isRootDiskDevice e.2) = b at hf
  have hlen := hf.length_eq
  match a, b, hf, hlen with
  | [], [], _, _ => rfl
  | [x], [y], hp, _ =>
    have : x = y := by
      have hx : x ∈ [y] := hp.subset (List.mem_singleton_self x)
      exact List.mem_singleton.1 hx
    subst this
    rfl
  | _ :: _ :: _, _ :: _ :: _, _, _ => rfl
  | [], _ :: _, _, hl => simp at hl
  | _ :: _, [], _, hl => simp at hl
  | [_], _ :: _ :: _, _, hl => simp at hl
  | _ :: _ :: _, [_], _, hl => simp at hl

theorem lessChars_irrefl (l : List Char) : lessChars l l = false := by
  induction l with
  | nil => rfl
  | cons a l ih => simp [lessChars, ih]

theorem char_eq_of_toNat (a b : Char) (h1 : ¬ a.toNat < b.toNat) (h2 : ¬ b.toNat < a.toNat) :
    a = b := by
  have h : a.toNat = b.toNat := by omega
  apply Char.ext
  apply UInt32.ext
  exact h

theorem lessChars_total (a : List Char) :
    ∀ b, a ≠ b → lessChars a b = true ∨ lessChars b a = true := by
  induction a with
  | nil =>
    intro b hb
    cases b with
    | nil => exact absurd rfl hb
    | cons y b => exact Or.inl rfl
  | cons x a ih =>
    intro b hb
    cases b with
    | nil => exact Or.inr rfl
    | cons y b =>
      simp only [lessChars]
      by_cases h1 : x.toNat < y.toNat
      · simp [h1]
      · by_cases h2 : y.toNat < x.toNat
        · simp [h2]
        · have hxy := char_eq_of_toNat x y h1 h2
          subst hxy
          have hab : a ≠ b := fun e => hb (by rw [e])
          simpa [h1] using ih b hab

theorem lessChars_trans (a : List Char) :
    ∀ b c, lessChars a b = true → lessChars b c = true → lessChars a c = true := by
  induction a with
  | nil =>
    intro b c h1 h2
    cases b with
    | nil => simp [lessChars] at h1
    | cons y b =>
      cases c with
      | nil => simp [lessChars] at h2
      | cons z c => rfl
  | cons x a ih =>
    intro b c h1 h2
    cases b with
    | nil => simp [lessChars] at h1
    | cons y b =>
      cases c with
      | nil => simp [lessChars] at h2
      | cons z c =>
        simp only [lessChars] at h1 h2 ⊢
        by_cases hxy : x.toNat < y.toNat
        · by_cases hyz : y.toNat < z.toNat
          · have : x.toNat < z.toNat := by omega
            simp [this]
          · by_cases hzy : z.toNat < y.toNat
            · simp [hyz, hzy] at h2
            · have : x.toNat < z.toNat := by omega
              simp [this]
        · by_cases hyx : y.toNat < x.toNat
          · simp [hxy, hyx] at h1
          · simp only [hxy, hyx, if_false] at h1
            by_cases hyz : y.toNat < z.toNat
            · have : x.toNat < z.toNat := by omega
              simp [this]
            · by_cases hzy : z.toNat < y.toNat
              · simp [hyz, hzy] at h2
              · simp only [hyz, hzy, if_false] at h2
                have e1 : ¬ x.toNat < z.toNat := by omega
                have e2 : ¬ z.toNat < x.toNat := by omega
                simp only [e1, e2, if_false]
                exact ih b c h1 h2

theorem stringLess_irrefl (a : String) : stringLess a a = false :=
  lessChars_irrefl a.data

theorem stringLess_total (a b : String) (h : a ≠ b) :
    stringLess a b = true ∨ stringLess b a = true :=
  lessChars_total a.data b.data (fun e => h (String.ext e))

theorem stringLess_trans (a b c : String) (h1 : stringLess a b = true)
    (h2 : stringLess b c = true) : stringLess a c = true :=
  lessChars_trans a.data b.data c.data h1 h2

theorem stringLess_asymm (a b : String) (h : stringLess a b = true) :
    stringLess b a = false := by
  cases hba : stringLess b a with
  | false => rfl
  | true =>
    have := stringLess_trans a b a h hba
    rw [stringLess_irrefl] at this
    cases this

theorem cellLess_irrefl (a : String) : cellLess a a = false := by
  unfold cellLess
  split
  · rfl
  · rename_i h
    simp [h, stringLess_irrefl]

theorem cellLess_total (a b : String) (h : a ≠ b) :
    cellLess a b = true ∨ cellLess b a = true := by
  unfold cellLess
  by_cases ha : a = ""
  · have hb : b ≠ "" := fun e => h (ha.trans e.symm)
    simp [ha, hb]
  · by_cases hb : b = ""
    · simp [ha, hb]
    · simp only [ha, hb, if_false]
      exact stringLess_total a b h

theorem cellLess_trans (a b c : String) (h1 : cellLess a b = true)
    (h2 : cellLess b c = true) : cellLess a c = true := by
  unfold cellLess at h1 h2 ⊢
  by_cases ha : a = ""
  · simp [ha] at h1
  · by_cases hb : b = ""
    · simp [hb] at h2
    · by_cases hc : c = ""
      · simp [ha, hc]
      · simp only [ha, hb, hc, if_false] at h1 h2 ⊢
        exact stringLess_trans a b c h1 h2

theorem cellLess_asymm (a b : String) (h : cellLess a b = true) : cellLess b a = false := by
  cases hba : cellLess b a with
  | false => rfl
  | true =>
    have := cellLess_trans a b a h hba
    rw [cellLess_irrefl] at this
    cases this

theorem Less_irrefl (a : List String) : StringList.Less a a = false := by
  induction a with
  | nil => rfl
  | cons x a ih => simp [StringList.Less, ih]

theorem Less_total (a : List String) :
    ∀ b, a.length = b.length → a ≠ b →
      StringList.Less a b = true ∨ StringList.Less b a = true := by
  induction a with
  | nil =>
    intro b hl hb
    cases b with
    | nil => exact absurd rfl hb
    | cons y b => simp at hl
  | cons x a ih =>
    intro b hl hb
    cases b with
    | nil => simp at hl
    | cons y b =>
      simp only [StringList.Less]
      by_cases hxy : x = y
      · subst hxy
        have hab : a ≠ b := fun e => hb (by rw [e])
        simpa using ih b (by simpa using hl) hab
      · have hyx : y ≠ x := fun e => hxy e.symm
        simp only [ne_eq, hxy, hyx, not_false_eq_true, if_true]
        exact cellLess_total x y hxy

theorem Less_trans (a : List String) :
    ∀ b c, StringList.Less a b = true → StringList.Less b c = true →
      StringList.Less a c = true := by
  induction a with
  | nil => intro b c h1 _; simp [StringList.Less] at h1
  | cons x a ih =>
    intro b c h1 h2
    cases b with
    | nil => simp [StringList.Less] at h1
    | cons y b =>
      cases c with
      | nil => simp [StringList.Less] at h2
      | cons z c =>
        simp only [StringList.Less] at h1 h2 ⊢
        by_cases hxy : x = y
        · subst hxy
          simp only [ne_eq, not_true_eq_false, if_false] at h1
          by_cases hxz : x = z
          · subst hxz
            simp only [ne_eq, not_true_eq_false, if_false] at h2 ⊢
            exact ih b c h1 h2
          · simp only [ne_eq, hxz, not_false_eq_true, if_true] at h2 ⊢
            exact h2
        · simp only [ne_eq, hxy, not_false_eq_true, if_true] at h1
          by_cases hyz : y = z
          · subst hyz
            simp only [ne_eq, hxy, not_false_eq_true, if_true]
            exact h1
          · simp only [ne_eq, hyz, not_false_eq_true, if_true] at h2
            have hxz : x ≠ z := by
              intro e
              subst e
              have := cellLess_asymm x y h1
              rw [h2] at this
              cases this
            simp only [ne_eq, hxz, not_false_eq_true, if_true]
            exact cellLess_trans x y z h1 h2

theorem Less_asymm (a b : List String) (h : StringList.Less a b = true) :
    StringList.Less b a = false := by
  cases hba : StringList.Less b a with
  | false => rfl
  | true =>
    have := Less_trans a b a h hba
    rw [Less_irrefl] at this
    cases this

theorem notLess_total (a b : List String) :
    StringList.Less b a = false ∨ StringList.Less a b = false := by
  cases h : StringList.Less b a with
  | false => exact Or.inl rfl
  | true => exact Or.inr (Less_asymm b a h)

theorem notLess_trans (a b c : List String) (hab : a.length = b.length)
    (h1 : StringList.Less b a = false) (h2 : StringList.Less c b = false) :
    StringList.Less c a = false := by
  cases hca : StringList.Less c a with
  | false => rfl
  | true =>
    exfalso
    by_cases e : a = b
    · subst e
      rw [hca] at h2
      cases h2
    · rcases Less_total a b hab e with h | h
      · have := Less_trans c a b hca h
        rw [this] at h2
        cases h2
      · rw [h] at h1
        cases h1

theorem notLess_RowBefore (a : List String) :
    ∀ b, a.length = b.length → StringList.Less b a = false → RowBefore a b := by
  induction a with
  | nil =>
    intro b hl _
    cases b with
    | nil => exact Or.inl rfl
    | cons y b => simp at hl
  | cons x a ih =>
    intro b hl h
    cases b with
    | nil => simp at hl
    | cons y b =>
      simp only [StringList.Less] at h
      by_cases hxy : x = y
      · subst hxy
        simp only [ne_eq, not_true_eq_false, if_false] at h
        rcases ih b (by simpa using hl) h with e | ⟨common, u, v, ra, rb, e1, e2, huv, hord⟩
        · exact Or.inl (by rw [e])
        · refine Or.inr ⟨x :: common, u, v, ra, rb, ?_, ?_, huv, hord⟩
          · rw [e1]; rfl
          · rw [e2]; rfl
      · have hyx : y ≠ x := fun e => hxy e.symm
        simp only [ne_eq, hyx, not_false_eq_true, if_true] at h
        refine Or.inr ⟨[], x, y, a, b, rfl, rfl, hxy, ?_⟩
        unfold cellLess at h
        by_cases hy : y = ""
        · exact Or.inl hy
        · by_cases hx : x = ""
          · simp [hy, hx] at h
          · simp only [hy, hx, if_false] at h
            refine Or.inr ⟨hx, ?_⟩
            rcases stringLess_total x y hxy with h1 | h1
            · exact h1
            · rw [h1] at h
              cases h

theorem sorted_orderedInsert_rows (n : Nat) (a : List String) (ha : a.length = n) :
    ∀ l : List (List String), (∀ x ∈ l, x.length = n) →
      l.Sorted (fun a b => StringList.Less b a = false) →
      (l.orderedInsert (fun a b => StringList.Less b a = false) a).Sorted
        (fun a b => StringList.Less b a = false) := by
  intro l
  induction l with
  | nil => intro _ _; exact List.sorted_singleton a
  | cons b l ih =>
    intro hl hs
    have hb : b.length = n := hl b (List.mem_cons_self _ _)
    have hl2 : ∀ x ∈ l, x.length = n := fun x hx => hl x (List.mem_cons_of_mem _ hx)
    obtain ⟨hbl, hsl⟩ := List.sorted_cons.1 hs
    simp only [List.orderedInsert]
    split
    · rename_i hab
      refine List.sorted_cons.2 ⟨fun x hx => ?_, hs⟩
      rcases List.mem_cons.1 hx with e | hx2
      · rw [e]; exact hab
      · exact notLess_trans a b x (ha.trans hb.symm) hab (hbl x hx2)
    · rename_i hab
      have hba : StringList.Less a b = false := by
        rcases notLess_total a b with h | h
        · exact absurd h hab
        · exact h
      refine List.sorted_cons.2 ⟨fun x hx => ?_, ih hl2 hsl⟩
      rcases (List.mem_orderedInsert _).1 hx with e | hx2
      · rw [e]; exact hba
      · exact hbl x hx2

theorem sorted_sort_rows (n : Nat) :
    ∀ data : List (List String), (∀ row ∈ data, row.length = n) →
      (StringList.sort data).Sorted (fun a b => StringList.Less b a = false) := by
  intro data
  induction data with
  | nil => intro _; exact List.sorted_nil
  | cons row data ih =>
    intro h
    have hrow : row.length = n := h row (List.mem_cons_self _ _)
    have hdata : ∀ r ∈ data, r.length = n := fun r hr => h r (List.mem_cons_of_mem _ hr)
    unfold StringList.sort
    simp only [List.insertionSort]
    refine sorted_orderedInsert_rows n row hrow _ (fun x hx => ?_) (ih hdata)
    exact hdata x ((List.perm_insertionSort _ data).subset hx)

/-- C23: sorting a `StringList` whose rows all have one length yields a
permutation of the rows in which every row stands before the rows it precedes
in this order: two rows are compared in the first column in which they differ,
by the cells' strings in Go's string order, except that an empty string comes
after every non-empty string. -/
theorem C23_string_list_sorted (data : List (List String)) (n : Nat)
    (hrows : ∀ row ∈ data, row.length = n) :
    (StringList.sort data).Perm data ∧ (StringList.sort data).Pairwise RowBefore := by
  have hperm : (StringList.sort data).Perm data := List.perm_insertionSort _ data
  refine ⟨hperm, ?_⟩
  have hs := sorted_sort_rows n data hrows
  refine List.Pairwise.imp_of_mem (fun {a b} ha hb hab => ?_) hs
  have la := hrows a (hperm.subset ha)
  have lb := hrows b (hperm.subset hb)
  exact notLess_RowBefore a b (la.trans lb.symm) hab

theorem C23_string_list_sorted_witness :
    (StringList.sort [["", "bar"], ["foo", "baz"], ["foo", "bar"]]).Pairwise RowBefore ∧
    StringList.sort [["foo", "bar"], ["baz", "bza"]] = [["baz", "bza"], ["foo", "bar"]] ∧
    StringList.sort [["foo", "baz"], ["foo", "bar"]] = [["foo", "bar"], ["foo", "baz"]] ∧
    StringList.sort [["", "bar"], ["foo", "baz"]] = [["foo", "baz"], ["", "bar"]] :=
  ⟨(C23_string_list_sorted [["", "bar"], ["foo", "baz"], ["foo", "bar"]] 2
      (by decide)).2,
    by decide, by decide, by decide⟩

theorem searchLoop_spec (f : Nat → Bool) (n : Nat)
    (hmono : ∀ k k2, k ≤ k2 → k2 < n → f k = true → f k2 = true) :
    ∀ fuel i j, i ≤ j → j ≤ n → j - i ≤ fuel →
      (∀ k, k < i → f k = false) → (∀ k, j ≤ k → k < n → f k = true) →
      searchLoop f fuel i j ≤ n ∧
      (∀ k, k < searchLoop f fuel i j → f k = false) ∧
      (∀ k, searchLoop f fuel i j ≤ k → k < n → f k = true) := by
  intro fuel
  induction fuel with
  | zero =>
    intro i j hij hjn hfuel hlow hhigh
    have e : i = j := by omega
    subst e
    exact ⟨hjn, hlow, hhigh⟩
  | succ fuel ih =>
    intro i j hij hjn hfuel hlow hhigh
    unfold searchLoop
    by_cases hlt : i < j
    · simp only [hlt, if_true]
      have h1 : i ≤ (i + j) / 2 := by omega
      have h2 : (i + j) / 2 < j := by omega
      cases hf : f ((i + j) / 2) with
      | false =>
        simp only [if_true]
        refine ih ((i + j) / 2 + 1) j (by omega) hjn (by omega) (fun k hk => ?_) hhigh
        cases hfk : f k with
        | false => rfl
        | true =>
          have := hmono k ((i + j) / 2) (by omega) (by omega) hfk
          rw [hf] at this
          cases this
      | true =>
        simp only [Bool.true_eq_false, if_false]
        refine ih i ((i + j) / 2) h1 (by omega) (by omega) hlow (fun k hk hkn => ?_)
        exact hmono ((i + j) / 2) k hk hkn hf
    · simp only [hlt, if_false]
      have e : i = j := by omega
      subst e
      exact ⟨hjn, hlow, hhigh⟩

theorem getD_mem_of_lt (d : String) (a : List String) :
    ∀ k, k < a.length → a.getD k d ∈ a := by
  induction a with
  | nil => intro k hk; simp at hk
  | cons u t ih =>
    intro k hk
    cases k with
    | zero => simp
    | succ m =>
      simp only [List.getD_cons_succ]
      exact List.mem_cons_of_mem _ (ih m (by simpa using hk))

theorem mem_getD (d : String) (a : List String) (x : String) (hx : x ∈ a) :
    ∃ k, k < a.length ∧ a.getD k d = x := by
  induction a with
  | nil => cases hx
  | cons u t ih =>
    rcases List.mem_cons.1 hx with e | h
    · exact ⟨0, by simp, by simp [e]⟩
    · obtain ⟨k, hk, hkx⟩ := ih h
      exact ⟨k + 1, by simpa using hk, by simpa using hkx⟩

theorem sorted_getD (d : String) (a : List String)
    (hs : a.Pairwise (fun u v => stringLess v u = false)) :
    ∀ k k2, k < k2 → k2 < a.length → stringLess (a.getD k2 d) (a.getD k d) = false := by
  induction a with
  | nil => intro k k2 _ h; simp at h
  | cons u t ih =>
    intro k k2 hk hk2
    obtain ⟨hu, ht⟩ := List.pairwise_cons.1 hs
    cases k2 with
    | zero => omega
    | succ m2 =>
      have hm2 : m2 < t.length := by simpa using hk2
      cases k with
      | zero =>
        simp only [List.getD_cons_succ, List.getD_cons_zero]
        exact hu _ (getD_mem_of_lt d t m2 hm2)
      | succ m =>
        simp only [List.getD_cons_succ]
        exact ih ht m m2 (by omega) hm2

theorem search_mono (a : List String) (x : String)
    (hs : a.Pairwise (fun u v => stringLess v u = false)) :
    ∀ k k2, k ≤ k2 → k2 < a.length →
      (!stringLess (a.getD k "") x) = true → (!stringLess (a.getD k2 "") x) = true := by
  intro k k2 hk hk2 h
  by_cases e : k = k2
  · subst e
    exact h
  · have hord := sorted_getD "" a hs k k2 (by omega) hk2
    simp only [Bool.not_eq_true'] at h ⊢
    cases hx : stringLess (a.getD k2 "") x with
    | false => rfl
    | true =>
      exfalso
      by_cases e2 : a.getD k "" = a.getD k2 ""
      · rw [e2, hx] at h
        cases h
      · rcases stringLess_total _ _ e2 with h1 | h1
        · have := stringLess_trans _ _ _ h1 hx
          rw [this] at h
          cases h
        · rw [h1] at hord
          cases hord

theorem SearchStrings_found (a : List String) (x : String)
    (hs : a.Pairwise (fun u v => stringLess v u = false)) :
    (SearchStrings a x < a.length ∧ a.getD (SearchStrings a x) "" = x) ↔ x ∈ a := by
  have hspec : SearchStrings a x ≤ a.length ∧
      (∀ k, k < SearchStrings a x → (!stringLess (a.getD k "") x) = false) ∧
      (∀ k, SearchStrings a x ≤ k → k < a.length → (!stringLess (a.getD k "") x) = true) :=
    searchLoop_spec (fun i => !stringLess (a.getD i "") x) a.length
      (search_mono a x hs) a.length 0 a.length (Nat.zero_le _) (le_refl _) (by omega)
      (fun k hk => by omega) (fun k hk hk2 => by omega)
  obtain ⟨_, hlow, hhigh⟩ := hspec
  constructor
  · intro h
    rw [← h.2]
    exact getD_mem_of_lt "" a _ h.1
  · intro hx
    obtain ⟨k, hk, hkx⟩ := mem_getD "" a x hx
    have hfk : (!stringLess (a.getD k "") x) = true := by
      rw [hkx, stringLess_irrefl]
      rfl
    have hpk : SearchStrings a x ≤ k := by
      by_contra hlt
      have := hlow k (by omega)
      rw [this] at hfk
      cases hfk
    have hp : SearchStrings a x < a.length := by omega
    refine ⟨hp, ?_⟩
    have hfp := hhigh (SearchStrings a x) (le_refl _) hp
    simp only [Bool.not_eq_true'] at hfp
    by_cases e : SearchStrings a x = k
    · rw [e]
      exact hkx
    · have hord := sorted_getD "" a hs (SearchStrings a x) k (by omega) hk
      rw [hkx] at hord
      by_contra hne
      rcases stringLess_total _ _ hne with h1 | h1
      · rw [h1] at hfp
        cases hfp
      · rw [h1] at hord
        cases hord

theorem foldl_append_filter {α : Type} (c : α → Prop) [DecidablePred c] (l : List α) :
    ∀ init : List α,
      l.foldl (fun acc e => if c e then acc ++ [e] else acc) init =
        init ++ l.filter (fun e => decide (c e)) := by
  induction l with
  | nil => intro init; simp
  | cons e l ih =>
    intro init
    simp only [List.foldl_cons]
    by_cases h : c e
    · rw [if_pos h, ih, List.filter_cons_of_pos (by simpa using h)]
      simp
    · rw [if_neg h, ih, List.filter_cons_of_neg (by simpa using h)]

/-- C24: for every sorted list of names and every list of alias entries,
`GetExistingAliases` returns exactly the entries whose name occurs among the
names, in the order they have in the list of entries; it returns the empty list
when no entry's name occurs among the names. -/
theorem C24_existing_aliases (names : List String) (allAliases : List ImageAliasesEntry)
    (hsorted : names.Pairwise (fun u v => stringLess v u = false)) :
    GetExistingAliases names allAliases =
      allAliases.filter (fun e => decide (e.Name ∈ names)) ∧
    ((∀ e ∈ allAliases, e.Name ∉ names) → GetExistingAliases names allAliases = []) := by
  have main : GetExistingAliases names allAliases =
      allAliases.filter (fun e => decide (e.Name ∈ names)) := by
    unfold GetExistingAliases
    have := foldl_append_filter
      (fun e : ImageAliasesEntry => SearchStrings names e.Name < names.length ∧
        names.getD (SearchStrings names e.Name) "" = e.Name) allAliases []
    simp only [List.nil_append] at this
    rw [this]
    apply List.filter_congr
    intro e _
    simp only [SearchStrings_found names e.Name hsorted]
  refine ⟨main, fun hnone => ?_⟩
  rw [main]
  apply List.filter_eq_nil_iff.2
  intro e he
  simpa using hnone e he

theorem C24_existing_aliases_witness :
    GetExistingAliases ["bar", "foo", "other"]
      [{ Name := "foo" }, { Name := "bar" }, { Name := "baz" }] =
      [{ Name := "foo" }, { Name := "bar" }] ∧
    GetExistingAliases ["other1", "other2"]
      [{ Name := "foo" }, { Name := "bar" }, { Name := "baz" }] = [] :=
  ⟨(C24_existing_aliases ["bar", "foo", "other"]
      [{ Name := "foo" }, { Name := "bar" }, { Name := "baz" }] (by decide)).1.trans
      (by decide),
    (C24_existing_aliases ["other1", "other2"]
      [{ Name := "foo" }, { Name := "bar" }, { Name := "baz" }] (by decide)).2 (by decide)⟩

end Apollo
